import Mathlib

/-!
# hen.js visual controller: a shallow embedding of `visual/js/controller.js`

The controller of the path-finding visualiser is a finite state machine
(created with `StateMachine.create`) extended with a grid, an operation queue
recorded during a search, and a playback loop that replays the queue onto the
view.  The embedding below follows the source function by function.

* Strings are kept as strings (`'ready'`, `'opened'`, ...): state and event
  names are data in the source, not types.
* A JavaScript `undefined` field is an `Option` that is `none`.
* The collaborators that are not part of `controller.js` (the `StateMachine`
  library, `PF.Grid`, `View`, the finder) are either parameters (`Env`) or
  small models written from the specification; each such model says so.
* `setTimeout` callbacks are explicit: a call of `setTimeout` appends a
  `Timer` to `Controller.timers`, and `Controller.fireTimer` runs one of them.
* Calls into `View` are recorded, in order, in `Controller.view`.
* What a collaborator reports instead of acting (an illegal transition, a
  write outside the grid) is kept beside the pointer handlers, in the
  functions whose names end in `R`; their controllers are those of the
  handlers.
* Grids are values; where sharing matters (`onsearch` and `clone()`), the
  grid objects of a session are a `GridStore` addressed by reference.
-/

namespace Hen

/-! ## The state machine configuration (controller.js, lines 7-91) -/

/-- One entry of the `events` array passed to `StateMachine.create`;
`src` is the entry's `from` (a single name is a one-element list) and `dst`
is its `to`. -/
structure EventSpec where
  name : String
  src : List String
  dst : String
  deriving DecidableEq, Repr

/-- The wildcard `'*'` accepted in a `from` field. -/
def WILDCARD : String := "*"

/-- The `events` array of `StateMachine.create`, in source order. -/
def events : List EventSpec :=
  [ { name := "init", src := ["none"], dst := "ready" },
    { name := "search", src := ["starting"], dst := "searching" },
    { name := "pause", src := ["searching"], dst := "paused" },
    { name := "finish", src := ["searching"], dst := "finished" },
    { name := "resume", src := ["paused"], dst := "searching" },
    { name := "cancel", src := ["paused"], dst := "ready" },
    { name := "modify", src := ["finished"], dst := "modified" },
    { name := "reset", src := ["*"], dst := "ready" },
    { name := "clear", src := ["finished", "modified"], dst := "ready" },
    { name := "start", src := ["ready", "modified", "restarting"], dst := "starting" },
    { name := "restart", src := ["searching", "finished"], dst := "restarting" },
    { name := "dragStart", src := ["ready", "finished"], dst := "draggingStart" },
    { name := "dragEnd", src := ["ready", "finished"], dst := "draggingEnd" },
    { name := "drawWall", src := ["ready", "finished"], dst := "drawingWall" },
    { name := "eraseWall", src := ["ready", "finished"], dst := "erasingWall" },
    { name := "rest",
      src := ["draggingStart", "draggingEnd", "drawingWall", "erasingWall"],
      dst := "ready" } ]

/-- The `initial` state of `StateMachine.create`. -/
def initial : String := "none"

/-- Modelled from the spec: the transition lookup of the `StateMachine`
library, which is not part of `controller.js`.  An event is accepted in state
`s` when `s` is listed in its `from` field or the field is the wildcard, and
the machine then moves to the entry's `to`; otherwise there is no
destination. -/
def StateMachine.destination (name s : String) : Option String :=
  match events.find? (fun ev => ev.name == name) with
  | none => none
  | some ev =>
    if ev.src.contains s || ev.src.contains WILDCARD then some ev.dst else none

/-! ## The transition table as the specification words it (section 4.4) -/

/-- The twelve states enumerated by the specification. -/
def Spec.stateNames : List String :=
  ["none", "ready", "starting", "searching", "paused", "finished", "modified",
   "restarting", "draggingStart", "draggingEnd", "drawingWall", "erasingWall"]

/-- The sixteen events of the specification's transition table. -/
def Spec.eventNames : List String :=
  ["init", "start", "search", "pause", "resume", "cancel", "finish", "restart",
   "modify", "reset", "clear", "dragStart", "dragEnd", "drawWall", "eraseWall",
   "rest"]

/-- The rows of the specification's table: event, allowed-from, to.  The
allowed-from of `reset` is `any`, written here as `none`. -/
def Spec.table : List (String × Option (List String) × String) :=
  [ ("init", some ["none"], "ready"),
    ("start", some ["ready", "modified", "restarting"], "starting"),
    ("search", some ["starting"], "searching"),
    ("pause", some ["searching"], "paused"),
    ("resume", some ["paused"], "searching"),
    ("cancel", some ["paused"], "ready"),
    ("finish", some ["searching"], "finished"),
    ("restart", some ["searching", "finished"], "restarting"),
    ("modify", some ["finished"], "modified"),
    ("reset", none, "ready"),
    ("clear", some ["finished", "modified"], "ready"),
    ("dragStart", some ["ready", "finished"], "draggingStart"),
    ("dragEnd", some ["ready", "finished"], "draggingEnd"),
    ("drawWall", some ["ready", "finished"], "drawingWall"),
    ("eraseWall", some ["ready", "finished"], "erasingWall"),
    ("rest", some ["draggingStart", "draggingEnd", "drawingWall", "erasingWall"],
      "ready") ]

/-- Legality of event `e` in state `s` according to the specification's
table. -/
def Spec.legal (e s : String) : Bool :=
  match Spec.table.find? (fun row => row.1 == e) with
  | none => false
  | some (_, none, _) => true
  | some (_, some allowed, _) => allowed.contains s

/-- The `to` column of the specification's table. -/
def Spec.dest (e : String) : Option String :=
  (Spec.table.find? (fun row => row.1 == e)).map (fun row => row.2.2)

/-! ## Collaborators of the controller -/

/-- Modelled from the spec: `PF.Grid`, which is not part of `controller.js`
(section 3: a mapping from coordinate to cell plus `numCols`, `numRows`).
`walkable x y` is the flag of the cell at column `x`, row `y`. -/
structure Grid where
  width : Nat
  height : Nat
  walkable : Int → Int → Bool

/-- Modelled from the spec: `new PF.Grid(numCols, numRows)`, a fresh grid in
which every cell is walkable. -/
def Grid.new (numCols numRows : Nat) : Grid :=
  { width := numCols, height := numRows, walkable := fun _ _ => true }

/-- Modelled from the spec: the bounds `[0, numCols) x [0, numRows)` of a
grid. -/
def Grid.isInside (g : Grid) (x y : Int) : Bool :=
  decide (0 ≤ x) && decide (x < g.width) && decide (0 ≤ y) && decide (y < g.height)

/-- Modelled from the spec: `isWalkableAt(x, y)` returns the current
walkability; coordinates outside the bounds are non-walkable. -/
def Grid.isWalkableAt (g : Grid) (x y : Int) : Bool :=
  g.isInside x y && g.walkable x y

/-- Modelled from the spec: `setWalkableAt(x, y, walkable)` sets the
walkability of the cell at `(x, y)`.  No cell exists outside the bounds, so a
write there changes nothing. -/
def Grid.setWalkableAt (g : Grid) (x y : Int) (w : Bool) : Grid :=
  if g.isInside x y then
    { g with walkable := fun a b => if a = x ∧ b = y then w else g.walkable a b }
  else g

/-- Modelled from the spec: `clone()` produces an independent copy; in a
value semantics the copy is the grid itself.  `GridStore.clone` is `clone()`
on grid objects that are shared by reference. -/
def Grid.clone (g : Grid) : Grid := g

/-- One record pushed on `Controller.operations` by the hooked setters of
`PF.Node` (lines 304-309, 316-321, 328-333). -/
structure Operation where
  x : Int
  y : Int
  attr : String
  value : Bool
  deriving DecidableEq, Repr

/-- The calls the controller makes into `View`, recorded in call order.
`showStats` carries the path whose `PF.Util.pathLength` is displayed. -/
inductive ViewCall where
  | init (numCols numRows : Nat)
  | generateGrid
  | setAttributeAt (x y : Int) (attr : String) (value : Bool)
  | showStats (path : Option (List (Int × Int))) (timeSpent : Option String)
      (operationCount : Option Nat)
  | drawPath (path : Option (List (Int × Int)))
  | clearFootprints
  | clearPath
  | clearBlockedNodes
  | setStartPos (x y : Int)
  | setEndPos (x y : Int)
  | setFirePos (x y : Int)
  | setCarrefourPos (x y : Int)
  | setApplePos (x y : Int)
  | setMacdonaldPos (x y : Int)
  | setStarbucksPos (x y : Int)
  | setMujiPos (x y : Int)
  | setAdidasPos (x y : Int)
  | setNikePos (x y : Int)
  | setUniqloPos (x y : Int)
  | setBurgerPos (x y : Int)
  deriving DecidableEq, Repr

/-- One of the three `.control_button` elements: its text, whether it is
enabled, and the event method bound as its click callback. -/
structure Button where
  text : String
  enabled : Bool
  callback : Option String
  deriving DecidableEq, Repr

/-- One argument of `setButtonStates`; an absent key is `none`. -/
structure ButtonOpt where
  id : Nat
  text : Option String
  enabled : Option Bool
  callback : Option String
  deriving DecidableEq, Repr

/-- The callbacks the controller hands to `setTimeout` or to `View`:
the `View.generateGrid` callback of `onleavenone`, the deferred bodies of
`onrestart` and `onreset`, and the playback tick of `loop`. -/
inductive Timer where
  | gridGenerated
  | restart
  | reset
  | tick
  deriving DecidableEq, Repr

/-- A transition the `StateMachine` library holds back after a leave-state
callback returned `StateMachine.ASYNC`, until `Controller.transition()` is
called. -/
structure Pending where
  name : String
  dst : String
  deriving DecidableEq, Repr

/-- What the controller reads from its surroundings: the operations the
view can render, the pixel-to-cell mapping of the view, the finder chosen in
the panel (its returned path together with the operations its node writes
record, in order), and the measured search time. -/
structure Env where
  supportedOperations : List String
  toGridCoordinate : Int → Int → Int × Int
  findPath : Option Int → Option Int → Option Int → Option Int → Grid →
    List (Int × Int) × List Operation
  timeSpent : String

/-! ## The controller object -/

/-- The fields of the `Controller` singleton that its methods read or write.
`current` and `transition` belong to the state machine; `view` is the trace of
`View` calls and `timers` the callbacks scheduled and not yet run. -/
structure Controller where
  current : String
  transition : Option Pending
  gridSize : Nat × Nat
  grid : Grid
  operations : List Operation
  path : Option (List (Int × Int))
  operationCount : Option Nat
  timeSpent : Option String
  buttons : List Button
  startX : Option Int
  startY : Option Int
  endX : Option Int
  endY : Option Int
  fireX : Option Int
  fireY : Option Int
  carrefourX : Option Int
  carrefourY : Option Int
  appleX : Option Int
  appleY : Option Int
  macdonaldX : Option Int
  macdonaldY : Option Int
  starbucksX : Option Int
  starbucksY : Option Int
  mujiX : Option Int
  mujiY : Option Int
  adidasX : Option Int
  adidasY : Option Int
  nikeX : Option Int
  nikeY : Option Int
  uniqloX : Option Int
  uniqloY : Option Int
  burgerX : Option Int
  burgerY : Option Int
  view : List ViewCall
  timers : List Timer

namespace Controller

/-- The controller right after `StateMachine.create` and `$.extend`: state
`none`, `gridSize` 64 x 36, nothing else assigned yet (the grid, created only
by `onleavenone`, is empty until then). -/
def create : Controller :=
  { current := initial, transition := none, gridSize := (64, 36),
    grid := { width := 0, height := 0, walkable := fun _ _ => false },
    operations := [], path := none, operationCount := none, timeSpent := none,
    buttons := [ { text := "", enabled := true, callback := none },
                 { text := "", enabled := true, callback := none },
                 { text := "", enabled := true, callback := none } ],
    startX := none, startY := none, endX := none, endY := none,
    fireX := none, fireY := none, carrefourX := none, carrefourY := none,
    appleX := none, appleY := none, macdonaldX := none, macdonaldY := none,
    starbucksX := none, starbucksY := none, mujiX := none, mujiY := none,
    adidasX := none, adidasY := none, nikeX := none, nikeY := none,
    uniqloX := none, uniqloY := none, burgerX := none, burgerY := none,
    view := [], timers := [] }

/-- Modelled from the spec: `Controller.is(state)` of the `StateMachine`
library. -/
def is (c : Controller) (state : String) : Bool := c.current == state

/-- Modelled from the spec: `Controller.can(event)` of the `StateMachine`
library, the "can this event fire now" predicate: no transition is held back
and the event is accepted in the current state. -/
def can (c : Controller) (event : String) : Bool :=
  !c.transition.isSome && (StateMachine.destination event c.current).isSome

/-- Append one call to the trace of `View` calls. -/
def emit (c : Controller) (v : ViewCall) : Controller :=
  { c with view := c.view ++ [v] }

/-- Record a `setTimeout` (or `View.generateGrid`) callback as scheduled. -/
def setTimeout (c : Controller) (t : Timer) : Controller :=
  { c with timers := c.timers ++ [t] }

/-- The body of the `$.each` callback of `setButtonStates` (lines 442-459)
for one option object. -/
def setButtonState (c : Controller) (opt : ButtonOpt) : Controller :=
  let update : Button → Button := fun b =>
    let b1 := match opt.text with
      | some t => if t = "" then b else { b with text := t }
      | none => b
    let b2 := match opt.callback with
      | some cb => { b1 with callback := some cb }
      | none => b1
    match opt.enabled with
      | none => b2
      | some e => { b2 with enabled := e }
  { c with buttons := List.modify update (opt.id - 1) c.buttons }

/-- The method `setButtonStates` (lines 441-460). -/
def setButtonStates (c : Controller) (opts : List ButtonOpt) : Controller :=
  opts.foldl setButtonState c

/-- The method `setWalkableAt` (lines 663-666). -/
def setWalkableAt (c : Controller) (gridX gridY : Int) (walkable : Bool) : Controller :=
  ({ c with grid := c.grid.setWalkableAt gridX gridY walkable }).emit
    (.setAttributeAt gridX gridY "walkable" walkable)

/-- The method `setStartPos` (lines 602-606). -/
def setStartPos (c : Controller) (gridX gridY : Int) : Controller :=
  ({ c with startX := some gridX, startY := some gridY }).emit (.setStartPos gridX gridY)

/-- The method `setEndPos` (lines 607-611). -/
def setEndPos (c : Controller) (gridX gridY : Int) : Controller :=
  ({ c with endX := some gridX, endY := some gridY }).emit (.setEndPos gridX gridY)

/-- The method `setFirePos` (lines 612-616). -/
def setFirePos (c : Controller) (gridX gridY : Int) : Controller :=
  ({ c with fireX := some gridX, fireY := some gridY }).emit (.setFirePos gridX gridY)

/-- The method `setCarrefourPos` (lines 617-621). -/
def setCarrefourPos (c : Controller) (gridX gridY : Int) : Controller :=
  ({ c with carrefourX := some gridX, carrefourY := some gridY }).emit
    (.setCarrefourPos gridX gridY)

/-- The method `setApplePos` (lines 622-626). -/
def setApplePos (c : Controller) (gridX gridY : Int) : Controller :=
  ({ c with appleX := some gridX, appleY := some gridY }).emit (.setApplePos gridX gridY)

/-- The method `setMacdonaldPos` (lines 627-631). -/
def setMacdonaldPos (c : Controller) (gridX gridY : Int) : Controller :=
  ({ c with macdonaldX := some gridX, macdonaldY := some gridY }).emit
    (.setMacdonaldPos gridX gridY)

/-- The method `setStarbucksPos` (lines 632-636). -/
def setStarbucksPos (c : Controller) (gridX gridY : Int) : Controller :=
  ({ c with starbucksX := some gridX, starbucksY := some gridY }).emit
    (.setStarbucksPos gridX gridY)

/-- The method `setMujiPos` (lines 637-641). -/
def setMujiPos (c : Controller) (gridX gridY : Int) : Controller :=
  ({ c with mujiX := some gridX, mujiY := some gridY }).emit (.setMujiPos gridX gridY)

/-- The method `setAdidasPos` (lines 642-646). -/
def setAdidasPos (c : Controller) (gridX gridY : Int) : Controller :=
  ({ c with adidasX := some gridX, adidasY := some gridY }).emit (.setAdidasPos gridX gridY)

/-- The method `setNikePos` (lines 647-651). -/
def setNikePos (c : Controller) (gridX gridY : Int) : Controller :=
  ({ c with nikeX := some gridX, nikeY := some gridY }).emit (.setNikePos gridX gridY)

/-- The method `setUniqloPos` (lines 652-656). -/
def setUniqloPos (c : Controller) (gridX gridY : Int) : Controller :=
  ({ c with uniqloX := some gridX, uniqloY := some gridY }).emit (.setUniqloPos gridX gridY)

/-- The method `setBurgerPos` (lines 657-661). -/
def setBurgerPos (c : Controller) (gridX gridY : Int) : Controller :=
  ({ c with burgerX := some gridX, burgerY := some gridY }).emit (.setBurgerPos gridX gridY)

/-- The comparison `gridX === this.posX && gridY === this.posY` shared by the
`is...Pos` methods; an unassigned (`undefined`) field equals no number. -/
def samePos (px py : Option Int) (gridX gridY : Int) : Bool :=
  px == some gridX && py == some gridY

/-- The method `isStartPos` (lines 667-669). -/
def isStartPos (c : Controller) (gridX gridY : Int) : Bool :=
  samePos c.startX c.startY gridX gridY

/-- The method `isEndPos` (lines 670-672). -/
def isEndPos (c : Controller) (gridX gridY : Int) : Bool :=
  samePos c.endX c.endY gridX gridY

/-- The method `isFirePos` (lines 673-675). -/
def isFirePos (c : Controller) (gridX gridY : Int) : Bool :=
  samePos c.fireX c.fireY gridX gridY

/-- The method `isCarrefourPos` (lines 676-678). -/
def isCarrefourPos (c : Controller) (gridX gridY : Int) : Bool :=
  samePos c.carrefourX c.carrefourY gridX gridY

/-- The method `isApplePos` (lines 679-681). -/
def isApplePos (c : Controller) (gridX gridY : Int) : Bool :=
  samePos c.appleX c.appleY gridX gridY

/-- The method `isMacdonaldPos` (lines 682-684). -/
def isMacdonaldPos (c : Controller) (gridX gridY : Int) : Bool :=
  samePos c.macdonaldX c.macdonaldY gridX gridY

/-- The method `isStarbucksPos` (lines 685-687). -/
def isStarbucksPos (c : Controller) (gridX gridY : Int) : Bool :=
  samePos c.starbucksX c.starbucksY gridX gridY

/-- The method `isMujiPos` (lines 688-690). -/
def isMujiPos (c : Controller) (gridX gridY : Int) : Bool :=
  samePos c.mujiX c.mujiY gridX gridY

/-- The method `isAdidasPos` (lines 691-693). -/
def isAdidasPos (c : Controller) (gridX gridY : Int) : Bool :=
  samePos c.adidasX c.adidasY gridX gridY

/-- The method `isNikePos` (lines 694-696). -/
def isNikePos (c : Controller) (gridX gridY : Int) : Bool :=
  samePos c.nikeX c.nikeY gridX gridY

/-- The method `isUniqloPos` (lines 697-699). -/
def isUniqloPos (c : Controller) (gridX gridY : Int) : Bool :=
  samePos c.uniqloX c.uniqloY gridX gridY

/-- The method `isBurgerPos` (lines 700-702). -/
def isBurgerPos (c : Controller) (gridX gridY : Int) : Bool :=
  samePos c.burgerX c.burgerY gridX gridY

/-- The method `isStartOrEndPos` (lines 703-705): the start, the end or any
of the ten landmarks. -/
def isStartOrEndPos (c : Controller) (gridX gridY : Int) : Bool :=
  c.isStartPos gridX gridY || c.isEndPos gridX gridY || c.isFirePos gridX gridY ||
  c.isCarrefourPos gridX gridY || c.isApplePos gridX gridY ||
  c.isMacdonaldPos gridX gridY || c.isStarbucksPos gridX gridY ||
  c.isMujiPos gridX gridY || c.isAdidasPos gridX gridY || c.isNikePos gridX gridY ||
  c.isUniqloPos gridX gridY || c.isBurgerPos gridX gridY

/-! ## The operation recorder (hookPathFinding, lines 296-338) -/

end Controller

/-- A search node as the hooked `PF.Node.prototype` sees it: its coordinate
and the backing fields `_opened`, `_closed`, `_tested` of the three hooked
attributes. -/
structure Node where
  x : Int
  y : Int
  _opened : Option Bool
  _closed : Option Bool
  _tested : Option Bool
  deriving DecidableEq, Repr

namespace Controller

/-- The getter `get opened()` (lines 299-301). -/
def getOpened (n : Node) : Option Bool := n._opened

/-- The setter `set opened(v)` (lines 302-310): store the value, then push
one record on `Controller.operations`. -/
def setOpened (c : Controller) (n : Node) (v : Bool) : Node × Controller :=
  ({ n with _opened := some v },
   { c with operations := c.operations ++ [{ x := n.x, y := n.y, attr := "opened", value := v }] })

/-- The getter `get closed()` (lines 311-313). -/
def getClosed (n : Node) : Option Bool := n._closed

/-- The setter `set closed(v)` (lines 314-322). -/
def setClosed (c : Controller) (n : Node) (v : Bool) : Node × Controller :=
  ({ n with _closed := some v },
   { c with operations := c.operations ++ [{ x := n.x, y := n.y, attr := "closed", value := v }] })

/-- The getter `get tested()` (lines 323-325). -/
def getTested (n : Node) : Option Bool := n._tested

/-- The setter `set tested(v)` (lines 326-334). -/
def setTested (c : Controller) (n : Node) (v : Bool) : Node × Controller :=
  ({ n with _tested := some v },
   { c with operations := c.operations ++ [{ x := n.x, y := n.y, attr := "tested", value := v }] })

/-- The method `hookPathFinding` (lines 296-338): after installing the
accessors above it assigns `this.operations = []`. -/
def hookPathFinding (c : Controller) : Controller :=
  { c with operations := [] }

/-! ## Helpers of the callbacks -/

/-- The method `clearOperations` (lines 371-373). -/
def clearOperations (c : Controller) : Controller :=
  { c with operations := [] }

/-- The method `clearFootprints` (lines 374-377). -/
def clearFootprints (c : Controller) : Controller :=
  (c.emit .clearFootprints).emit .clearPath

/-- The method `clearAll` (lines 378-381). -/
def clearAll (c : Controller) : Controller :=
  c.clearFootprints.emit .clearBlockedNodes

/-- The method `buildNewGrid` (lines 382-384). -/
def buildNewGrid (c : Controller) : Controller :=
  { c with grid := Grid.new c.gridSize.1 c.gridSize.2 }

/-- The method `setDefaultStartEndPos` (lines 466-601): the start position,
the landmarks and the walls around them, call by call in source order.  The
method assigns no end position. -/
def setDefaultStartEndPos (c : Controller) : Controller :=
  c
    |> (·.setStartPos 3 4)
    |> (·.setWalkableAt 3 1 false)
    |> (·.setNikePos 4 1)
    |> (·.setWalkableAt 5 1 false)
    |> (·.setWalkableAt 3 2 false)
    |> (·.setWalkableAt 5 2 false)
    |> (·.setWalkableAt 3 3 false)
    |> (·.setWalkableAt 4 3 false)
    |> (·.setWalkableAt 5 3 false)
    |> (·.setWalkableAt 7 1 false)
    |> (·.setApplePos 8 1)
    |> (·.setWalkableAt 9 1 false)
    |> (·.setWalkableAt 7 2 false)
    |> (·.setWalkableAt 9 2 false)
    |> (·.setWalkableAt 7 3 false)
    |> (·.setWalkableAt 8 3 false)
    |> (·.setWalkableAt 9 3 false)
    |> (·.setWalkableAt 11 1 false)
    |> (·.setMujiPos 12 1)
    |> (·.setWalkableAt 13 1 false)
    |> (·.setWalkableAt 11 2 false)
    |> (·.setWalkableAt 13 2 false)
    |> (·.setWalkableAt 11 3 false)
    |> (·.setWalkableAt 12 3 false)
    |> (·.setWalkableAt 13 3 false)
    |> (·.setWalkableAt 3 5 false)
    |> (·.setAdidasPos 4 5)
    |> (·.setWalkableAt 5 5 false)
    |> (·.setWalkableAt 3 6 false)
    |> (·.setWalkableAt 5 6 false)
    |> (·.setWalkableAt 3 7 false)
    |> (·.setWalkableAt 4 7 false)
    |> (·.setWalkableAt 5 7 false)
    |> (·.setWalkableAt 7 5 false)
    |> (·.setCarrefourPos 8 5)
    |> (·.setWalkableAt 9 5 false)
    |> (·.setWalkableAt 7 6 false)
    |> (·.setWalkableAt 9 6 false)
    |> (·.setWalkableAt 7 7 false)
    |> (·.setWalkableAt 8 7 false)
    |> (·.setWalkableAt 9 7 false)
    |> (·.setWalkableAt 11 5 false)
    |> (·.setUniqloPos 12 5)
    |> (·.setWalkableAt 13 5 false)
    |> (·.setWalkableAt 11 6 false)
    |> (·.setWalkableAt 13 6 false)
    |> (·.setWalkableAt 11 7 false)
    |> (·.setWalkableAt 12 7 false)
    |> (·.setWalkableAt 13 7 false)
    |> (·.setWalkableAt 3 9 false)
    |> (·.setBurgerPos 4 9)
    |> (·.setWalkableAt 5 9 false)
    |> (·.setWalkableAt 3 10 false)
    |> (·.setWalkableAt 5 10 false)
    |> (·.setWalkableAt 3 11 false)
    |> (·.setWalkableAt 4 11 false)
    |> (·.setWalkableAt 5 11 false)
    |> (·.setWalkableAt 7 9 false)
    |> (·.setMacdonaldPos 8 9)
    |> (·.setWalkableAt 9 9 false)
    |> (·.setWalkableAt 7 10 false)
    |> (·.setWalkableAt 9 10 false)
    |> (·.setWalkableAt 7 11 false)
    |> (·.setWalkableAt 8 11 false)
    |> (·.setWalkableAt 9 11 false)
    |> (·.setWalkableAt 11 9 false)
    |> (·.setStarbucksPos 12 9)
    |> (·.setWalkableAt 13 9 false)
    |> (·.setWalkableAt 11 10 false)
    |> (·.setWalkableAt 13 10 false)
    |> (·.setWalkableAt 11 11 false)
    |> (·.setWalkableAt 12 11 false)
    |> (·.setWalkableAt 13 11 false)
    |> (·.setWalkableAt 2 4 false)
    |> (·.setWalkableAt 2 8 false)
    |> (·.setWalkableAt 6 0 false)
    |> (·.setWalkableAt 10 0 false)
    |> (·.setWalkableAt 14 4 false)
    |> (·.setWalkableAt 14 8 false)
    |> (·.setWalkableAt 6 12 false)
    |> (·.setWalkableAt 10 12 false)

/-- The method `bindEvents` (lines 339-344): it only registers the pointer
handlers with the page. -/
def bindEvents (c : Controller) : Controller := c

/-! ## State-machine callbacks (lines 100-290) -/

/-- The leave-state callback `onleavenone` (lines 100-122): build the grid,
initialise the view, ask it to generate the grid (its callback runs later),
hook the recorder.  It returns `StateMachine.ASYNC`. -/
def onleavenone (c : Controller) : Controller :=
  let numCols := c.gridSize.1
  let numRows := c.gridSize.2
  let c1 := { c with grid := Grid.new numCols numRows }
  let c2 := c1.emit (.init numCols numRows)
  let c3 := (c2.emit .generateGrid).setTimeout .gridGenerated
  c3.hookPathFinding

/-- The callback `ondrawWall` (lines 123-126). -/
def ondrawWall (gridX gridY : Int) (c : Controller) : Controller :=
  c.setWalkableAt gridX gridY false

/-- The callback `oneraseWall` (lines 127-130). -/
def oneraseWall (gridX gridY : Int) (c : Controller) : Controller :=
  c.setWalkableAt gridX gridY true

/-- The callback `onrestart` (lines 148-160): defer the clear-and-start
routine. -/
def onrestart (c : Controller) : Controller := c.setTimeout .restart

/-- The callback `onpause` (lines 161-163). -/
def onpause (c : Controller) : Controller := c

/-- The callback `oncancel` (lines 168-172). -/
def oncancel (c : Controller) : Controller := c.clearOperations.clearFootprints

/-- The callback `onfinish` (lines 173-181). -/
def onfinish (c : Controller) : Controller :=
  (c.emit (.showStats c.path c.timeSpent c.operationCount)).emit (.drawPath c.path)

/-- The callback `onclear` (lines 182-186). -/
def onclear (c : Controller) : Controller := c.clearOperations.clearFootprints

/-- The callback `onmodify` (lines 187-189). -/
def onmodify (c : Controller) : Controller := c

/-- The callback `onreset` (lines 190-197): defer the clear-all routine. -/
def onreset (c : Controller) : Controller := c.setTimeout .reset

/-- The enter-state callback `onready` (lines 203-221). -/
def onready (c : Controller) : Controller :=
  c.setButtonStates
    [ { id := 1, text := some "Start Search", enabled := some true, callback := some "start" },
      { id := 2, text := some "Pause Search", enabled := some false, callback := none },
      { id := 3, text := some "Clear Walls", enabled := some true, callback := some "reset" } ]

/-- The enter-state callback `onsearching` (lines 233-247). -/
def onsearching (c : Controller) : Controller :=
  c.setButtonStates
    [ { id := 1, text := some "Restart Search", enabled := some true, callback := some "restart" },
      { id := 2, text := some "Pause Search", enabled := some true, callback := some "pause" } ]

/-- The enter-state callback `onpaused` (lines 248-262). -/
def onpaused (c : Controller) : Controller :=
  c.setButtonStates
    [ { id := 1, text := some "Resume Search", enabled := some true, callback := some "resume" },
      { id := 2, text := some "Cancel Search", enabled := some true, callback := some "cancel" } ]

/-- The enter-state callback `onfinished` (lines 263-276). -/
def onfinished (c : Controller) : Controller :=
  c.setButtonStates
    [ { id := 1, text := some "Restart Search", enabled := some true, callback := some "restart" },
      { id := 2, text := some "Clear Path", enabled := some true, callback := some "clear" } ]

/-- The enter-state callback `onmodified` (lines 277-290). -/
def onmodified (c : Controller) : Controller :=
  c.setButtonStates
    [ { id := 1, text := some "Start Search", enabled := some true, callback := some "start" },
      { id := 2, text := some "Clear Path", enabled := some true, callback := some "clear" } ]

/-! ## Event methods -/

/-- Modelled from the spec: the event method the `StateMachine` library
builds for the event `name` (the library is not part of `controller.js`).
An event that is not accepted, or that is fired while a transition is held
back, is rejected and changes nothing; what the library reports of the
rejection is `Controller.rejection`.  An accepted event that stays in the
same state only runs its event callback `after`.  Leaving `none` runs
`onleavenone`, which returns `StateMachine.ASYNC`: the transition is held back
until `Controller.transition()` is called.  Otherwise the machine moves to the
destination, runs the enter-state callback `enter`, then the event callback
`after`. -/
def buildEvent (name : String) (enter after : Controller → Controller)
    (c : Controller) : Controller :=
  if c.transition.isSome then c
  else
    match StateMachine.destination name c.current with
    | none => c
    | some dst =>
      if c.current = dst then after c
      else if c.current = "none" then
        { c.onleavenone with transition := some { name := name, dst := dst } }
      else after (enter { c with current := dst })

/-- The event method `init`. -/
def init (c : Controller) : Controller := c.buildEvent "init" onready id

/-- The event method `finish`, with callbacks `onfinished` and `onfinish`. -/
def finish (c : Controller) : Controller := c.buildEvent "finish" onfinished onfinish

/-- The `do ... while` loop of `step` (lines 360-367) over the operations
still queued, followed by the render call of line 369. -/
def stepFrom (env : Env) : List Operation → Controller → Controller
  | [], c => c.finish
  | op :: rest, c =>
    let c1 := { c with operations := rest }
    if env.supportedOperations.contains op.attr then
      c1.emit (.setAttributeAt op.x op.y op.attr op.value)
    else stepFrom env rest c1

/-- The method `step` (lines 356-370). -/
def step (env : Env) (c : Controller) : Controller := stepFrom env c.operations c

/-- The inner function `loop` of the method `loop` (lines 347-354): one
playback tick. -/
def loopTick (env : Env) (c : Controller) : Controller :=
  if !c.is "searching" then c
  else (c.step env).setTimeout .tick

/-- The method `loop` (lines 345-355): the inner function is called at
once. -/
def loop (env : Env) (c : Controller) : Controller := c.loopTick env

/-- The callback `onsearch` (lines 131-147). -/
def onsearch (env : Env) (c : Controller) : Controller :=
  let grid := c.grid.clone
  let found := env.findPath c.startX c.startY c.endX c.endY grid
  let c1 := { c with path := some found.1, operations := c.operations ++ found.2 }
  let c2 := { c1 with operationCount := some c1.operations.length }
  let c3 := { c2 with timeSpent := some env.timeSpent }
  c3.loop env

/-- The callback `onresume` (lines 164-167). -/
def onresume (env : Env) (c : Controller) : Controller := c.loop env

/-- The event method `search`, with callbacks `onsearching` and `onsearch`. -/
def search (env : Env) (c : Controller) : Controller :=
  c.buildEvent "search" onsearching (onsearch env)

/-- The enter-state callback `onstarting` (lines 222-232). -/
def onstarting (env : Env) (c : Controller) : Controller :=
  let c1 := c.clearFootprints
  let c2 := c1.setButtonStates
    [ { id := 2, text := none, enabled := some true, callback := none } ]
  c2.search env

/-- The event method `pause`, with callbacks `onpaused` and `onpause`. -/
def pause (c : Controller) : Controller := c.buildEvent "pause" onpaused onpause

/-- The event method `resume`, with callbacks `onsearching` and `onresume`. -/
def resume (env : Env) (c : Controller) : Controller :=
  c.buildEvent "resume" onsearching (onresume env)

/-- The event method `cancel`, with callbacks `onready` and `oncancel`. -/
def cancel (c : Controller) : Controller := c.buildEvent "cancel" onready oncancel

/-- The event method `modify`, with callbacks `onmodified` and `onmodify`. -/
def modify (c : Controller) : Controller := c.buildEvent "modify" onmodified onmodify

/-- The event method `reset`, with callbacks `onready` and `onreset`. -/
def reset (c : Controller) : Controller := c.buildEvent "reset" onready onreset

/-- The event method `clear`, with callbacks `onready` and `onclear`. -/
def clear (c : Controller) : Controller := c.buildEvent "clear" onready onclear

/-- The event method `start`, with enter-state callback `onstarting`. -/
def start (env : Env) (c : Controller) : Controller :=
  c.buildEvent "start" (onstarting env) id

/-- The event method `restart`, with callback `onrestart`. -/
def restart (c : Controller) : Controller := c.buildEvent "restart" id onrestart

/-- The event method `dragStart`; no callback is defined for it. -/
def dragStart (c : Controller) : Controller := c.buildEvent "dragStart" id id

/-- The event method `dragEnd`; no callback is defined for it. -/
def dragEnd (c : Controller) : Controller := c.buildEvent "dragEnd" id id

/-- The event method `drawWall`, with callback `ondrawWall`. -/
def drawWall (c : Controller) (gridX gridY : Int) : Controller :=
  c.buildEvent "drawWall" id (ondrawWall gridX gridY)

/-- The event method `eraseWall`, with callback `oneraseWall`. -/
def eraseWall (c : Controller) (gridX gridY : Int) : Controller :=
  c.buildEvent "eraseWall" id (oneraseWall gridX gridY)

/-- The event method `rest`, with enter-state callback `onready`. -/
def rest (c : Controller) : Controller := c.buildEvent "rest" onready id

/-- Fire the event method called `name`; `gridX`, `gridY` are the arguments
`drawWall` and `eraseWall` take.  A name that is no event does nothing. -/
def fire (env : Env) (name : String) (gridX gridY : Int) (c : Controller) : Controller :=
  if name = "init" then c.init
  else if name = "search" then c.search env
  else if name = "pause" then c.pause
  else if name = "finish" then c.finish
  else if name = "resume" then c.resume env
  else if name = "cancel" then c.cancel
  else if name = "modify" then c.modify
  else if name = "reset" then c.reset
  else if name = "clear" then c.clear
  else if name = "start" then c.start env
  else if name = "restart" then c.restart
  else if name = "dragStart" then c.dragStart
  else if name = "dragEnd" then c.dragEnd
  else if name = "drawWall" then c.drawWall gridX gridY
  else if name = "eraseWall" then c.eraseWall gridX gridY
  else if name = "rest" then c.rest
  else c

/-! ## Held-back transitions and deferred callbacks -/

/-- Modelled from the spec: the enter-state callback the `StateMachine`
library looks up for `state` (`on` followed by the state's name); the
controller defines one for six of the states. -/
def enterState (env : Env) (state : String) (c : Controller) : Controller :=
  if state = "ready" then c.onready
  else if state = "starting" then c.onstarting env
  else if state = "searching" then c.onsearching
  else if state = "paused" then c.onpaused
  else if state = "finished" then c.onfinished
  else if state = "modified" then c.onmodified
  else c

/-- Modelled from the spec: the event callback the `StateMachine` library
looks up for the event `name` of a held-back transition.  Only `init` and
`reset` are accepted in `none`, the one state whose leave callback holds the
transition back, so the two callbacks that take a coordinate never run from
here. -/
def afterEvent (env : Env) (name : String) (c : Controller) : Controller :=
  if name = "search" then c.onsearch env
  else if name = "restart" then c.onrestart
  else if name = "pause" then c.onpause
  else if name = "resume" then c.onresume env
  else if name = "cancel" then c.oncancel
  else if name = "finish" then c.onfinish
  else if name = "clear" then c.onclear
  else if name = "modify" then c.onmodify
  else if name = "reset" then c.onreset
  else c

/-- Modelled from the spec: `Controller.transition()` (called on line 113),
which completes the transition held back by `StateMachine.ASYNC`: the machine
moves to the destination, then the enter-state and the event callbacks run.
With nothing held back the call does nothing. -/
def runTransition (env : Env) (c : Controller) : Controller :=
  match c.transition with
  | none => c
  | some t =>
    afterEvent env t.name (enterState env t.dst { c with transition := none, current := t.dst })

/-- The callback handed to `View.generateGrid` (lines 110-114). -/
def gridGenerated (env : Env) (c : Controller) : Controller :=
  (c.setDefaultStartEndPos.bindEvents).runTransition env

/-- The function deferred by `onrestart` (lines 154-158). -/
def restartDeferred (env : Env) (c : Controller) : Controller :=
  (c.clearOperations.clearFootprints).start env

/-- The function deferred by `onreset` (lines 191-195). -/
def resetDeferred (c : Controller) : Controller :=
  c.clearOperations.clearAll.buildNewGrid

/-- Run the scheduled callback at position `i` of `timers`: it leaves the
list and its body runs.  There is nothing to run at a position past the end
of the list. -/
def fireTimer (env : Env) (i : Nat) (c : Controller) : Controller :=
  match c.timers.get? i with
  | none => c
  | some t =>
    let c1 := { c with timers := c.timers.eraseIdx i }
    match t with
    | .gridGenerated => c1.gridGenerated env
    | .restart => c1.restartDeferred env
    | .reset => c1.resetDeferred
    | .tick => c1.loopTick env

/-- Run the first scheduled playback tick, if there is one. -/
def playTick (env : Env) (c : Controller) : Controller :=
  c.fireTimer env (c.timers.indexOf Timer.tick)

/-- Run `n` playback ticks one after the other. -/
def playTicks (env : Env) : Nat → Controller → Controller
  | 0, c => c
  | n + 1, c => playTicks env n (c.playTick env)

/-! ## Pointer handlers and buttons -/

/-- The handler `mousedown` (lines 385-406). -/
def mousedown (env : Env) (pageX pageY : Int) (c : Controller) : Controller :=
  let coord := env.toGridCoordinate pageX pageY
  let gridX := coord.1
  let gridY := coord.2
  let grid := c.grid
  if c.can "dragStart" && c.isStartPos gridX gridY then c.dragStart
  else if c.can "dragEnd" && c.isEndPos gridX gridY then c.dragEnd
  else if c.can "drawWall" && grid.isWalkableAt gridX gridY then c.drawWall gridX gridY
  else if c.can "eraseWall" && !grid.isWalkableAt gridX gridY then c.eraseWall gridX gridY
  else c

/-- The handler `mousemove` (lines 407-435). -/
def mousemove (env : Env) (pageX pageY : Int) (c : Controller) : Controller :=
  let coord := env.toGridCoordinate pageX pageY
  let grid := c.grid
  let gridX := coord.1
  let gridY := coord.2
  if c.isStartOrEndPos gridX gridY then c
  else if c.current = "draggingStart" then
    if grid.isWalkableAt gridX gridY then c.setStartPos gridX gridY else c
  else if c.current = "draggingEnd" then
    if grid.isWalkableAt gridX gridY then c.setEndPos gridX gridY else c
  else if c.current = "drawingWall" then c.setWalkableAt gridX gridY false
  else if c.current = "erasingWall" then c.setWalkableAt gridX gridY true
  else c

/-- The handler `mouseup` (lines 436-440). -/
def mouseup (c : Controller) : Controller :=
  if c.can "rest" then c.rest else c

/-- A click on the control button at position `i` (from 0): an enabled
button runs the event method bound to it by `setButtonStates`. -/
def click (env : Env) (i : Nat) (c : Controller) : Controller :=
  match c.buttons.get? i with
  | none => c
  | some b =>
    if b.enabled then
      match b.callback with
      | some name => c.fire env name 0 0
      | none => c
    else c

end Controller

/-- What can happen to the controller from outside: an event method is
called, a pointer handler runs, a control button is clicked, or a scheduled
callback runs. -/
inductive Action where
  | event (name : String) (gridX gridY : Int)
  | mousedown (pageX pageY : Int)
  | mousemove (pageX pageY : Int)
  | mouseup
  | click (i : Nat)
  | timer (i : Nat)
  deriving DecidableEq, Repr

namespace Controller

/-- The effect of one action on the controller. -/
def act (env : Env) (c : Controller) : Action → Controller
  | .event name gridX gridY => c.fire env name gridX gridY
  | .mousedown pageX pageY => c.mousedown env pageX pageY
  | .mousemove pageX pageY => c.mousemove env pageX pageY
  | .mouseup => c.mouseup
  | .click i => c.click env i
  | .timer i => c.fireTimer env i

/-- The effect of a sequence of actions, first to last. -/
def run (env : Env) (c : Controller) (as : List Action) : Controller :=
  as.foldl (act env) c

/-- Fire a sequence of events, first to last; rejected ones change
nothing. -/
def fireAll (env : Env) (c : Controller) (es : List (String × Int × Int)) : Controller :=
  es.foldl (fun k e => k.fire env e.1 e.2.1 e.2.2) c

/-- The operations of a queue that the view can render, in queue order. -/
def supported (env : Env) (q : List Operation) : List Operation :=
  q.filter (fun op => env.supportedOperations.contains op.attr)

/-- The render call `step` makes for an operation (line 369). -/
def render (op : Operation) : ViewCall :=
  .setAttributeAt op.x op.y op.attr op.value

/-! ## Vocabulary of the statements -/

/-- The states a controller can be in once it has left `none`. -/
def settledStates : List String :=
  ["ready", "starting", "searching", "paused", "finished", "modified",
   "restarting", "draggingStart", "draggingEnd", "drawingWall", "erasingWall"]

/-- The controller has left `none` and no transition is held back. -/
def Settled (c : Controller) : Prop :=
  c.transition = none ∧ c.current ∈ settledStates

/-- The two view calls `onfinish` makes (lines 174-179). -/
def finishCalls (c : Controller) : List ViewCall :=
  [.showStats c.path c.timeSpent c.operationCount, .drawPath c.path]

/-- Playback is under way: the controller is searching, nothing is held back,
`s` are the operations still to be rendered, `v` is the trace so far and `f`
the calls `onfinish` will make. -/
def Playing (env : Env) (k : Controller) (s : List Operation) (v f : List ViewCall) : Prop :=
  k.current = "searching" ∧ k.transition = none ∧ supported env k.operations = s ∧
    k.view = v ∧ finishCalls k = f

/-- Playback is over: the controller is finished, its queue is empty and its
trace is `v` followed by the calls of `onfinish`. -/
def Done (k : Controller) (v f : List ViewCall) : Prop :=
  k.current = "finished" ∧ k.operations = [] ∧ k.view = v ++ f

/-- A controller that is finished has an empty queue. -/
def EmptyIfFinished (k : Controller) : Prop :=
  k.current = "finished" → k.operations = []

end Controller

/-! ## A concrete session, used to evaluate the definitions -/

/-- A concrete environment: the view renders the three hooked attributes and
maps a pixel to the cell of the same coordinates; the finder returns a
two-cell path after four node writes, one of them to an attribute the view
does not render. -/
def Sample.env : Env :=
  { supportedOperations := ["opened", "closed", "tested"],
    toGridCoordinate := fun pageX pageY => (pageX, pageY),
    findPath := fun _ _ _ _ _ =>
      ([(3, 4), (3, 5)],
       [ { x := 3, y := 4, attr := "opened", value := true },
         { x := 3, y := 5, attr := "parent", value := true },
         { x := 3, y := 5, attr := "opened", value := true },
         { x := 3, y := 4, attr := "closed", value := true } ]),
    timeSpent := "0.1000" }

/-- The controller after `init` and the `View.generateGrid` callback: state
`ready` with the default start position, landmarks and walls. -/
def Sample.ready : Controller :=
  (Controller.create.init).fireTimer Sample.env 0

/-- The controller after `start` was called in `Sample.ready`: the search has
run, the first operation is rendered and a playback tick is scheduled. -/
def Sample.searching : Controller :=
  Sample.ready.start Sample.env

/-- The controller after a pointer-down on the free cell `(4, 4)` in
`Sample.ready`: a wall is being drawn. -/
def Sample.drawing : Controller :=
  Sample.ready.mousedown Sample.env 4 4

/-- The controller after a pointer-down on the start cell `(3, 4)` in
`Sample.ready`: the start position is being dragged. -/
def Sample.dragging : Controller :=
  Sample.ready.mousedown Sample.env 3 4

/-! ## The search as `start` runs it -/

namespace Controller

/-- The controller when the finder has returned and the counters are assigned
(line 144 of `onsearch`), just before `this.loop()`, for `start` called on
`c`. -/
def searchReturned (env : Env) (c : Controller) : Controller :=
  let k := onsearching
    { (({ c with current := "starting" } : Controller).clearFootprints.setButtonStates
        [ { id := 2, text := none, enabled := some true, callback := none } ]) with
      current := "searching" }
  let found := env.findPath k.startX k.startY k.endX k.endY k.grid.clone
  { k with path := some found.1, operations := k.operations ++ found.2,
           operationCount := some (k.operations ++ found.2).length,
           timeSpent := some env.timeSpent }

/-- The search result held by the controller: path, operation count and
search time. -/
def searchResult (c : Controller) : Option (List (Int × Int)) × Option Nat × Option String :=
  (c.path, c.operationCount, c.timeSpent)

end Controller

/-! ## What holds throughout a session -/

/-- The events the entry actions bind to the control buttons. -/
def buttonEvents : List String :=
  ["start", "pause", "resume", "cancel", "restart", "clear", "reset"]

/-- The states in which the controller can rest between two actions once it
has left `none`; `starting` is left within the call of `start` that enters
it. -/
def restingStates : List String :=
  ["ready", "searching", "paused", "finished", "modified", "restarting",
   "draggingStart", "draggingEnd", "drawingWall", "erasingWall"]

/-- The callbacks the entry actions leave on the three control buttons, by
state: every bound event is one of `buttonEvents`, the third button carries
`reset`, and the first two carry what the entry action of the state bound. -/
def ButtonsFit (state : String) (b1 b2 b3 : Button) : Prop :=
  (∀ e, b1.callback = some e → e ∈ buttonEvents) ∧
  (∀ e, b2.callback = some e → e ∈ buttonEvents) ∧
  b3.callback = some "reset" ∧
  (state = "ready" → b1.callback = some "start" ∧ b2.enabled = false) ∧
  (state = "searching" → b1.callback = some "restart" ∧ b2.callback = some "pause") ∧
  (state = "paused" → b1.callback = some "resume" ∧ b2.callback = some "cancel") ∧
  (state = "finished" → b1.callback = some "restart" ∧ b2.callback = some "clear") ∧
  (state = "modified" → b1.callback = some "start" ∧ b2.callback = some "clear")

namespace Controller

/-- The two controllers hold the same grid, grid size, start position and end
position. -/
def SameBoard (k c : Controller) : Prop :=
  k.grid = c.grid ∧ k.gridSize = c.gridSize ∧ k.startX = c.startX ∧ k.startY = c.startY ∧
    k.endX = c.endX ∧ k.endY = c.endY

/-- The start position is assigned and lies on a walkable cell. -/
def StartWalkable (c : Controller) : Prop :=
  ∃ x y, c.startX = some x ∧ c.startY = some y ∧ c.grid.isWalkableAt x y = true

/-- The controller is still in `none`: no button carries a callback, no end
position is assigned, and either nothing has happened yet or the transition
started by `init` or `reset` is held back until the grid is generated. -/
def Initial (c : Controller) : Prop :=
  c.current = "none" ∧ c.gridSize = (64, 36) ∧ c.endX = none ∧ c.endY = none ∧
  (∃ b1 b2 b3, c.buttons = [b1, b2, b3] ∧ b1.callback = none ∧ b2.callback = none ∧
    b3.callback = none) ∧
  ((c.transition = none ∧ c.timers = []) ∨
   ((c.transition = some { name := "init", dst := "ready" } ∨
      c.transition = some { name := "reset", dst := "ready" }) ∧
    c.timers = [Timer.gridGenerated] ∧ c.grid = Grid.new 64 36))

/-- The controller has left `none`: nothing is held back, it rests in one of
the resting states other than `draggingEnd`, the grid will not be generated
again, the buttons carry the callbacks of the entry actions, the grid has the
size `gridSize`, the start position lies on a walkable cell and no end
position is assigned. -/
def Active (c : Controller) : Prop :=
  c.transition = none ∧ c.current ∈ restingStates ∧ c.current ≠ "draggingEnd" ∧
  Timer.gridGenerated ∉ c.timers ∧
  (∃ b1 b2 b3, c.buttons = [b1, b2, b3] ∧ ButtonsFit c.current b1 b2 b3) ∧
  (c.grid.width = c.gridSize.1 ∧ c.grid.height = c.gridSize.2) ∧
  StartWalkable c ∧ c.endX = none ∧ c.endY = none

/-- What holds of the controller throughout a session. -/
def Inv (c : Controller) : Prop := Initial c ∨ Active c

/-- The controller has left `none` and its buttons carry the callbacks of the
entry actions: nothing is held back, it rests in one of the resting states,
and the grid will not be generated again. -/
def Bound (c : Controller) : Prop :=
  c.transition = none ∧ c.current ∈ restingStates ∧ Timer.gridGenerated ∉ c.timers ∧
  ∃ b1 b2 b3, c.buttons = [b1, b2, b3] ∧ ButtonsFit c.current b1 b2 b3

end Controller

/-- A direct call of the event method `drawWall` or `dragEnd`, which the
controller itself only calls from `mousedown`. -/
def Action.isDirectEdit : Action → Bool
  | .event name _ _ => name == "drawWall" || name == "dragEnd"
  | _ => false

/-! ## Grid objects and references -/

/-- Modelled from the spec: the grid objects of a session.  JavaScript
objects are shared by reference; a reference is the position of the object in
this store, and a write through a reference is seen through every copy of
that reference. -/
structure GridStore where
  objects : List Grid

/-- Modelled from the spec: the walkability read through a reference
(`PF.Grid` is not part of `controller.js`). -/
def GridStore.isWalkableAt (s : GridStore) (ref : Nat) (x y : Int) : Bool :=
  match s.objects.get? ref with
  | some g => g.isWalkableAt x y
  | none => false

/-- Modelled from the spec: `setWalkableAt` called through a reference. -/
def GridStore.setWalkableAt (s : GridStore) (ref : Nat) (x y : Int) (w : Bool) : GridStore :=
  { objects := List.modify (fun g => g.setWalkableAt x y w) ref s.objects }

/-- Modelled from the spec: `clone()` called through a reference "produces a
deep, independent copy": a new object holding the same cells is added to the
store.  The result is the store and the reference to the new object. -/
def GridStore.clone (s : GridStore) (ref : Nat) : GridStore × Nat :=
  match s.objects.get? ref with
  | some g => ({ objects := s.objects ++ [g.clone] }, s.objects.length)
  | none => (s, ref)

/-! ## Steps that the controller does not take itself, armed ticks -/

/-- A direct call of the event method `modify`, which no callback, pointer
handler, button or timer of the controller makes. -/
def Action.isModify : Action → Bool
  | .event name _ _ => name == "modify"
  | _ => false

namespace Controller

/-- The number of playback ticks that are armed. -/
def armedTicks (c : Controller) : Nat := c.timers.count Timer.tick

/-- A replay of the supported operations `s` with two ticks armed, started
from the trace `v`: either the controller is searching, the first `n`
operations are rendered, in order, the others are still queued and two ticks
are armed; or playback is over, every operation is rendered once, in order,
and only ticks are still armed.  `f` are the calls of `onfinish`. -/
def Replaying (env : Env) (s : List Operation) (v f : List ViewCall) (e : Controller) : Prop :=
  (∃ n, n ≤ s.length ∧ Playing env e (s.drop n) (v ++ (s.take n).map render) f ∧
    e.timers = [Timer.tick, Timer.tick]) ∨
  (Done e (v ++ s.map render) f ∧ ∀ t ∈ e.timers, t = Timer.tick)

end Controller

/-! ## A session whose queue holds an operation the view does not render -/

/-- A second environment: the view renders `opened` and `closed` only, and
the finder records four node writes, the third of them to `tested`. -/
def Sample.partialEnv : Env :=
  { supportedOperations := ["opened", "closed"],
    toGridCoordinate := fun pageX pageY => (pageX, pageY),
    findPath := fun _ _ _ _ _ =>
      ([(3, 4), (3, 5)],
       [ { x := 3, y := 4, attr := "opened", value := true },
         { x := 3, y := 5, attr := "opened", value := true },
         { x := 3, y := 6, attr := "tested", value := true },
         { x := 3, y := 5, attr := "closed", value := true } ]),
    timeSpent := "0.1000" }

/-- The controller after `start` was called in `Sample.ready` with the finder
of `Sample.partialEnv`: the first operation is rendered, and the queue holds
an `opened`, a `tested` and a `closed` operation. -/
def Sample.mixed : Controller :=
  Sample.ready.start Sample.partialEnv

/-! ## What the collaborators report -/

/-- Modelled from the spec: what a collaborator reports when it is asked for
something it does not do.  The `StateMachine` library rejects an event fired
in a state outside its from-set and reports an illegal transition (sections
4.4 and 7); no cell exists outside the bounds of the grid (section 3), so a
`setWalkableAt` there has no cell to write.  Neither collaborator is part of
`controller.js`. -/
inductive Report where
  | illegalTransition (event state : String)
  | writeOutside (x y : Int) (walkable : Bool)
  deriving DecidableEq, Repr

/-- The report is an illegal transition. -/
def Report.isIllegalTransition : Report → Bool
  | .illegalTransition _ _ => true
  | .writeOutside _ _ _ => false

namespace Controller

/-- Modelled from the spec: what the `StateMachine` library reports when the
event method `name` is called: nothing when the event can fire, an illegal
transition when it is rejected. -/
def rejection (c : Controller) (name : String) : List Report :=
  if c.can name then [] else [.illegalTransition name c.current]

/-- The method `setWalkableAt` (lines 663-666) with what the grid reports:
the write is handed to the grid whatever the coordinate. -/
def setWalkableAtR (c : Controller) (gridX gridY : Int) (walkable : Bool) :
    Controller × List Report :=
  (c.setWalkableAt gridX gridY walkable,
   if c.grid.isInside gridX gridY then [] else [.writeOutside gridX gridY walkable])

/-- The event method `dragStart` with what is reported. -/
def dragStartR (c : Controller) : Controller × List Report :=
  (c.dragStart, c.rejection "dragStart")

/-- The event method `dragEnd` with what is reported. -/
def dragEndR (c : Controller) : Controller × List Report :=
  (c.dragEnd, c.rejection "dragEnd")

/-- The event method `drawWall` with what is reported: the rejection, or what
its callback `ondrawWall` (lines 123-126) reports. -/
def drawWallR (c : Controller) (gridX gridY : Int) : Controller × List Report :=
  (c.drawWall gridX gridY,
   if c.can "drawWall" then (c.setWalkableAtR gridX gridY false).2
   else c.rejection "drawWall")

/-- The event method `eraseWall` with what is reported: the rejection, or
what its callback `oneraseWall` (lines 127-130) reports. -/
def eraseWallR (c : Controller) (gridX gridY : Int) : Controller × List Report :=
  (c.eraseWall gridX gridY,
   if c.can "eraseWall" then (c.setWalkableAtR gridX gridY true).2
   else c.rejection "eraseWall")

/-- The event method `rest` with what is reported. -/
def restR (c : Controller) : Controller × List Report :=
  (c.rest, c.rejection "rest")

/-- The handler `mousedown` (lines 385-406) with what its calls report. -/
def mousedownR (env : Env) (pageX pageY : Int) (c : Controller) :
    Controller × List Report :=
  let coord := env.toGridCoordinate pageX pageY
  let gridX := coord.1
  let gridY := coord.2
  let grid := c.grid
  if c.can "dragStart" && c.isStartPos gridX gridY then c.dragStartR
  else if c.can "dragEnd" && c.isEndPos gridX gridY then c.dragEndR
  else if c.can "drawWall" && grid.isWalkableAt gridX gridY then c.drawWallR gridX gridY
  else if c.can "eraseWall" && !grid.isWalkableAt gridX gridY then c.eraseWallR gridX gridY
  else (c, [])

/-- The handler `mousemove` (lines 407-435) with what its calls report. -/
def mousemoveR (env : Env) (pageX pageY : Int) (c : Controller) :
    Controller × List Report :=
  let coord := env.toGridCoordinate pageX pageY
  let grid := c.grid
  let gridX := coord.1
  let gridY := coord.2
  if c.isStartOrEndPos gridX gridY then (c, [])
  else if c.current = "draggingStart" then
    if grid.isWalkableAt gridX gridY then (c.setStartPos gridX gridY, []) else (c, [])
  else if c.current = "draggingEnd" then
    if grid.isWalkableAt gridX gridY then (c.setEndPos gridX gridY, []) else (c, [])
  else if c.current = "drawingWall" then c.setWalkableAtR gridX gridY false
  else if c.current = "erasingWall" then c.setWalkableAtR gridX gridY true
  else (c, [])

/-- The handler `mouseup` (lines 436-440) with what its calls report. -/
def mouseupR (c : Controller) : Controller × List Report :=
  if c.can "rest" then c.restR else (c, [])

end Controller

/-! ## The search over the grid objects of the session -/

/-- A controller together with the grid objects of the session.
`Controller.grid` is what is read through `live`, the reference held in
`this.grid`. -/
structure Stored where
  controller : Controller
  store : GridStore
  live : Nat

namespace Controller

/-- The callback `onsearch` (lines 131-147) over the grid objects of the
session.  `this.grid.clone()` adds an object to the store and the local
`grid` is the reference to it; the finder is handed that reference.  Modelled
from the spec (section 6): besides returning the path and recording
operations (`env.findPath`), the finder "mutates node attributes on the
snapshot": `writes` is what it leaves in the object it was handed.
`this.grid` is read again through `live` afterwards.  The result is the
session after the callback and the reference the finder was handed. -/
def onsearchStored (env : Env) (writes : Grid → Grid) (h : Stored) : Stored × Nat :=
  let cloned := h.store.clone h.live
  let grid := cloned.2
  let handed := (cloned.1.objects.get? grid).getD h.controller.grid
  let found := env.findPath h.controller.startX h.controller.startY h.controller.endX
    h.controller.endY handed
  let store1 : GridStore := { objects := List.modify writes grid cloned.1.objects }
  let c0 := { h.controller with grid := (store1.objects.get? h.live).getD h.controller.grid }
  let c1 := { c0 with path := some found.1, operations := c0.operations ++ found.2 }
  let c2 := { c1 with operationCount := some c1.operations.length }
  let c3 := { c2 with timeSpent := some env.timeSpent }
  ({ controller := c3.loop env, store := store1, live := h.live }, grid)

end Controller

/-! # Theorems -/

set_option maxRecDepth 10000

namespace Controller

/-! ## Lemmas -/

/-! ## The state machine: table, rejection, reachable states -/

theorem can_eq (c : Controller) (e : String) :
    c.can e = (!c.transition.isSome && (StateMachine.destination e c.current).isSome) := rfl

theorem table_agrees : ∀ e ∈ Spec.eventNames, ∀ s ∈ Spec.stateNames,
    ((StateMachine.destination e s).isSome = Spec.legal e s) ∧
    (Spec.legal e s = true → StateMachine.destination e s = Spec.dest e) := by decide

theorem destination_none_of_not_listed :
    ∀ ev ∈ events, ∀ s, s ∉ ev.src → WILDCARD ∉ ev.src →
      StateMachine.destination ev.name s = none := by
  intro ev hev s hs hw
  simp only [events, List.mem_cons, List.mem_singleton, List.not_mem_nil, or_false] at hev
  rcases hev with h | h | h | h | h | h | h | h | h | h | h | h | h | h | h | h <;>
    subst h <;> simp [StateMachine.destination, events, WILDCARD] at hs hw ⊢ <;> simp_all

theorem buildEvent_rejected (name : String) (enter after : Controller → Controller)
    (c : Controller) (h : StateMachine.destination name c.current = none) :
    c.buildEvent name enter after = c := by
  simp [buildEvent, h]

theorem setButtonStates_eq (opts : List ButtonOpt) (c : Controller) :
    c.setButtonStates opts = { c with buttons := (c.setButtonStates opts).buttons } := by
  unfold setButtonStates
  induction opts generalizing c with
  | nil => rfl
  | cons o os ih =>
    simp only [List.foldl_cons]
    rw [ih (c.setButtonState o)]
    rfl

theorem destination_mem (name s d : String)
    (h : StateMachine.destination name s = some d) : d ∈ settledStates := by
  unfold StateMachine.destination at h
  split at h
  · exact absurd h (by simp)
  · rename_i ev hev
    have hmem := List.mem_of_find?_eq_some hev
    split at h
    · simp only [Option.some.injEq] at h
      subst h
      simp only [events, List.mem_cons, List.mem_singleton, List.not_mem_nil, or_false] at hmem
      rcases hmem with h | h | h | h | h | h | h | h | h | h | h | h | h | h | h | h <;>
        subst h <;> decide
    · exact absurd h (by simp)

theorem buildEvent_settled (name : String) (enter after : Controller → Controller)
    (henter : ∀ k, Settled k → Settled (enter k))
    (hafter : ∀ k, Settled k → Settled (after k))
    (c : Controller) (hc : Settled c) : Settled (c.buildEvent name enter after) := by
  obtain ⟨ht, hs⟩ := hc
  unfold buildEvent
  simp only [ht, Option.isSome_none, Bool.false_eq_true, ↓reduceIte]
  split
  · exact ⟨ht, hs⟩
  · rename_i dst hd
    have hmem := destination_mem _ _ _ hd
    split
    · exact hafter _ ⟨ht, hs⟩
    · split
      · rename_i h1 h2
        rw [h2] at hs
        exact absurd hs (by decide)
      · exact hafter _ (henter _ ⟨rfl, hmem⟩)

theorem setButtonStates_settled (opts : List ButtonOpt) (c : Controller) (h : Settled c) :
    Settled (c.setButtonStates opts) := by
  rw [setButtonStates_eq]
  exact h

theorem settled_of_eq {c k : Controller} (h : Settled c) (h1 : k.current = c.current)
    (h2 : k.transition = c.transition) : Settled k :=
  ⟨by rw [h2]; exact h.1, by rw [h1]; exact h.2⟩

theorem finish_settled (c : Controller) (h : Settled c) : Settled c.finish := by
  apply buildEvent_settled _ _ _ _ _ c h
  · intro k hk; exact setButtonStates_settled _ _ hk
  · intro k hk; exact settled_of_eq hk rfl rfl

theorem stepFrom_settled (env : Env) (q : List Operation) (c : Controller) (h : Settled c) :
    Settled (stepFrom env q c) := by
  induction q generalizing c with
  | nil => exact finish_settled c h
  | cons op rest ih =>
    simp only [stepFrom]
    split
    · exact settled_of_eq h rfl rfl
    · exact ih _ (settled_of_eq h rfl rfl)

theorem loop_settled (env : Env) (c : Controller) (h : Settled c) : Settled (c.loop env) := by
  unfold loop loopTick
  split
  · exact h
  · exact settled_of_eq (stepFrom_settled env _ c h) rfl rfl

theorem search_settled (env : Env) (c : Controller) (h : Settled c) : Settled (c.search env) := by
  apply buildEvent_settled _ _ _ _ _ c h
  · intro k hk; exact setButtonStates_settled _ _ hk
  · intro k hk; exact loop_settled env _ (settled_of_eq hk rfl rfl)

theorem start_settled (env : Env) (c : Controller) (h : Settled c) : Settled (c.start env) := by
  apply buildEvent_settled _ _ _ _ _ c h
  · intro k hk
    exact search_settled env _ (setButtonStates_settled _ _ (settled_of_eq hk rfl rfl))
  · intro k hk; exact hk

theorem settled_ite {p : Prop} [Decidable p] {a b : Controller} (ha : Settled a)
    (hb : Settled b) : Settled (if p then a else b) := by
  split <;> assumption

theorem fire_settled (env : Env) (name : String) (gridX gridY : Int) (c : Controller)
    (h : Settled c) : Settled (c.fire env name gridX gridY) := by
  unfold fire
  exact
    settled_ite (buildEvent_settled "init" onready id (fun k hk => setButtonStates_settled _ _ hk) (fun k hk => hk) c h) <|
    settled_ite (search_settled env c h) <|
    settled_ite (buildEvent_settled "pause" onpaused onpause (fun k hk => setButtonStates_settled _ _ hk) (fun k hk => hk) c h) <|
    settled_ite (finish_settled c h) <|
    settled_ite (buildEvent_settled "resume" onsearching (onresume env) (fun k hk => setButtonStates_settled _ _ hk)
      (fun k hk => loop_settled env k hk) c h) <|
    settled_ite (buildEvent_settled "cancel" onready oncancel (fun k hk => setButtonStates_settled _ _ hk) (fun k hk => settled_of_eq hk rfl rfl) c h) <|
    settled_ite (buildEvent_settled "modify" onmodified onmodify (fun k hk => setButtonStates_settled _ _ hk) (fun k hk => hk) c h) <|
    settled_ite (buildEvent_settled "reset" onready onreset (fun k hk => setButtonStates_settled _ _ hk) (fun k hk => settled_of_eq hk rfl rfl) c h) <|
    settled_ite (buildEvent_settled "clear" onready onclear (fun k hk => setButtonStates_settled _ _ hk) (fun k hk => settled_of_eq hk rfl rfl) c h) <|
    settled_ite (start_settled env c h) <|
    settled_ite (buildEvent_settled "restart" id onrestart (fun k hk => hk) (fun k hk => settled_of_eq hk rfl rfl) c h) <|
    settled_ite (buildEvent_settled "dragStart" id id (fun k hk => hk) (fun k hk => hk) c h) <|
    settled_ite (buildEvent_settled "dragEnd" id id (fun k hk => hk) (fun k hk => hk) c h) <|
    settled_ite (buildEvent_settled "drawWall" id (ondrawWall gridX gridY) (fun k hk => hk) (fun k hk => settled_of_eq hk rfl rfl) c h) <|
    settled_ite (buildEvent_settled "eraseWall" id (oneraseWall gridX gridY) (fun k hk => hk) (fun k hk => settled_of_eq hk rfl rfl) c h) <|
    settled_ite (buildEvent_settled "rest" onready id (fun k hk => setButtonStates_settled _ _ hk) (fun k hk => hk) c h) <|
    h

theorem fireAll_settled (env : Env) (es : List (String × Int × Int)) (c : Controller)
    (h : Settled c) : Settled (c.fireAll env es) := by
  unfold fireAll
  induction es generalizing c with
  | nil => exact h
  | cons e es ih => exact ih _ (fire_settled env _ _ _ c h)

@[simp] theorem setButtonStates_current (opts : List ButtonOpt) (c : Controller) :
    (c.setButtonStates opts).current = c.current := by
  rw [setButtonStates_eq]

@[simp] theorem setButtonStates_transition (opts : List ButtonOpt) (c : Controller) :
    (c.setButtonStates opts).transition = c.transition := by
  rw [setButtonStates_eq]

@[simp] theorem setButtonStates_operations (opts : List ButtonOpt) (c : Controller) :
    (c.setButtonStates opts).operations = c.operations := by
  rw [setButtonStates_eq]

@[simp] theorem setButtonStates_view (opts : List ButtonOpt) (c : Controller) :
    (c.setButtonStates opts).view = c.view := by
  rw [setButtonStates_eq]

@[simp] theorem setButtonStates_timers (opts : List ButtonOpt) (c : Controller) :
    (c.setButtonStates opts).timers = c.timers := by
  rw [setButtonStates_eq]

@[simp] theorem setButtonStates_grid (opts : List ButtonOpt) (c : Controller) :
    (c.setButtonStates opts).grid = c.grid := by
  rw [setButtonStates_eq]

@[simp] theorem setStartPos_current (c : Controller) (x y : Int) :
    (c.setStartPos x y).current = c.current := rfl

@[simp] theorem setStartPos_transition (c : Controller) (x y : Int) :
    (c.setStartPos x y).transition = c.transition := rfl

@[simp] theorem setEndPos_current (c : Controller) (x y : Int) :
    (c.setEndPos x y).current = c.current := rfl

@[simp] theorem setEndPos_transition (c : Controller) (x y : Int) :
    (c.setEndPos x y).transition = c.transition := rfl

@[simp] theorem setFirePos_current (c : Controller) (x y : Int) :
    (c.setFirePos x y).current = c.current := rfl

@[simp] theorem setFirePos_transition (c : Controller) (x y : Int) :
    (c.setFirePos x y).transition = c.transition := rfl

@[simp] theorem setCarrefourPos_current (c : Controller) (x y : Int) :
    (c.setCarrefourPos x y).current = c.current := rfl

@[simp] theorem setCarrefourPos_transition (c : Controller) (x y : Int) :
    (c.setCarrefourPos x y).transition = c.transition := rfl

@[simp] theorem setApplePos_current (c : Controller) (x y : Int) :
    (c.setApplePos x y).current = c.current := rfl

@[simp] theorem setApplePos_transition (c : Controller) (x y : Int) :
    (c.setApplePos x y).transition = c.transition := rfl

@[simp] theorem setMacdonaldPos_current (c : Controller) (x y : Int) :
    (c.setMacdonaldPos x y).current = c.current := rfl

@[simp] theorem setMacdonaldPos_transition (c : Controller) (x y : Int) :
    (c.setMacdonaldPos x y).transition = c.transition := rfl

@[simp] theorem setStarbucksPos_current (c : Controller) (x y : Int) :
    (c.setStarbucksPos x y).current = c.current := rfl

@[simp] theorem setStarbucksPos_transition (c : Controller) (x y : Int) :
    (c.setStarbucksPos x y).transition = c.transition := rfl

@[simp] theorem setMujiPos_current (c : Controller) (x y : Int) :
    (c.setMujiPos x y).current = c.current := rfl

@[simp] theorem setMujiPos_transition (c : Controller) (x y : Int) :
    (c.setMujiPos x y).transition = c.transition := rfl

@[simp] theorem setAdidasPos_current (c : Controller) (x y : Int) :
    (c.setAdidasPos x y).current = c.current := rfl

@[simp] theorem setAdidasPos_transition (c : Controller) (x y : Int) :
    (c.setAdidasPos x y).transition = c.transition := rfl

@[simp] theorem setNikePos_current (c : Controller) (x y : Int) :
    (c.setNikePos x y).current = c.current := rfl

@[simp] theorem setNikePos_transition (c : Controller) (x y : Int) :
    (c.setNikePos x y).transition = c.transition := rfl

@[simp] theorem setUniqloPos_current (c : Controller) (x y : Int) :
    (c.setUniqloPos x y).current = c.current := rfl

@[simp] theorem setUniqloPos_transition (c : Controller) (x y : Int) :
    (c.setUniqloPos x y).transition = c.transition := rfl

@[simp] theorem setBurgerPos_current (c : Controller) (x y : Int) :
    (c.setBurgerPos x y).current = c.current := rfl

@[simp] theorem setBurgerPos_transition (c : Controller) (x y : Int) :
    (c.setBurgerPos x y).transition = c.transition := rfl

@[simp] theorem setWalkableAt_current (c : Controller) (x y : Int) (w : Bool) :
    (c.setWalkableAt x y w).current = c.current := rfl

@[simp] theorem setWalkableAt_transition (c : Controller) (x y : Int) (w : Bool) :
    (c.setWalkableAt x y w).transition = c.transition := rfl

theorem setDefaultStartEndPos_control (c : Controller) :
    c.setDefaultStartEndPos.current = c.current ∧
    c.setDefaultStartEndPos.transition = c.transition := by
  unfold setDefaultStartEndPos
  constructor <;> simp

theorem ready_reachable (env : Env) (k : Controller) (hs : k.current ∈ Spec.stateNames)
    (ht : k.transition = none) : ∃ as : List Action, (k.run env as).current = "ready" := by
  by_cases hn : k.current = "none"
  · refine ⟨[.event "reset" 0 0, .timer k.timers.length], ?_⟩
    have hd : StateMachine.destination "reset" "none" = some "ready" := by decide
    have h1 : k.fire env "reset" 0 0 =
        { k.onleavenone with transition := some { name := "reset", dst := "ready" } } := by
      simp [fire, reset, buildEvent, ht, hn, hd]
    simp only [run, List.foldl_cons, List.foldl_nil, act, h1]
    simp [fireTimer, onleavenone, hookPathFinding, emit, setTimeout, gridGenerated,
      bindEvents, runTransition, (setDefaultStartEndPos_control _).2, enterState, afterEvent,
      onreset, onready, setButtonStates_current]
  · refine ⟨[.event "reset" 0 0], ?_⟩
    have hd : StateMachine.destination "reset" k.current = some "ready" := by
      simp only [Spec.stateNames, List.mem_cons, List.mem_singleton, List.not_mem_nil,
        or_false] at hs
      rcases hs with h | h | h | h | h | h | h | h | h | h | h | h <;> rw [h] <;> decide
    simp only [run, List.foldl_cons, List.foldl_nil, act]
    simp only [fire, reset, buildEvent, ht, hd, hn]
    simp
    split <;> simp [onreset, onready, setTimeout, setButtonStates_current, *]

/-! ## Playback -/

theorem finish_of_searching (c : Controller) (h1 : c.current = "searching")
    (h2 : c.transition = none) :
    c.finish = onfinish (onfinished { c with current := "finished" }) := by
  have hd : StateMachine.destination "finish" "searching" = some "finished" := by decide
  simp [finish, buildEvent, h1, h2, hd]

theorem finish_spec (c : Controller) (h1 : c.current = "searching")
    (h2 : c.transition = none) :
    c.finish.current = "finished" ∧ c.finish.transition = none ∧
    c.finish.operations = c.operations ∧ c.finish.view = c.view ++ finishCalls c ∧
    c.finish.timers = c.timers ∧ c.finish.grid = c.grid := by
  rw [finish_of_searching c h1 h2, onfinished, setButtonStates_eq]
  simp [onfinish, emit, finishCalls, h2]

theorem stepFrom_unsupported (env : Env) (q : List Operation) (c : Controller)
    (hq : ∀ o ∈ q, env.supportedOperations.contains o.attr = false) :
    stepFrom env q c = (if q = [] then c else { c with operations := [] }).finish := by
  induction q generalizing c with
  | nil => rfl
  | cons op rest ih =>
    have h1 : env.supportedOperations.contains op.attr = false := hq op (List.mem_cons_self _ _)
    have h2 := ih { c with operations := rest } (fun o ho => hq o (List.mem_cons_of_mem _ ho))
    simp only [stepFrom, h1, Bool.false_eq_true, ↓reduceIte, h2]
    by_cases hr : rest = []
    · simp [hr]
    · simp [hr]

theorem stepFrom_supported (env : Env) (u : List Operation) (op : Operation)
    (rest : List Operation) (c : Controller)
    (hu : ∀ o ∈ u, env.supportedOperations.contains o.attr = false)
    (hop : env.supportedOperations.contains op.attr = true) :
    stepFrom env (u ++ op :: rest) c = ({ c with operations := rest }).emit (render op) := by
  induction u generalizing c with
  | nil => simp only [List.nil_append, stepFrom, hop, ↓reduceIte, render]
  | cons o u ih =>
    have h1 : env.supportedOperations.contains o.attr = false := hu o (List.mem_cons_self _ _)
    have h2 := ih { c with operations := u ++ op :: rest }
      (fun x hx => hu x (List.mem_cons_of_mem _ hx))
    simp only [List.cons_append, stepFrom, h1, Bool.false_eq_true, ↓reduceIte]
    exact h2

theorem step_unsupported (env : Env) (c : Controller)
    (hq : ∀ o ∈ c.operations, env.supportedOperations.contains o.attr = false) :
    c.step env = ({ c with operations := [] }).finish := by
  rw [step, stepFrom_unsupported env _ c hq]
  by_cases h : c.operations = []
  · simp only [h, ↓reduceIte]
    congr
    exact h.symm ▸ rfl
  · simp [h]

theorem loopTick_searching (env : Env) (k : Controller) (h : k.current = "searching") :
    k.loopTick env = (k.step env).setTimeout .tick := by
  simp [loopTick, is, h]

theorem loopTick_nil (env : Env) (k : Controller) (v f : List ViewCall)
    (h : Playing env k [] v f) : Done (k.loopTick env) v f := by
  obtain ⟨h1, h2, h3, h4, h5⟩ := h
  have hq : ∀ o ∈ k.operations, env.supportedOperations.contains o.attr = false := by
    intro o ho
    have := (List.filter_eq_nil_iff.mp h3) o ho
    simpa using this
  rw [loopTick_searching env k h1, step_unsupported env k hq]
  obtain ⟨e1, -, e3, e4, -, -⟩ := finish_spec { k with operations := [] } h1 h2
  refine ⟨e1, e3, ?_⟩
  show (finish _).view = _
  rw [e4, ← h4, ← h5]
  rfl

theorem loopTick_cons (env : Env) (k : Controller) (op : Operation) (s : List Operation)
    (v f : List ViewCall) (h : Playing env k (op :: s) v f) :
    Playing env (k.loopTick env) s (v ++ [render op]) f ∧ Timer.tick ∈ (k.loopTick env).timers := by
  obtain ⟨h1, h2, h3, h4, h5⟩ := h
  obtain ⟨u, rest, hq, hu, hop, hrest⟩ := List.filter_eq_cons_iff.mp h3
  have hu2 : ∀ o ∈ u, env.supportedOperations.contains o.attr = false := by
    intro o ho
    simpa using hu o ho
  rw [loopTick_searching env k h1, step, hq, stepFrom_supported env u op rest k hu2 hop]
  refine ⟨⟨h1, h2, hrest, ?_, h5⟩, ?_⟩
  · show k.view ++ [render op] = _
    rw [h4]
  · simp [setTimeout, emit]

theorem playTick_of_mem (env : Env) (k : Controller) (h : Timer.tick ∈ k.timers) :
    k.playTick env = loopTick env { k with timers := k.timers.erase Timer.tick } := by
  have hg : k.timers[List.indexOf Timer.tick k.timers]? = some Timer.tick := by
    rw [← List.get?_eq_getElem?]
    exact List.indexOf_get? h
  simp [playTick, fireTimer, hg]

theorem playTick_of_not_mem (env : Env) (k : Controller) (h : Timer.tick ∉ k.timers) :
    k.playTick env = k := by
  simp [playTick, fireTimer, List.indexOf_of_not_mem h]

theorem playTick_done (env : Env) (k : Controller) (v f : List ViewCall) (h : Done k v f) :
    Done (k.playTick env) v f := by
  by_cases hm : Timer.tick ∈ k.timers
  · rw [playTick_of_mem env k hm]
    obtain ⟨h1, h2, h3⟩ := h
    have : loopTick env { k with timers := k.timers.erase Timer.tick } =
        { k with timers := k.timers.erase Timer.tick } := by
      simp [loopTick, is, h1]
    rw [this]
    exact ⟨h1, h2, h3⟩
  · rw [playTick_of_not_mem env k hm]
    exact h

theorem playTicks_done (env : Env) (m : Nat) (k : Controller) (v f : List ViewCall)
    (h : Done k v f) : Done (k.playTicks env m) v f := by
  induction m generalizing k with
  | zero => exact h
  | succ m ih => exact ih _ (playTick_done env k v f h)

theorem playTicks_playing (env : Env) (m : Nat) (k : Controller) (s : List Operation)
    (v f : List ViewCall) (h : Playing env k s v f) (ht : Timer.tick ∈ k.timers) :
    (m ≤ s.length →
      Playing env (k.playTicks env m) (s.drop m) (v ++ (s.take m).map render) f ∧
        Timer.tick ∈ (k.playTicks env m).timers) ∧
    (s.length < m → Done (k.playTicks env m) (v ++ s.map render) f) := by
  induction m generalizing k s v with
  | zero =>
    refine ⟨fun _ => ?_, fun hm => absurd hm (Nat.not_lt_zero _)⟩
    simpa [playTicks] using And.intro h ht
  | succ m ih =>
    have hk : Playing env { k with timers := k.timers.erase Timer.tick } s v f := h
    simp only [playTicks]
    rw [playTick_of_mem env k ht]
    cases s with
    | nil =>
      refine ⟨fun hm => absurd hm (by simp), fun _ => ?_⟩
      have := loopTick_nil env _ v f hk
      simpa using playTicks_done env m _ v f this
    | cons op s =>
      obtain ⟨hp, hmem⟩ := loopTick_cons env _ op s v f hk
      obtain ⟨i1, i2⟩ := ih _ s (v ++ [render op]) hp hmem
      refine ⟨fun hm => ?_, fun hm => ?_⟩
      · have := i1 (by simpa using hm)
        simpa using this
      · have := i2 (by simpa using hm)
        simpa using this

theorem destination_finished (name s : String)
    (h : StateMachine.destination name s = some "finished") : name = "finish" := by
  unfold StateMachine.destination at h
  split at h
  · exact absurd h (by simp)
  · rename_i ev hev
    have hmem := List.mem_of_find?_eq_some hev
    have hp := List.find?_some hev
    split at h
    · simp only [Option.some.injEq] at h
      simp only [events, List.mem_cons, List.mem_singleton, List.not_mem_nil, or_false] at hmem
      rcases hmem with e | e | e | e | e | e | e | e | e | e | e | e | e | e | e | e <;>
        subst e <;> simp_all
    · exact absurd h (by simp)

theorem finish_operations (c : Controller) (h : c.operations = []) :
    c.finish.operations = [] := by
  unfold finish buildEvent
  split
  · exact h
  · split
    · exact h
    · split
      · simpa [onfinish, emit] using h
      · split
        · simp [onleavenone, hookPathFinding]
        · rw [onfinished, setButtonStates_eq]
          simpa [onfinish, emit] using h

theorem emptyIfFinished_of_ne {k : Controller} (h : k.current ≠ "finished") :
    EmptyIfFinished k := fun hf => absurd hf h

theorem step_emptyIfFinished (env : Env) (k : Controller) (h : k.current ≠ "finished") :
    EmptyIfFinished (k.step env) := by
  cases hs : supported env k.operations with
  | nil =>
    have hq : ∀ o ∈ k.operations, env.supportedOperations.contains o.attr = false := by
      intro o ho
      have := (List.filter_eq_nil_iff.mp hs) o ho
      simpa using this
    rw [step_unsupported env k hq]
    exact fun _ => finish_operations _ rfl
  | cons op s =>
    obtain ⟨u, rest, hq, hu, hop, -⟩ := List.filter_eq_cons_iff.mp hs
    have hu2 : ∀ o ∈ u, env.supportedOperations.contains o.attr = false := by
      intro o ho
      simpa using hu o ho
    rw [step, hq, stepFrom_supported env u op rest k hu2 hop]
    exact emptyIfFinished_of_ne h

theorem loopTick_emptyIfFinished (env : Env) (k : Controller) (h : k.current ≠ "finished") :
    EmptyIfFinished (k.loopTick env) := by
  unfold loopTick
  split
  · exact emptyIfFinished_of_ne h
  · exact step_emptyIfFinished env k h

theorem buildEvent_emptyIfFinished (name : String) (enter after : Controller → Controller)
    (c : Controller) (hn : name ≠ "finish") (hc : c.current ≠ "finished")
    (hA : ∀ k : Controller, k.current ≠ "finished" → EmptyIfFinished (after k))
    (hEA : ∀ k : Controller, k.current ≠ "finished" → EmptyIfFinished (after (enter k))) :
    EmptyIfFinished (c.buildEvent name enter after) := by
  unfold buildEvent
  split
  · exact emptyIfFinished_of_ne hc
  · split
    · exact emptyIfFinished_of_ne hc
    · rename_i dst hd
      have hdst : dst ≠ "finished" := by
        intro e
        rw [e] at hd
        exact hn (destination_finished _ _ hd)
      split
      · exact hA c hc
      · split
        · rename_i h1 h2
          apply emptyIfFinished_of_ne
          show c.onleavenone.current ≠ "finished"
          simpa [onleavenone, hookPathFinding, emit, setTimeout] using hc
        · exact hEA _ hdst

theorem search_emptyIfFinished (env : Env) (c : Controller) (hc : c.current ≠ "finished") :
    EmptyIfFinished (c.search env) := by
  apply buildEvent_emptyIfFinished "search" onsearching (onsearch env) c (by decide) hc
  · intro k hk
    exact loopTick_emptyIfFinished env _ hk
  · intro k hk
    exact loopTick_emptyIfFinished env _ (by simpa [onsearching] using hk)

theorem start_emptyIfFinished (env : Env) (c : Controller) (hc : c.current ≠ "finished") :
    EmptyIfFinished (c.start env) := by
  apply buildEvent_emptyIfFinished "start" (onstarting env) id c (by decide) hc
  · intro k hk
    exact emptyIfFinished_of_ne hk
  · intro k hk
    exact search_emptyIfFinished env _ (by simpa [clearFootprints, emit] using hk)

theorem resume_emptyIfFinished (env : Env) (c : Controller) (hc : c.current ≠ "finished") :
    EmptyIfFinished (c.resume env) := by
  apply buildEvent_emptyIfFinished "resume" onsearching (onresume env) c (by decide) hc
  · intro k hk
    exact loopTick_emptyIfFinished env _ hk
  · intro k hk
    exact loopTick_emptyIfFinished env _ (by simpa [onsearching] using hk)

theorem frame_emptyIfFinished (name : String) (enter after : Controller → Controller)
    (c : Controller) (hn : name ≠ "finish") (hc : c.current ≠ "finished")
    (hE : ∀ k : Controller, (enter k).current = k.current)
    (hA : ∀ k : Controller, (after k).current = k.current) :
    EmptyIfFinished (c.buildEvent name enter after) := by
  apply buildEvent_emptyIfFinished name enter after c hn hc
  · intro k hk
    exact emptyIfFinished_of_ne (by rw [hA]; exact hk)
  · intro k hk
    exact emptyIfFinished_of_ne (by rw [hA, hE]; exact hk)

theorem emptyIfFinished_ite {p : Prop} [Decidable p] {a b : Controller}
    (ha : p → EmptyIfFinished a) (hb : ¬p → EmptyIfFinished b) :
    EmptyIfFinished (if p then a else b) := by
  split
  · exact ha ‹_›
  · exact hb ‹_›

theorem fire_emptyIfFinished (env : Env) (name : String) (gridX gridY : Int)
    (c : Controller) (hn : name ≠ "finish") (hc : c.current ≠ "finished") :
    EmptyIfFinished (c.fire env name gridX gridY) := by
  have hB : ∀ (opts : List ButtonOpt) (k : Controller),
      (k.setButtonStates opts).current = k.current := fun opts k => by simp
  unfold fire
  refine
    emptyIfFinished_ite (fun _ => frame_emptyIfFinished "init" onready id c (by decide) hc
      (fun k => hB _ k) (fun _ => rfl)) fun _ =>
    emptyIfFinished_ite (fun _ => search_emptyIfFinished env c hc) fun _ =>
    emptyIfFinished_ite (fun _ => frame_emptyIfFinished "pause" onpaused onpause c (by decide) hc
      (fun k => hB _ k) (fun _ => rfl)) fun _ =>
    emptyIfFinished_ite (fun h => absurd h hn) fun _ =>
    emptyIfFinished_ite (fun _ => resume_emptyIfFinished env c hc) fun _ =>
    emptyIfFinished_ite (fun _ => frame_emptyIfFinished "cancel" onready oncancel c (by decide) hc
      (fun k => hB _ k) (fun _ => rfl)) fun _ =>
    emptyIfFinished_ite (fun _ => frame_emptyIfFinished "modify" onmodified onmodify c
      (by decide) hc (fun k => hB _ k) (fun _ => rfl)) fun _ =>
    emptyIfFinished_ite (fun _ => frame_emptyIfFinished "reset" onready onreset c (by decide) hc
      (fun k => hB _ k) (fun _ => rfl)) fun _ =>
    emptyIfFinished_ite (fun _ => frame_emptyIfFinished "clear" onready onclear c (by decide) hc
      (fun k => hB _ k) (fun _ => rfl)) fun _ =>
    emptyIfFinished_ite (fun _ => start_emptyIfFinished env c hc) fun _ =>
    emptyIfFinished_ite (fun _ => frame_emptyIfFinished "restart" id onrestart c (by decide) hc
      (fun _ => rfl) (fun _ => rfl)) fun _ =>
    emptyIfFinished_ite (fun _ => frame_emptyIfFinished "dragStart" id id c (by decide) hc
      (fun _ => rfl) (fun _ => rfl)) fun _ =>
    emptyIfFinished_ite (fun _ => frame_emptyIfFinished "dragEnd" id id c (by decide) hc
      (fun _ => rfl) (fun _ => rfl)) fun _ =>
    emptyIfFinished_ite (fun _ => frame_emptyIfFinished "drawWall" id (ondrawWall gridX gridY) c
      (by decide) hc (fun _ => rfl) (fun _ => rfl)) fun _ =>
    emptyIfFinished_ite (fun _ => frame_emptyIfFinished "eraseWall" id (oneraseWall gridX gridY) c
      (by decide) hc (fun _ => rfl) (fun _ => rfl)) fun _ =>
    emptyIfFinished_ite (fun _ => frame_emptyIfFinished "rest" onready id c (by decide) hc
      (fun k => hB _ k) (fun _ => rfl)) fun _ =>
    emptyIfFinished_of_ne hc

theorem afterEvent_emptyIfFinished (env : Env) (name : String) (k : Controller)
    (hk : k.current ≠ "finished") : EmptyIfFinished (afterEvent env name k) := by
  unfold afterEvent
  exact
    emptyIfFinished_ite (fun _ => loopTick_emptyIfFinished env _ hk) fun _ =>
    emptyIfFinished_ite (fun _ => emptyIfFinished_of_ne hk) fun _ =>
    emptyIfFinished_ite (fun _ => emptyIfFinished_of_ne hk) fun _ =>
    emptyIfFinished_ite (fun _ => loopTick_emptyIfFinished env _ hk) fun _ =>
    emptyIfFinished_ite (fun _ => emptyIfFinished_of_ne hk) fun _ =>
    emptyIfFinished_ite (fun _ => emptyIfFinished_of_ne hk) fun _ =>
    emptyIfFinished_ite (fun _ => emptyIfFinished_of_ne hk) fun _ =>
    emptyIfFinished_ite (fun _ => emptyIfFinished_of_ne hk) fun _ =>
    emptyIfFinished_ite (fun _ => emptyIfFinished_of_ne hk) fun _ =>
    emptyIfFinished_of_ne hk

theorem runTransition_emptyIfFinished (env : Env) (k : Controller)
    (hp : ∀ t, k.transition = some t → t.dst = "ready") (hk : k.current ≠ "finished") :
    EmptyIfFinished (k.runTransition env) := by
  unfold runTransition
  split
  · exact emptyIfFinished_of_ne hk
  · rename_i t ht
    have hd := hp t ht
    apply afterEvent_emptyIfFinished
    rw [hd]
    simp [enterState, onready]

theorem fireTimer_emptyIfFinished (env : Env) (i : Nat) (k : Controller)
    (hp : ∀ t, k.transition = some t → t.dst = "ready") (hk : k.current ≠ "finished") :
    EmptyIfFinished (k.fireTimer env i) := by
  unfold fireTimer
  split
  · exact emptyIfFinished_of_ne hk
  · rename_i t ht
    cases t with
    | gridGenerated =>
      apply runTransition_emptyIfFinished
      · intro t htr
        apply hp t
        rw [← htr]
        simp only [bindEvents]
        exact ((setDefaultStartEndPos_control _).2).symm
      · simp only [bindEvents]
        rw [(setDefaultStartEndPos_control _).1]
        exact hk
    | restart => exact start_emptyIfFinished env _ hk
    | reset => exact emptyIfFinished_of_ne hk
    | tick => exact loopTick_emptyIfFinished env _ hk

theorem mousedown_emptyIfFinished (env : Env) (pageX pageY : Int) (k : Controller)
    (hk : k.current ≠ "finished") : EmptyIfFinished (k.mousedown env pageX pageY) := by
  unfold mousedown
  exact
    emptyIfFinished_ite (fun _ => frame_emptyIfFinished "dragStart" id id k (by decide) hk
      (fun _ => rfl) (fun _ => rfl)) fun _ =>
    emptyIfFinished_ite (fun _ => frame_emptyIfFinished "dragEnd" id id k (by decide) hk
      (fun _ => rfl) (fun _ => rfl)) fun _ =>
    emptyIfFinished_ite (fun _ => frame_emptyIfFinished "drawWall" id (ondrawWall _ _) k
      (by decide) hk (fun _ => rfl) (fun _ => rfl)) fun _ =>
    emptyIfFinished_ite (fun _ => frame_emptyIfFinished "eraseWall" id (oneraseWall _ _) k
      (by decide) hk (fun _ => rfl) (fun _ => rfl)) fun _ =>
    emptyIfFinished_of_ne hk

theorem mousemove_current (env : Env) (pageX pageY : Int) (k : Controller) :
    (k.mousemove env pageX pageY).current = k.current := by
  unfold mousemove
  simp only
  repeat' split
  all_goals rfl

theorem mouseup_emptyIfFinished (k : Controller) (hk : k.current ≠ "finished") :
    EmptyIfFinished k.mouseup := by
  unfold mouseup
  exact emptyIfFinished_ite
    (fun _ => frame_emptyIfFinished "rest" onready id k (by decide) hk
      (fun k => by simp [onready]) (fun _ => rfl))
    (fun _ => emptyIfFinished_of_ne hk)

theorem click_emptyIfFinished (env : Env) (i : Nat) (k : Controller)
    (hb : ∀ b ∈ k.buttons, b.callback ≠ some "finish") (hk : k.current ≠ "finished") :
    EmptyIfFinished (k.click env i) := by
  unfold click
  split
  · exact emptyIfFinished_of_ne hk
  · rename_i b hget
    have hmem : b ∈ k.buttons := List.get?_mem hget
    split
    · split
      · rename_i name hname
        apply fire_emptyIfFinished env name 0 0 k _ hk
        intro e
        exact hb b hmem (by rw [hname, e])
      · exact emptyIfFinished_of_ne hk
    · exact emptyIfFinished_of_ne hk

theorem act_emptyIfFinished (env : Env) (k : Controller) (a : Action)
    (hp : ∀ t, k.transition = some t → t.dst = "ready")
    (hb : ∀ b ∈ k.buttons, b.callback ≠ some "finish")
    (ha : ∀ x y, a ≠ .event "finish" x y) (hk : k.current ≠ "finished") :
    EmptyIfFinished (k.act env a) := by
  cases a with
  | event name x y =>
    apply fire_emptyIfFinished env name x y k _ hk
    intro e
    exact ha x y (by rw [e])
  | mousedown px py => exact mousedown_emptyIfFinished env px py k hk
  | mousemove px py =>
    exact emptyIfFinished_of_ne (by rw [act, mousemove_current]; exact hk)
  | mouseup => exact mouseup_emptyIfFinished k hk
  | click i => exact click_emptyIfFinished env i k hb hk
  | timer i => exact fireTimer_emptyIfFinished env i k hp hk

theorem pause_of_searching (c : Controller) (h1 : c.current = "searching")
    (h2 : c.transition = none) :
    c.pause = onpause (onpaused { c with current := "paused" }) := by
  have hd : StateMachine.destination "pause" "searching" = some "paused" := by decide
  simp [pause, buildEvent, h1, h2, hd]

theorem resume_of_paused (env : Env) (c : Controller) (h1 : c.current = "paused")
    (h2 : c.transition = none) :
    c.resume env = onresume env (onsearching { c with current := "searching" }) := by
  have hd : StateMachine.destination "resume" "paused" = some "searching" := by decide
  simp [resume, buildEvent, h1, h2, hd]

theorem pause_spec (c : Controller) (h1 : c.current = "searching")
    (h2 : c.transition = none) :
    c.pause.current = "paused" ∧ c.pause.transition = none ∧
    c.pause.operations = c.operations ∧ c.pause.view = c.view ∧
    c.pause.timers = c.timers ∧ finishCalls c.pause = finishCalls c := by
  rw [pause_of_searching c h1 h2, onpaused, setButtonStates_eq]
  simp [onpause, finishCalls, h2]

theorem resume_playing (env : Env) (c : Controller) (s : List Operation)
    (v f : List ViewCall) (h1 : c.current = "paused") (h2 : c.transition = none)
    (h3 : supported env c.operations = s) (h4 : c.view = v) (h5 : finishCalls c = f) :
    ∃ d, Playing env d s v f ∧ c.resume env = d.loopTick env := by
  refine ⟨onsearching { c with current := "searching" }, ?_, ?_⟩
  · rw [onsearching, setButtonStates_eq]
    exact ⟨rfl, h2, h3, h4, h5⟩
  · rw [resume_of_paused env c h1 h2]
    rfl

theorem can_edit_iff (c : Controller) :
    (c.can "dragStart" = true ↔
      c.transition = none ∧ (c.current = "ready" ∨ c.current = "finished")) ∧
    (c.can "dragEnd" = true ↔
      c.transition = none ∧ (c.current = "ready" ∨ c.current = "finished")) ∧
    (c.can "drawWall" = true ↔
      c.transition = none ∧ (c.current = "ready" ∨ c.current = "finished")) ∧
    (c.can "eraseWall" = true ↔
      c.transition = none ∧ (c.current = "ready" ∨ c.current = "finished")) := by
  refine ⟨?_, ?_, ?_, ?_⟩ <;>
    simp [can, StateMachine.destination, events, WILDCARD, Option.isSome_iff_exists]

theorem edit_event_of_can (name dst : String) (after : Controller → Controller)
    (c : Controller) (ht : c.transition = none)
    (hs : c.current = "ready" ∨ c.current = "finished")
    (hd : StateMachine.destination name "ready" = some dst)
    (hd2 : StateMachine.destination name "finished" = some dst)
    (hne : dst ≠ "ready") (hne2 : dst ≠ "finished") :
    c.buildEvent name id after = after { c with current := dst } := by
  rcases hs with h | h
  · simp [buildEvent, ht, h, hd, hne.symm]
  · simp [buildEvent, ht, h, hd2, hne2.symm]

theorem grid_isWalkableAt_setWalkableAt (g : Grid) (x y : Int) (w : Bool) :
    (g.setWalkableAt x y w).isWalkableAt x y = (g.isInside x y && w) := by
  unfold Grid.setWalkableAt
  split
  · rename_i h
    have : ({ g with walkable := fun a b => if a = x ∧ b = y then w else g.walkable a b } :
        Grid).isInside x y = true := h
    simp [Grid.isWalkableAt, this, h]
  · rename_i h
    simp [Grid.isWalkableAt, h]

/-! ## Pointer handlers, case by case -/

theorem grid_setWalkableAt_outside (g : Grid) (x y : Int) (w : Bool)
    (h : g.isInside x y = false) : g.setWalkableAt x y w = g := by
  simp [Grid.setWalkableAt, h]

theorem mousedown_of_not_editable (env : Env) (c : Controller) (pageX pageY : Int)
    (h : ¬(c.transition = none ∧ (c.current = "ready" ∨ c.current = "finished"))) :
    c.mousedown env pageX pageY = c := by
  obtain ⟨k1, k2, k3, k4⟩ := can_edit_iff c
  have c1 : c.can "dragStart" = false := by
    cases hc : c.can "dragStart"
    · rfl
    · exact absurd (k1.mp hc) h
  have c2 : c.can "dragEnd" = false := by
    cases hc : c.can "dragEnd"
    · rfl
    · exact absurd (k2.mp hc) h
  have c3 : c.can "drawWall" = false := by
    cases hc : c.can "drawWall"
    · rfl
    · exact absurd (k3.mp hc) h
  have c4 : c.can "eraseWall" = false := by
    cases hc : c.can "eraseWall"
    · rfl
    · exact absurd (k4.mp hc) h
  simp [mousedown, c1, c2, c3, c4]

/-- The five possible results of `mousedown`, each event call under its
guard. -/
theorem mousedown_cases (env : Env) (c : Controller) (pageX pageY gridX gridY : Int)
    (hxy : env.toGridCoordinate pageX pageY = (gridX, gridY)) :
    (c.can "dragStart" = true ∧ c.isStartPos gridX gridY = true ∧
      c.mousedown env pageX pageY = c.dragStart) ∨
    (c.can "dragEnd" = true ∧ c.isEndPos gridX gridY = true ∧
      c.mousedown env pageX pageY = c.dragEnd) ∨
    (c.can "drawWall" = true ∧ c.grid.isWalkableAt gridX gridY = true ∧
      c.isStartPos gridX gridY = false ∧
      c.mousedown env pageX pageY = c.drawWall gridX gridY) ∨
    (c.can "eraseWall" = true ∧ c.grid.isWalkableAt gridX gridY = false ∧
      c.mousedown env pageX pageY = c.eraseWall gridX gridY) ∨
    ((c.transition ≠ none ∨ (c.current ≠ "ready" ∧ c.current ≠ "finished")) ∧
      c.mousedown env pageX pageY = c) := by
  obtain ⟨k1, k2, k3, k4⟩ := can_edit_iff c
  by_cases he : c.transition = none ∧ (c.current = "ready" ∨ c.current = "finished")
  · have c1 := k1.mpr he
    have c2 := k2.mpr he
    have c3 := k3.mpr he
    have c4 := k4.mpr he
    by_cases h1 : c.isStartPos gridX gridY = true
    · left
      exact ⟨c1, h1, by simp [mousedown, hxy, c1, h1]⟩
    · by_cases h2 : c.isEndPos gridX gridY = true
      · right; left
        exact ⟨c2, h2, by simp [mousedown, hxy, c1, c2, h1, h2]⟩
      · by_cases h3 : c.grid.isWalkableAt gridX gridY = true
        · right; right; left
          exact ⟨c3, h3, by simpa using h1, by simp [mousedown, hxy, c1, c2, c3, h1, h2, h3]⟩
        · right; right; right; left
          exact ⟨c4, by simpa using h3,
            by simp [mousedown, hxy, c1, c2, c3, c4, h1, h2, h3]⟩
  · right; right; right; right
    refine ⟨?_, mousedown_of_not_editable env c pageX pageY he⟩
    by_cases ht : c.transition = none
    · right
      constructor
      · intro h; exact he ⟨ht, Or.inl h⟩
      · intro h; exact he ⟨ht, Or.inr h⟩
    · left; exact ht

theorem dragStart_of_can (c : Controller) (h : c.can "dragStart" = true) :
    c.dragStart = { c with current := "draggingStart" } := by
  obtain ⟨ht, hs⟩ := (can_edit_iff c).1.mp h
  exact edit_event_of_can "dragStart" "draggingStart" id c ht hs (by decide) (by decide)
    (by decide) (by decide)

theorem dragEnd_of_can (c : Controller) (h : c.can "dragEnd" = true) :
    c.dragEnd = { c with current := "draggingEnd" } := by
  obtain ⟨ht, hs⟩ := (can_edit_iff c).2.1.mp h
  exact edit_event_of_can "dragEnd" "draggingEnd" id c ht hs (by decide) (by decide)
    (by decide) (by decide)

theorem drawWall_of_can (c : Controller) (x y : Int) (h : c.can "drawWall" = true) :
    c.drawWall x y = ({ c with current := "drawingWall" }).setWalkableAt x y false := by
  obtain ⟨ht, hs⟩ := (can_edit_iff c).2.2.1.mp h
  exact edit_event_of_can "drawWall" "drawingWall" (ondrawWall x y) c ht hs (by decide)
    (by decide) (by decide) (by decide)

theorem eraseWall_of_can (c : Controller) (x y : Int) (h : c.can "eraseWall" = true) :
    c.eraseWall x y = ({ c with current := "erasingWall" }).setWalkableAt x y true := by
  obtain ⟨ht, hs⟩ := (can_edit_iff c).2.2.2.mp h
  exact edit_event_of_can "eraseWall" "erasingWall" (oneraseWall x y) c ht hs (by decide)
    (by decide) (by decide) (by decide)

/-- The five possible results of `mousemove`; none is an event method. -/
theorem mousemove_cases (env : Env) (c : Controller) (pageX pageY gridX gridY : Int)
    (hxy : env.toGridCoordinate pageX pageY = (gridX, gridY)) :
    c.mousemove env pageX pageY = c ∨
    (c.current = "draggingStart" ∧ c.isStartOrEndPos gridX gridY = false ∧
      c.grid.isWalkableAt gridX gridY = true ∧
      c.mousemove env pageX pageY = c.setStartPos gridX gridY) ∨
    (c.current = "draggingEnd" ∧ c.isStartOrEndPos gridX gridY = false ∧
      c.grid.isWalkableAt gridX gridY = true ∧
      c.mousemove env pageX pageY = c.setEndPos gridX gridY) ∨
    (c.current = "drawingWall" ∧ c.isStartOrEndPos gridX gridY = false ∧
      c.mousemove env pageX pageY = c.setWalkableAt gridX gridY false) ∨
    (c.current = "erasingWall" ∧ c.isStartOrEndPos gridX gridY = false ∧
      c.mousemove env pageX pageY = c.setWalkableAt gridX gridY true) := by
  by_cases hp : c.isStartOrEndPos gridX gridY = true
  · left; simp [mousemove, hxy, hp]
  · have hp2 : c.isStartOrEndPos gridX gridY = false := by simpa using hp
    by_cases h1 : c.current = "draggingStart"
    · by_cases hw : c.grid.isWalkableAt gridX gridY = true
      · right; left
        exact ⟨h1, hp2, hw, by simp [mousemove, hxy, hp, h1, hw]⟩
      · left; simp [mousemove, hxy, hp, h1, hw]
    · by_cases h2 : c.current = "draggingEnd"
      · by_cases hw : c.grid.isWalkableAt gridX gridY = true
        · right; right; left
          exact ⟨h2, hp2, hw, by simp [mousemove, hxy, hp, h2, hw]⟩
        · left; simp [mousemove, hxy, hp, h2, hw]
      · by_cases h3 : c.current = "drawingWall"
        · right; right; right; left
          exact ⟨h3, hp2, by simp [mousemove, hxy, hp, h3]⟩
        · by_cases h4 : c.current = "erasingWall"
          · right; right; right; right
            exact ⟨h4, hp2, by simp [mousemove, hxy, hp, h4]⟩
          · left; simp [mousemove, hxy, hp, h1, h2, h3, h4]

/-! ## The search run by `start` -/

theorem start_eq (env : Env) (c : Controller)
    (hs : c.current = "ready" ∨ c.current = "modified" ∨ c.current = "restarting")
    (ht : c.transition = none) :
    c.start env = onstarting env { c with current := "starting" } ∧
    onstarting env { c with current := "starting" } = (searchReturned env c).loop env := by
  have hd : StateMachine.destination "start" c.current = some "starting" := by
    rcases hs with h | h | h <;> rw [h] <;> decide
  have hne : c.current ≠ "starting" := by
    rcases hs with h | h | h <;> rw [h] <;> decide
  have hnn : c.current ≠ "none" := by
    rcases hs with h | h | h <;> rw [h] <;> decide
  have hd2 : StateMachine.destination "search" "starting" = some "searching" := by decide
  constructor
  · simp [start, buildEvent, ht, hd, hne, hnn]
  · simp [onstarting, search, buildEvent, ht, hd2, clearFootprints, emit, searchReturned,
      onsearch]

theorem searchReturned_spec (env : Env) (c : Controller) (ht : c.transition = none) :
    (searchReturned env c).current = "searching" ∧
    (searchReturned env c).transition = none ∧
    (searchReturned env c).operations =
      c.operations ++ (env.findPath c.startX c.startY c.endX c.endY c.grid.clone).2 ∧
    (searchReturned env c).operationCount =
      some (c.operations ++
        (env.findPath c.startX c.startY c.endX c.endY c.grid.clone).2).length ∧
    (searchReturned env c).path =
      some (env.findPath c.startX c.startY c.endX c.endY c.grid.clone).1 ∧
    (searchReturned env c).timeSpent = some env.timeSpent ∧
    (searchReturned env c).view = c.view ++ [.clearFootprints, .clearPath] ∧
    (searchReturned env c).grid = c.grid := by
  simp only [searchReturned, onsearching]
  rw [setButtonStates_eq]
  simp only
  rw [setButtonStates_eq]
  simp [clearFootprints, emit, ht]

/-- One tick run at once, then `m` scheduled ticks, from a controller where
playback is under way. -/
theorem loopTick_playTicks (env : Env) (d : Controller) (s : List Operation)
    (v f : List ViewCall) (h : Playing env d s v f) (m : Nat) :
    (m < s.length → ((d.loopTick env).playTicks env m).current = "searching") ∧
    (s.length ≤ m → Done ((d.loopTick env).playTicks env m) (v ++ s.map render) f) := by
  cases s with
  | nil =>
    refine ⟨fun hm => absurd hm (by simp), fun _ => ?_⟩
    have := loopTick_nil env d v f h
    simpa using playTicks_done env m _ v f this
  | cons op s =>
    obtain ⟨hp, hmem⟩ := loopTick_cons env d op s v f h
    obtain ⟨i1, i2⟩ := playTicks_playing env m _ s _ f hp hmem
    refine ⟨fun hm => ?_, fun hm => ?_⟩
    · exact (i1 (by simpa using Nat.lt_succ_iff.mp hm)).1.1
    · have := i2 (by simpa using hm)
      simpa using this

theorem finish_searchResult (c : Controller) : searchResult c.finish = searchResult c := by
  unfold finish buildEvent
  split
  · rfl
  · split
    · rfl
    · split
      · rfl
      · split
        · rfl
        · rw [onfinished, setButtonStates_eq]
          rfl

theorem stepFrom_searchResult (env : Env) (q : List Operation) (c : Controller) :
    searchResult (stepFrom env q c) = searchResult c := by
  induction q generalizing c with
  | nil => exact finish_searchResult c
  | cons op rest ih =>
    simp only [stepFrom]
    split
    · rfl
    · exact ih _

theorem loopTick_searchResult (env : Env) (c : Controller) :
    searchResult (c.loopTick env) = searchResult c := by
  unfold loopTick
  split
  · rfl
  · exact stepFrom_searchResult env _ c

/-! ## What the setters leave in place -/

@[simp] theorem setStartPos_grid (c : Controller) (x y : Int) :
    (c.setStartPos x y).grid = c.grid := rfl

@[simp] theorem setStartPos_gridSize (c : Controller) (x y : Int) :
    (c.setStartPos x y).gridSize = c.gridSize := rfl

@[simp] theorem setStartPos_endX (c : Controller) (x y : Int) :
    (c.setStartPos x y).endX = c.endX := rfl

@[simp] theorem setStartPos_endY (c : Controller) (x y : Int) :
    (c.setStartPos x y).endY = c.endY := rfl

@[simp] theorem setStartPos_buttons (c : Controller) (x y : Int) :
    (c.setStartPos x y).buttons = c.buttons := rfl

@[simp] theorem setStartPos_timers (c : Controller) (x y : Int) :
    (c.setStartPos x y).timers = c.timers := rfl

@[simp] theorem setEndPos_grid (c : Controller) (x y : Int) :
    (c.setEndPos x y).grid = c.grid := rfl

@[simp] theorem setEndPos_gridSize (c : Controller) (x y : Int) :
    (c.setEndPos x y).gridSize = c.gridSize := rfl

@[simp] theorem setEndPos_startX (c : Controller) (x y : Int) :
    (c.setEndPos x y).startX = c.startX := rfl

@[simp] theorem setEndPos_startY (c : Controller) (x y : Int) :
    (c.setEndPos x y).startY = c.startY := rfl

@[simp] theorem setEndPos_buttons (c : Controller) (x y : Int) :
    (c.setEndPos x y).buttons = c.buttons := rfl

@[simp] theorem setEndPos_timers (c : Controller) (x y : Int) :
    (c.setEndPos x y).timers = c.timers := rfl

@[simp] theorem setFirePos_grid (c : Controller) (x y : Int) :
    (c.setFirePos x y).grid = c.grid := rfl

@[simp] theorem setFirePos_gridSize (c : Controller) (x y : Int) :
    (c.setFirePos x y).gridSize = c.gridSize := rfl

@[simp] theorem setFirePos_startX (c : Controller) (x y : Int) :
    (c.setFirePos x y).startX = c.startX := rfl

@[simp] theorem setFirePos_startY (c : Controller) (x y : Int) :
    (c.setFirePos x y).startY = c.startY := rfl

@[simp] theorem setFirePos_endX (c : Controller) (x y : Int) :
    (c.setFirePos x y).endX = c.endX := rfl

@[simp] theorem setFirePos_endY (c : Controller) (x y : Int) :
    (c.setFirePos x y).endY = c.endY := rfl

@[simp] theorem setFirePos_buttons (c : Controller) (x y : Int) :
    (c.setFirePos x y).buttons = c.buttons := rfl

@[simp] theorem setFirePos_timers (c : Controller) (x y : Int) :
    (c.setFirePos x y).timers = c.timers := rfl

@[simp] theorem setCarrefourPos_grid (c : Controller) (x y : Int) :
    (c.setCarrefourPos x y).grid = c.grid := rfl

@[simp] theorem setCarrefourPos_gridSize (c : Controller) (x y : Int) :
    (c.setCarrefourPos x y).gridSize = c.gridSize := rfl

@[simp] theorem setCarrefourPos_startX (c : Controller) (x y : Int) :
    (c.setCarrefourPos x y).startX = c.startX := rfl

@[simp] theorem setCarrefourPos_startY (c : Controller) (x y : Int) :
    (c.setCarrefourPos x y).startY = c.startY := rfl

@[simp] theorem setCarrefourPos_endX (c : Controller) (x y : Int) :
    (c.setCarrefourPos x y).endX = c.endX := rfl

@[simp] theorem setCarrefourPos_endY (c : Controller) (x y : Int) :
    (c.setCarrefourPos x y).endY = c.endY := rfl

@[simp] theorem setCarrefourPos_buttons (c : Controller) (x y : Int) :
    (c.setCarrefourPos x y).buttons = c.buttons := rfl

@[simp] theorem setCarrefourPos_timers (c : Controller) (x y : Int) :
    (c.setCarrefourPos x y).timers = c.timers := rfl

@[simp] theorem setApplePos_grid (c : Controller) (x y : Int) :
    (c.setApplePos x y).grid = c.grid := rfl

@[simp] theorem setApplePos_gridSize (c : Controller) (x y : Int) :
    (c.setApplePos x y).gridSize = c.gridSize := rfl

@[simp] theorem setApplePos_startX (c : Controller) (x y : Int) :
    (c.setApplePos x y).startX = c.startX := rfl

@[simp] theorem setApplePos_startY (c : Controller) (x y : Int) :
    (c.setApplePos x y).startY = c.startY := rfl

@[simp] theorem setApplePos_endX (c : Controller) (x y : Int) :
    (c.setApplePos x y).endX = c.endX := rfl

@[simp] theorem setApplePos_endY (c : Controller) (x y : Int) :
    (c.setApplePos x y).endY = c.endY := rfl

@[simp] theorem setApplePos_buttons (c : Controller) (x y : Int) :
    (c.setApplePos x y).buttons = c.buttons := rfl

@[simp] theorem setApplePos_timers (c : Controller) (x y : Int) :
    (c.setApplePos x y).timers = c.timers := rfl

@[simp] theorem setMacdonaldPos_grid (c : Controller) (x y : Int) :
    (c.setMacdonaldPos x y).grid = c.grid := rfl

@[simp] theorem setMacdonaldPos_gridSize (c : Controller) (x y : Int) :
    (c.setMacdonaldPos x y).gridSize = c.gridSize := rfl

@[simp] theorem setMacdonaldPos_startX (c : Controller) (x y : Int) :
    (c.setMacdonaldPos x y).startX = c.startX := rfl

@[simp] theorem setMacdonaldPos_startY (c : Controller) (x y : Int) :
    (c.setMacdonaldPos x y).startY = c.startY := rfl

@[simp] theorem setMacdonaldPos_endX (c : Controller) (x y : Int) :
    (c.setMacdonaldPos x y).endX = c.endX := rfl

@[simp] theorem setMacdonaldPos_endY (c : Controller) (x y : Int) :
    (c.setMacdonaldPos x y).endY = c.endY := rfl

@[simp] theorem setMacdonaldPos_buttons (c : Controller) (x y : Int) :
    (c.setMacdonaldPos x y).buttons = c.buttons := rfl

@[simp] theorem setMacdonaldPos_timers (c : Controller) (x y : Int) :
    (c.setMacdonaldPos x y).timers = c.timers := rfl

@[simp] theorem setStarbucksPos_grid (c : Controller) (x y : Int) :
    (c.setStarbucksPos x y).grid = c.grid := rfl

@[simp] theorem setStarbucksPos_gridSize (c : Controller) (x y : Int) :
    (c.setStarbucksPos x y).gridSize = c.gridSize := rfl

@[simp] theorem setStarbucksPos_startX (c : Controller) (x y : Int) :
    (c.setStarbucksPos x y).startX = c.startX := rfl

@[simp] theorem setStarbucksPos_startY (c : Controller) (x y : Int) :
    (c.setStarbucksPos x y).startY = c.startY := rfl

@[simp] theorem setStarbucksPos_endX (c : Controller) (x y : Int) :
    (c.setStarbucksPos x y).endX = c.endX := rfl

@[simp] theorem setStarbucksPos_endY (c : Controller) (x y : Int) :
    (c.setStarbucksPos x y).endY = c.endY := rfl

@[simp] theorem setStarbucksPos_buttons (c : Controller) (x y : Int) :
    (c.setStarbucksPos x y).buttons = c.buttons := rfl

@[simp] theorem setStarbucksPos_timers (c : Controller) (x y : Int) :
    (c.setStarbucksPos x y).timers = c.timers := rfl

@[simp] theorem setMujiPos_grid (c : Controller) (x y : Int) :
    (c.setMujiPos x y).grid = c.grid := rfl

@[simp] theorem setMujiPos_gridSize (c : Controller) (x y : Int) :
    (c.setMujiPos x y).gridSize = c.gridSize := rfl

@[simp] theorem setMujiPos_startX (c : Controller) (x y : Int) :
    (c.setMujiPos x y).startX = c.startX := rfl

@[simp] theorem setMujiPos_startY (c : Controller) (x y : Int) :
    (c.setMujiPos x y).startY = c.startY := rfl

@[simp] theorem setMujiPos_endX (c : Controller) (x y : Int) :
    (c.setMujiPos x y).endX = c.endX := rfl

@[simp] theorem setMujiPos_endY (c : Controller) (x y : Int) :
    (c.setMujiPos x y).endY = c.endY := rfl

@[simp] theorem setMujiPos_buttons (c : Controller) (x y : Int) :
    (c.setMujiPos x y).buttons = c.buttons := rfl

@[simp] theorem setMujiPos_timers (c : Controller) (x y : Int) :
    (c.setMujiPos x y).timers = c.timers := rfl

@[simp] theorem setAdidasPos_grid (c : Controller) (x y : Int) :
    (c.setAdidasPos x y).grid = c.grid := rfl

@[simp] theorem setAdidasPos_gridSize (c : Controller) (x y : Int) :
    (c.setAdidasPos x y).gridSize = c.gridSize := rfl

@[simp] theorem setAdidasPos_startX (c : Controller) (x y : Int) :
    (c.setAdidasPos x y).startX = c.startX := rfl

@[simp] theorem setAdidasPos_startY (c : Controller) (x y : Int) :
    (c.setAdidasPos x y).startY = c.startY := rfl

@[simp] theorem setAdidasPos_endX (c : Controller) (x y : Int) :
    (c.setAdidasPos x y).endX = c.endX := rfl

@[simp] theorem setAdidasPos_endY (c : Controller) (x y : Int) :
    (c.setAdidasPos x y).endY = c.endY := rfl

@[simp] theorem setAdidasPos_buttons (c : Controller) (x y : Int) :
    (c.setAdidasPos x y).buttons = c.buttons := rfl

@[simp] theorem setAdidasPos_timers (c : Controller) (x y : Int) :
    (c.setAdidasPos x y).timers = c.timers := rfl

@[simp] theorem setNikePos_grid (c : Controller) (x y : Int) :
    (c.setNikePos x y).grid = c.grid := rfl

@[simp] theorem setNikePos_gridSize (c : Controller) (x y : Int) :
    (c.setNikePos x y).gridSize = c.gridSize := rfl

@[simp] theorem setNikePos_startX (c : Controller) (x y : Int) :
    (c.setNikePos x y).startX = c.startX := rfl

@[simp] theorem setNikePos_startY (c : Controller) (x y : Int) :
    (c.setNikePos x y).startY = c.startY := rfl

@[simp] theorem setNikePos_endX (c : Controller) (x y : Int) :
    (c.setNikePos x y).endX = c.endX := rfl

@[simp] theorem setNikePos_endY (c : Controller) (x y : Int) :
    (c.setNikePos x y).endY = c.endY := rfl

@[simp] theorem setNikePos_buttons (c : Controller) (x y : Int) :
    (c.setNikePos x y).buttons = c.buttons := rfl

@[simp] theorem setNikePos_timers (c : Controller) (x y : Int) :
    (c.setNikePos x y).timers = c.timers := rfl

@[simp] theorem setUniqloPos_grid (c : Controller) (x y : Int) :
    (c.setUniqloPos x y).grid = c.grid := rfl

@[simp] theorem setUniqloPos_gridSize (c : Controller) (x y : Int) :
    (c.setUniqloPos x y).gridSize = c.gridSize := rfl

@[simp] theorem setUniqloPos_startX (c : Controller) (x y : Int) :
    (c.setUniqloPos x y).startX = c.startX := rfl

@[simp] theorem setUniqloPos_startY (c : Controller) (x y : Int) :
    (c.setUniqloPos x y).startY = c.startY := rfl

@[simp] theorem setUniqloPos_endX (c : Controller) (x y : Int) :
    (c.setUniqloPos x y).endX = c.endX := rfl

@[simp] theorem setUniqloPos_endY (c : Controller) (x y : Int) :
    (c.setUniqloPos x y).endY = c.endY := rfl

@[simp] theorem setUniqloPos_buttons (c : Controller) (x y : Int) :
    (c.setUniqloPos x y).buttons = c.buttons := rfl

@[simp] theorem setUniqloPos_timers (c : Controller) (x y : Int) :
    (c.setUniqloPos x y).timers = c.timers := rfl

@[simp] theorem setBurgerPos_grid (c : Controller) (x y : Int) :
    (c.setBurgerPos x y).grid = c.grid := rfl

@[simp] theorem setBurgerPos_gridSize (c : Controller) (x y : Int) :
    (c.setBurgerPos x y).gridSize = c.gridSize := rfl

@[simp] theorem setBurgerPos_startX (c : Controller) (x y : Int) :
    (c.setBurgerPos x y).startX = c.startX := rfl

@[simp] theorem setBurgerPos_startY (c : Controller) (x y : Int) :
    (c.setBurgerPos x y).startY = c.startY := rfl

@[simp] theorem setBurgerPos_endX (c : Controller) (x y : Int) :
    (c.setBurgerPos x y).endX = c.endX := rfl

@[simp] theorem setBurgerPos_endY (c : Controller) (x y : Int) :
    (c.setBurgerPos x y).endY = c.endY := rfl

@[simp] theorem setBurgerPos_buttons (c : Controller) (x y : Int) :
    (c.setBurgerPos x y).buttons = c.buttons := rfl

@[simp] theorem setBurgerPos_timers (c : Controller) (x y : Int) :
    (c.setBurgerPos x y).timers = c.timers := rfl

@[simp] theorem setWalkableAt_gridSize (c : Controller) (x y : Int) (w : Bool) :
    (c.setWalkableAt x y w).gridSize = c.gridSize := rfl

@[simp] theorem setWalkableAt_startX (c : Controller) (x y : Int) (w : Bool) :
    (c.setWalkableAt x y w).startX = c.startX := rfl

@[simp] theorem setWalkableAt_startY (c : Controller) (x y : Int) (w : Bool) :
    (c.setWalkableAt x y w).startY = c.startY := rfl

@[simp] theorem setWalkableAt_endX (c : Controller) (x y : Int) (w : Bool) :
    (c.setWalkableAt x y w).endX = c.endX := rfl

@[simp] theorem setWalkableAt_endY (c : Controller) (x y : Int) (w : Bool) :
    (c.setWalkableAt x y w).endY = c.endY := rfl

@[simp] theorem setWalkableAt_buttons (c : Controller) (x y : Int) (w : Bool) :
    (c.setWalkableAt x y w).buttons = c.buttons := rfl

@[simp] theorem setWalkableAt_timers (c : Controller) (x y : Int) (w : Bool) :
    (c.setWalkableAt x y w).timers = c.timers := rfl

@[simp] theorem setWalkableAt_grid (c : Controller) (x y : Int) (w : Bool) :
    (c.setWalkableAt x y w).grid = c.grid.setWalkableAt x y w := rfl

@[simp] theorem setStartPos_startX (c : Controller) (x y : Int) :
    (c.setStartPos x y).startX = some x := rfl

@[simp] theorem setStartPos_startY (c : Controller) (x y : Int) :
    (c.setStartPos x y).startY = some y := rfl

@[simp] theorem grid_setWalkableAt_width (g : Grid) (x y : Int) (w : Bool) :
    (g.setWalkableAt x y w).width = g.width := by
  unfold Grid.setWalkableAt
  split <;> rfl

@[simp] theorem grid_setWalkableAt_height (g : Grid) (x y : Int) (w : Bool) :
    (g.setWalkableAt x y w).height = g.height := by
  unfold Grid.setWalkableAt
  split <;> rfl

theorem grid_setWalkableAt_isInside (g : Grid) (x y : Int) (w : Bool) (a b : Int) :
    (g.setWalkableAt x y w).isInside a b = g.isInside a b := by
  simp [Grid.isInside]

theorem grid_isWalkableAt_setWalkableAt_ne (g : Grid) (x y : Int) (w : Bool) (a b : Int)
    (h : ¬(a = x ∧ b = y)) :
    (g.setWalkableAt x y w).isWalkableAt a b = g.isWalkableAt a b := by
  unfold Grid.isWalkableAt
  rw [grid_setWalkableAt_isInside]
  unfold Grid.setWalkableAt
  split
  · simp [h]
  · rfl

theorem grid_isWalkableAt_setWalkableAt_true (g : Grid) (x y : Int) (a b : Int)
    (h : g.isWalkableAt a b = true) :
    (g.setWalkableAt x y true).isWalkableAt a b = true := by
  by_cases hab : a = x ∧ b = y
  · obtain ⟨rfl, rfl⟩ := hab
    rw [grid_isWalkableAt_setWalkableAt]
    simp only [Grid.isWalkableAt, Bool.and_eq_true] at h
    simp [h.1]
  · rw [grid_isWalkableAt_setWalkableAt_ne g x y true a b hab]
    exact h

theorem setDefaultStartEndPos_board (c : Controller) :
    c.setDefaultStartEndPos.startX = some 3 ∧ c.setDefaultStartEndPos.startY = some 4 ∧
    c.setDefaultStartEndPos.endX = c.endX ∧ c.setDefaultStartEndPos.endY = c.endY ∧
    c.setDefaultStartEndPos.gridSize = c.gridSize ∧
    c.setDefaultStartEndPos.buttons = c.buttons ∧
    c.setDefaultStartEndPos.timers = c.timers ∧
    c.setDefaultStartEndPos.grid.width = c.grid.width ∧
    c.setDefaultStartEndPos.grid.height = c.grid.height ∧
    c.setDefaultStartEndPos.grid.isWalkableAt 3 4 = c.grid.isWalkableAt 3 4 := by
  unfold setDefaultStartEndPos
  refine ⟨by simp, by simp, by simp, by simp, by simp, by simp, by simp, by simp, by simp, ?_⟩
  simp [grid_isWalkableAt_setWalkableAt_ne]

/-! ## Buttons and the resting states -/

theorem pred_ite {P : Controller → Prop} {p : Prop} [Decidable p] {a b : Controller}
    (ha : p → P a) (hb : ¬p → P b) : P (if p then a else b) := by
  split
  · exact ha ‹_›
  · exact hb ‹_›

theorem sameBoard_refl (c : Controller) : SameBoard c c := ⟨rfl, rfl, rfl, rfl, rfl, rfl⟩

theorem sameBoard_trans {a b c : Controller} (h1 : SameBoard a b) (h2 : SameBoard b c) :
    SameBoard a c :=
  ⟨h1.1.trans h2.1, h1.2.1.trans h2.2.1, h1.2.2.1.trans h2.2.2.1,
   h1.2.2.2.1.trans h2.2.2.2.1, h1.2.2.2.2.1.trans h2.2.2.2.2.1,
   h1.2.2.2.2.2.trans h2.2.2.2.2.2⟩

theorem setButtonStates_sameBoard (opts : List ButtonOpt) (c : Controller) :
    SameBoard (c.setButtonStates opts) c := by
  rw [setButtonStates_eq]
  exact ⟨rfl, rfl, rfl, rfl, rfl, rfl⟩

@[simp] theorem setButtonStates_gridSize (opts : List ButtonOpt) (c : Controller) :
    (c.setButtonStates opts).gridSize = c.gridSize := by
  rw [setButtonStates_eq]

@[simp] theorem setButtonStates_startX (opts : List ButtonOpt) (c : Controller) :
    (c.setButtonStates opts).startX = c.startX := by
  rw [setButtonStates_eq]

@[simp] theorem setButtonStates_startY (opts : List ButtonOpt) (c : Controller) :
    (c.setButtonStates opts).startY = c.startY := by
  rw [setButtonStates_eq]

@[simp] theorem setButtonStates_endX (opts : List ButtonOpt) (c : Controller) :
    (c.setButtonStates opts).endX = c.endX := by
  rw [setButtonStates_eq]

@[simp] theorem setButtonStates_endY (opts : List ButtonOpt) (c : Controller) :
    (c.setButtonStates opts).endY = c.endY := by
  rw [setButtonStates_eq]

theorem onready_buttons (c : Controller) (b1 b2 b3 : Button) (h : c.buttons = [b1, b2, b3]) :
    c.onready.buttons =
      [ { text := "Start Search", enabled := true, callback := some "start" },
        { b2 with text := "Pause Search", enabled := false },
        { text := "Clear Walls", enabled := true, callback := some "reset" } ] := by
  simp [onready, setButtonStates, setButtonState, h, List.modify, List.modifyHead]

theorem onsearching_buttons (c : Controller) (b1 b2 b3 : Button)
    (h : c.buttons = [b1, b2, b3]) :
    c.onsearching.buttons =
      [ { text := "Restart Search", enabled := true, callback := some "restart" },
        { text := "Pause Search", enabled := true, callback := some "pause" },
        b3 ] := by
  simp [onsearching, setButtonStates, setButtonState, h, List.modify, List.modifyHead]

theorem onpaused_buttons (c : Controller) (b1 b2 b3 : Button) (h : c.buttons = [b1, b2, b3]) :
    c.onpaused.buttons =
      [ { text := "Resume Search", enabled := true, callback := some "resume" },
        { text := "Cancel Search", enabled := true, callback := some "cancel" },
        b3 ] := by
  simp [onpaused, setButtonStates, setButtonState, h, List.modify, List.modifyHead]

theorem onfinished_buttons (c : Controller) (b1 b2 b3 : Button)
    (h : c.buttons = [b1, b2, b3]) :
    c.onfinished.buttons =
      [ { text := "Restart Search", enabled := true, callback := some "restart" },
        { text := "Clear Path", enabled := true, callback := some "clear" },
        b3 ] := by
  simp [onfinished, setButtonStates, setButtonState, h, List.modify, List.modifyHead]

theorem onmodified_buttons (c : Controller) (b1 b2 b3 : Button)
    (h : c.buttons = [b1, b2, b3]) :
    c.onmodified.buttons =
      [ { text := "Start Search", enabled := true, callback := some "start" },
        { text := "Clear Path", enabled := true, callback := some "clear" },
        b3 ] := by
  simp [onmodified, setButtonStates, setButtonState, h, List.modify, List.modifyHead]

theorem buttonsFit_ready (s : String) (b1 b2 b3 : Button) (h : ButtonsFit s b1 b2 b3) :
    ButtonsFit "ready"
      { text := "Start Search", enabled := true, callback := some "start" }
      { b2 with text := "Pause Search", enabled := false }
      { text := "Clear Walls", enabled := true, callback := some "reset" } := by
  obtain ⟨-, h2, -⟩ := h
  refine ⟨?_, h2, rfl, ?_, ?_, ?_, ?_, ?_⟩ <;> simp [buttonEvents]

theorem buttonsFit_searching (s : String) (b1 b2 b3 : Button) (h : ButtonsFit s b1 b2 b3) :
    ButtonsFit "searching"
      { text := "Restart Search", enabled := true, callback := some "restart" }
      { text := "Pause Search", enabled := true, callback := some "pause" } b3 := by
  obtain ⟨-, -, h3, -⟩ := h
  refine ⟨?_, ?_, h3, ?_, ?_, ?_, ?_, ?_⟩ <;> simp [buttonEvents]

theorem buttonsFit_paused (s : String) (b1 b2 b3 : Button) (h : ButtonsFit s b1 b2 b3) :
    ButtonsFit "paused"
      { text := "Resume Search", enabled := true, callback := some "resume" }
      { text := "Cancel Search", enabled := true, callback := some "cancel" } b3 := by
  obtain ⟨-, -, h3, -⟩ := h
  refine ⟨?_, ?_, h3, ?_, ?_, ?_, ?_, ?_⟩ <;> simp [buttonEvents]

theorem buttonsFit_finished (s : String) (b1 b2 b3 : Button) (h : ButtonsFit s b1 b2 b3) :
    ButtonsFit "finished"
      { text := "Restart Search", enabled := true, callback := some "restart" }
      { text := "Clear Path", enabled := true, callback := some "clear" } b3 := by
  obtain ⟨-, -, h3, -⟩ := h
  refine ⟨?_, ?_, h3, ?_, ?_, ?_, ?_, ?_⟩ <;> simp [buttonEvents]

theorem buttonsFit_modified (s : String) (b1 b2 b3 : Button) (h : ButtonsFit s b1 b2 b3) :
    ButtonsFit "modified"
      { text := "Start Search", enabled := true, callback := some "start" }
      { text := "Clear Path", enabled := true, callback := some "clear" } b3 := by
  obtain ⟨-, -, h3, -⟩ := h
  refine ⟨?_, ?_, h3, ?_, ?_, ?_, ?_, ?_⟩ <;> simp [buttonEvents]

theorem buttonsFit_other (s t : String) (b1 b2 b3 : Button) (h : ButtonsFit s b1 b2 b3)
    (ht : t ∉ ["ready", "searching", "paused", "finished", "modified"]) :
    ButtonsFit t b1 b2 b3 := by
  obtain ⟨h1, h2, h3, -⟩ := h
  simp only [List.mem_cons, List.mem_singleton, List.not_mem_nil, or_false, not_or] at ht
  refine ⟨h1, h2, h3, ?_, ?_, ?_, ?_, ?_⟩ <;> intro e <;> simp_all

/-- A controller that rests in the state `s` with fitting buttons and the
board of an active controller is active. -/
theorem active_intro (c k : Controller) (hA : Active c) (s : String) (b1 b2 b3 : Button)
    (h1 : k.transition = none) (h2 : k.current = s) (hs : s ∈ restingStates)
    (hs2 : s ≠ "draggingEnd") (h3 : Timer.gridGenerated ∉ k.timers)
    (h4 : k.buttons = [b1, b2, b3]) (h5 : ButtonsFit s b1 b2 b3) (h6 : SameBoard k c) :
    Active k := by
  obtain ⟨-, -, -, -, -, ⟨a5, a6⟩, ⟨x, y, a7, a8, a9⟩, a10, a11⟩ := hA
  obtain ⟨g1, g2, g3, g4, g5, g6⟩ := h6
  refine ⟨h1, by rw [h2]; exact hs, by rw [h2]; exact hs2, h3, ⟨b1, b2, b3, h4, by rw [h2]; exact h5⟩,
    ⟨by rw [g1, g2]; exact a5, by rw [g1, g2]; exact a6⟩,
    ⟨x, y, by rw [g3]; exact a7, by rw [g4]; exact a8, by rw [g1]; exact a9⟩,
    by rw [g5]; exact a10, by rw [g6]; exact a11⟩

/-- A controller that agrees with an active one on state, buttons and board
is active. -/
theorem active_frame (c k : Controller) (hA : Active c) (h1 : k.transition = c.transition)
    (h2 : k.current = c.current) (h3 : Timer.gridGenerated ∉ k.timers)
    (h4 : k.buttons = c.buttons) (h6 : SameBoard k c) : Active k := by
  obtain ⟨a1, a2, a3, -, ⟨b1, b2, b3, hb, hfit⟩, -⟩ := id hA
  exact active_intro c k hA c.current b1 b2 b3 (h1.trans a1) h2 a2 a3 h3 (h4.trans hb) hfit h6

theorem active_ne_none (c : Controller) (hA : Active c) : c.current ≠ "none" := by
  intro h
  have := hA.2.1
  rw [h] at this
  exact absurd this (by decide)

theorem active_ne_starting (c : Controller) (hA : Active c) : c.current ≠ "starting" := by
  intro h
  have := hA.2.1
  rw [h] at this
  exact absurd this (by decide)

theorem buildEvent_active (name : String) (enter after : Controller → Controller)
    (c : Controller) (hA : Active c)
    (hsame : ∀ dst, StateMachine.destination name c.current = some dst → c.current = dst →
      Active (after c))
    (hmove : ∀ dst, StateMachine.destination name c.current = some dst → c.current ≠ dst →
      Active (after (enter { c with current := dst }))) :
    Active (c.buildEvent name enter after) := by
  unfold buildEvent
  simp only [hA.1, Option.isSome_none, Bool.false_eq_true, ↓reduceIte]
  split
  · exact hA
  · rename_i dst hd
    split
    · rename_i h
      have := hsame dst hd h
      simpa [hA.1] using this
    · rename_i h
      rw [if_neg (active_ne_none c hA)]
      have := hmove dst hd h
      simpa [hA.1] using this

/-! ## Events keep a session active -/

theorem not_mem_timers_append (ts : List Timer) (t : Timer) (h : Timer.gridGenerated ∉ ts)
    (ht : t ≠ Timer.gridGenerated) : Timer.gridGenerated ∉ ts ++ [t] := by
  simp only [List.mem_append, List.mem_singleton, not_or]
  exact ⟨h, fun e => ht e.symm⟩

theorem pause_active (c : Controller) (hA : Active c) : Active c.pause := by
  obtain ⟨b1, b2, b3, hb, hfit⟩ := hA.2.2.2.2.1
  refine buildEvent_active "pause" onpaused onpause c hA (fun dst hd h => ?_) (fun dst hd _ => ?_)
  · simp [StateMachine.destination, events, WILDCARD] at hd
    exact hA
  · simp [StateMachine.destination, events, WILDCARD] at hd
    obtain ⟨-, rfl⟩ := hd
    exact active_intro c _ hA "paused" _ _ _ (by simp [onpause, onpaused, hA.1])
      (by simp [onpause, onpaused]) (by decide) (by decide)
      (by simpa [onpause, onpaused] using hA.2.2.2.1)
      (onpaused_buttons _ b1 b2 b3 hb) (buttonsFit_paused _ b1 b2 b3 hfit)
      (setButtonStates_sameBoard _ _)

theorem onfinish_onfinished_active (c k : Controller) (hA : Active c)
    (h1 : k.transition = none) (h3 : Timer.gridGenerated ∉ k.timers)
    (h4 : k.buttons = c.buttons) (h6 : SameBoard k c) :
    Active (onfinish (onfinished { k with current := "finished" })) := by
  obtain ⟨b1, b2, b3, hb, hfit⟩ := hA.2.2.2.2.1
  exact active_intro c _ hA "finished" _ _ _ (by simp [onfinish, onfinished, emit, h1])
    (by simp [onfinish, onfinished, emit]) (by decide) (by decide)
    (by simpa [onfinish, onfinished, emit] using h3)
    (onfinished_buttons _ b1 b2 b3 (h4.trans hb)) (buttonsFit_finished _ b1 b2 b3 hfit)
    (sameBoard_trans (setButtonStates_sameBoard _ _) h6)

theorem finish_active (c : Controller) (hA : Active c) : Active c.finish := by
  refine buildEvent_active "finish" onfinished onfinish c hA (fun dst hd h => ?_)
    (fun dst hd _ => ?_)
  · simp [StateMachine.destination, events, WILDCARD] at hd
    exact absurd (hd.1.symm.trans (h.trans hd.2.symm)) (by decide)
  · simp [StateMachine.destination, events, WILDCARD] at hd
    obtain ⟨-, rfl⟩ := hd
    exact onfinish_onfinished_active c c hA hA.1 hA.2.2.2.1 rfl (sameBoard_refl c)

theorem loopTick_active (env : Env) (c : Controller) (hA : Active c) :
    Active (c.loopTick env) := by
  by_cases hs : c.current = "searching"
  · rw [loopTick_searching env c hs]
    cases hq : supported env c.operations with
    | nil =>
      have hq2 : ∀ o ∈ c.operations, env.supportedOperations.contains o.attr = false := by
        intro o ho
        have := (List.filter_eq_nil_iff.mp hq) o ho
        simpa using this
      rw [step_unsupported env c hq2, finish_of_searching { c with operations := [] } hs hA.1]
      have := onfinish_onfinished_active c { c with operations := [] } hA hA.1 hA.2.2.2.1 rfl
        (sameBoard_refl c)
      exact active_frame _ _ this rfl rfl
        (not_mem_timers_append _ _ this.2.2.2.1 (by decide)) rfl (sameBoard_refl _)
    | cons op s =>
      obtain ⟨u, rest, hq3, hu, hop, -⟩ := List.filter_eq_cons_iff.mp hq
      have hu2 : ∀ o ∈ u, env.supportedOperations.contains o.attr = false := by
        intro o ho
        simpa using hu o ho
      rw [step, hq3, stepFrom_supported env u op rest c hu2 hop]
      exact active_frame c _ hA rfl rfl (not_mem_timers_append _ _ hA.2.2.2.1 (by decide)) rfl
        (sameBoard_refl c)
  · have : c.loopTick env = c := by simp [loopTick, is, hs]
    rw [this]
    exact hA

theorem resume_active (env : Env) (c : Controller) (hA : Active c) : Active (c.resume env) := by
  obtain ⟨b1, b2, b3, hb, hfit⟩ := hA.2.2.2.2.1
  refine buildEvent_active "resume" onsearching (onresume env) c hA (fun dst hd h => ?_)
    (fun dst hd _ => ?_)
  · simp [StateMachine.destination, events, WILDCARD] at hd
    exact absurd (hd.1.symm.trans (h.trans hd.2.symm)) (by decide)
  · simp [StateMachine.destination, events, WILDCARD] at hd
    obtain ⟨-, rfl⟩ := hd
    apply loopTick_active
    exact active_intro c _ hA "searching" _ _ _ (by simp [onsearching, hA.1])
      (by simp [onsearching]) (by decide) (by decide)
      (by simpa [onsearching] using hA.2.2.2.1)
      (onsearching_buttons _ b1 b2 b3 hb) (buttonsFit_searching _ b1 b2 b3 hfit)
      (setButtonStates_sameBoard _ _)

theorem onready_active (c k : Controller) (hA : Active c) (h1 : k.transition = none)
    (h3 : Timer.gridGenerated ∉ k.timers) (h4 : k.buttons = c.buttons) (h6 : SameBoard k c) :
    Active (onready { k with current := "ready" }) := by
  obtain ⟨b1, b2, b3, hb, hfit⟩ := hA.2.2.2.2.1
  exact active_intro c _ hA "ready" _ _ _ (by simp [onready, h1])
    (by simp [onready]) (by decide) (by decide)
    (by simpa [onready] using h3)
    (onready_buttons _ b1 b2 b3 (h4.trans hb)) (buttonsFit_ready _ b1 b2 b3 hfit)
    (sameBoard_trans (setButtonStates_sameBoard _ _) h6)

theorem cancel_active (c : Controller) (hA : Active c) : Active c.cancel := by
  refine buildEvent_active "cancel" onready oncancel c hA (fun dst hd h => ?_)
    (fun dst hd _ => ?_)
  · simp [StateMachine.destination, events, WILDCARD] at hd
    exact absurd (hd.1.symm.trans (h.trans hd.2.symm)) (by decide)
  · simp [StateMachine.destination, events, WILDCARD] at hd
    obtain ⟨-, rfl⟩ := hd
    have := onready_active c c hA hA.1 hA.2.2.2.1 rfl (sameBoard_refl c)
    exact active_frame _ _ this rfl rfl this.2.2.2.1 rfl (sameBoard_refl _)

theorem clear_active (c : Controller) (hA : Active c) : Active c.clear := by
  refine buildEvent_active "clear" onready onclear c hA (fun dst hd h => ?_)
    (fun dst hd _ => ?_)
  · simp [StateMachine.destination, events, WILDCARD] at hd
    obtain ⟨h1, h2⟩ := hd
    rw [← h2] at h
    rcases h1 with h1 | h1 <;> exact absurd (h1.symm.trans h) (by decide)
  · simp [StateMachine.destination, events, WILDCARD] at hd
    obtain ⟨-, rfl⟩ := hd
    have := onready_active c c hA hA.1 hA.2.2.2.1 rfl (sameBoard_refl c)
    exact active_frame _ _ this rfl rfl this.2.2.2.1 rfl (sameBoard_refl _)

theorem reset_active (c : Controller) (hA : Active c) : Active c.reset := by
  refine buildEvent_active "reset" onready onreset c hA (fun dst hd h => ?_)
    (fun dst hd _ => ?_)
  · exact active_frame c _ hA rfl rfl (not_mem_timers_append _ _ hA.2.2.2.1 (by decide)) rfl
      (sameBoard_refl c)
  · simp [StateMachine.destination, events, WILDCARD] at hd
    subst hd
    have := onready_active c c hA hA.1 hA.2.2.2.1 rfl (sameBoard_refl c)
    exact active_frame _ _ this rfl rfl (not_mem_timers_append _ _ this.2.2.2.1 (by decide)) rfl
      (sameBoard_refl _)

theorem rest_active (c : Controller) (hA : Active c) : Active c.rest := by
  refine buildEvent_active "rest" onready id c hA (fun dst hd h => ?_) (fun dst hd _ => ?_)
  · exact hA
  · simp [StateMachine.destination, events, WILDCARD] at hd
    obtain ⟨-, rfl⟩ := hd
    exact onready_active c c hA hA.1 hA.2.2.2.1 rfl (sameBoard_refl c)

theorem modify_active (c : Controller) (hA : Active c) : Active c.modify := by
  obtain ⟨b1, b2, b3, hb, hfit⟩ := hA.2.2.2.2.1
  refine buildEvent_active "modify" onmodified onmodify c hA (fun dst hd h => ?_)
    (fun dst hd _ => ?_)
  · exact hA
  · simp [StateMachine.destination, events, WILDCARD] at hd
    obtain ⟨-, rfl⟩ := hd
    exact active_intro c _ hA "modified" _ _ _ (by simp [onmodify, onmodified, hA.1])
      (by simp [onmodify, onmodified]) (by decide) (by decide)
      (by simpa [onmodify, onmodified] using hA.2.2.2.1)
      (onmodified_buttons _ b1 b2 b3 hb) (buttonsFit_modified _ b1 b2 b3 hfit)
      (setButtonStates_sameBoard _ _)

theorem init_active (c : Controller) (hA : Active c) : Active c.init := by
  refine buildEvent_active "init" onready id c hA (fun dst hd h => ?_) (fun dst hd _ => ?_)
  · exact hA
  · simp [StateMachine.destination, events, WILDCARD] at hd
    exact absurd hd.1 (active_ne_none c hA)

theorem search_active (env : Env) (c : Controller) (hA : Active c) : Active (c.search env) := by
  refine buildEvent_active "search" onsearching (onsearch env) c hA (fun dst hd h => ?_)
    (fun dst hd _ => ?_)
  · simp [StateMachine.destination, events, WILDCARD] at hd
    exact absurd hd.1 (active_ne_starting c hA)
  · simp [StateMachine.destination, events, WILDCARD] at hd
    exact absurd hd.1 (active_ne_starting c hA)

theorem restart_active (c : Controller) (hA : Active c) : Active c.restart := by
  obtain ⟨b1, b2, b3, hb, hfit⟩ := hA.2.2.2.2.1
  refine buildEvent_active "restart" id onrestart c hA (fun dst hd h => ?_)
    (fun dst hd _ => ?_)
  · simp [StateMachine.destination, events, WILDCARD] at hd
    obtain ⟨h1, h2⟩ := hd
    rw [← h2] at h
    rcases h1 with h1 | h1 <;> exact absurd (h1.symm.trans h) (by decide)
  · simp [StateMachine.destination, events, WILDCARD] at hd
    obtain ⟨-, rfl⟩ := hd
    exact active_intro c _ hA "restarting" b1 b2 b3 hA.1 rfl (by decide) (by decide)
      (not_mem_timers_append _ _ hA.2.2.2.1 (by decide)) hb
      (buttonsFit_other _ _ b1 b2 b3 hfit (by decide)) (sameBoard_refl c)

theorem dragStart_active (c : Controller) (hA : Active c) : Active c.dragStart := by
  obtain ⟨b1, b2, b3, hb, hfit⟩ := hA.2.2.2.2.1
  refine buildEvent_active "dragStart" id id c hA (fun dst hd h => ?_) (fun dst hd _ => ?_)
  · exact hA
  · simp [StateMachine.destination, events, WILDCARD] at hd
    obtain ⟨-, rfl⟩ := hd
    exact active_intro c _ hA "draggingStart" b1 b2 b3 hA.1 rfl (by decide) (by decide)
      hA.2.2.2.1 hb (buttonsFit_other _ _ b1 b2 b3 hfit (by decide)) (sameBoard_refl c)

/-! ## Pointer handlers, clicks and timers keep a session active -/

theorem searchReturned_frame (env : Env) (c : Controller) (b1 b2 b3 : Button)
    (hb : c.buttons = [b1, b2, b3]) :
    (searchReturned env c).buttons =
      [ { text := "Restart Search", enabled := true, callback := some "restart" },
        { text := "Pause Search", enabled := true, callback := some "pause" },
        b3 ] ∧
    (searchReturned env c).timers = c.timers ∧ SameBoard (searchReturned env c) c := by
  refine ⟨?_, ?_, ?_⟩
  · simp [searchReturned, onsearching, clearFootprints, emit, setButtonStates, setButtonState,
      hb, List.modify, List.modifyHead]
  · simp only [searchReturned, onsearching]
    rw [setButtonStates_eq]
    simp only
    rw [setButtonStates_eq]
    simp [clearFootprints, emit]
  · simp only [searchReturned, onsearching]
    rw [setButtonStates_eq]
    simp only
    rw [setButtonStates_eq]
    exact ⟨rfl, rfl, rfl, rfl, rfl, rfl⟩

theorem start_active (env : Env) (c : Controller) (hA : Active c) : Active (c.start env) := by
  obtain ⟨b1, b2, b3, hb, hfit⟩ := hA.2.2.2.2.1
  refine buildEvent_active "start" (onstarting env) id c hA (fun dst hd h => ?_)
    (fun dst hd _ => ?_)
  · exact hA
  · simp [StateMachine.destination, events, WILDCARD] at hd
    obtain ⟨hs, rfl⟩ := hd
    obtain ⟨-, e2⟩ := start_eq env c hs hA.1
    obtain ⟨s1, s2, -⟩ := searchReturned_spec env c hA.1
    obtain ⟨f1, f2, f3⟩ := searchReturned_frame env c b1 b2 b3 hb
    show Active (onstarting env { c with current := "starting" })
    rw [e2]
    apply loopTick_active
    exact active_intro c _ hA "searching" _ _ _ s2 s1 (by decide) (by decide)
      (by rw [f2]; exact hA.2.2.2.1) f1 (buttonsFit_searching _ b1 b2 b3 hfit) f3

theorem startWalkable_setWalkableAt (c k : Controller) (gridX gridY : Int) (w : Bool)
    (hs : StartWalkable c) (hk : k.grid = c.grid.setWalkableAt gridX gridY w)
    (hx : k.startX = c.startX) (hy : k.startY = c.startY)
    (h : w = true ∨ c.isStartPos gridX gridY = false) : StartWalkable k := by
  obtain ⟨x, y, h1, h2, h3⟩ := hs
  refine ⟨x, y, hx.trans h1, hy.trans h2, ?_⟩
  rw [hk]
  rcases h with rfl | h
  · exact grid_isWalkableAt_setWalkableAt_true _ _ _ _ _ h3
  · rw [grid_isWalkableAt_setWalkableAt_ne _ _ _ _ _ _ ?_]
    · exact h3
    · intro hxy
      simp [isStartPos, samePos, h1, h2, hxy.1, hxy.2] at h

/-- An active controller whose cell `(gridX, gridY)` is written stays active
in the state `s` when the start position stays walkable. -/
theorem active_setWalkableAt (c : Controller) (hA : Active c) (s : String)
    (gridX gridY : Int) (w : Bool) (hs : s ∈ restingStates) (hs2 : s ≠ "draggingEnd")
    (hs3 : s ∉ ["ready", "searching", "paused", "finished", "modified"] ∨ s = c.current)
    (h : w = true ∨ c.isStartPos gridX gridY = false) :
    Active (({ c with current := s } : Controller).setWalkableAt gridX gridY w) := by
  obtain ⟨a1, -, -, a4, ⟨b1, b2, b3, hb, hfit⟩, ⟨a5, a6⟩, a7, a8, a9⟩ := hA
  refine ⟨a1, hs, hs2, a4, ⟨b1, b2, b3, hb, ?_⟩, ⟨?_, ?_⟩, ?_, a8, a9⟩
  · rcases hs3 with h3 | h3
    · exact buttonsFit_other _ _ b1 b2 b3 hfit h3
    · show ButtonsFit s b1 b2 b3
      rw [h3]
      exact hfit
  · show (c.grid.setWalkableAt gridX gridY w).width = _
    rw [grid_setWalkableAt_width]
    exact a5
  · show (c.grid.setWalkableAt gridX gridY w).height = _
    rw [grid_setWalkableAt_height]
    exact a6
  · exact startWalkable_setWalkableAt c _ gridX gridY w a7 rfl rfl rfl h

theorem eraseWall_active (c : Controller) (gridX gridY : Int) (hA : Active c) :
    Active (c.eraseWall gridX gridY) := by
  refine buildEvent_active "eraseWall" id (oneraseWall gridX gridY) c hA (fun dst hd h => ?_)
    (fun dst hd _ => ?_)
  · simp [StateMachine.destination, events, WILDCARD] at hd
    obtain ⟨h1, h2⟩ := hd
    rw [← h2] at h
    rcases h1 with h1 | h1 <;> exact absurd (h1.symm.trans h) (by decide)
  · simp [StateMachine.destination, events, WILDCARD] at hd
    obtain ⟨-, rfl⟩ := hd
    exact active_setWalkableAt c hA "erasingWall" gridX gridY true (by decide) (by decide)
      (Or.inl (by decide)) (Or.inl rfl)

theorem fire_active (env : Env) (name : String) (gridX gridY : Int) (c : Controller)
    (hA : Active c) (h1 : name ≠ "drawWall") (h2 : name ≠ "dragEnd") :
    Active (c.fire env name gridX gridY) := by
  unfold fire
  exact
    pred_ite (fun _ => init_active c hA) fun _ =>
    pred_ite (fun _ => search_active env c hA) fun _ =>
    pred_ite (fun _ => pause_active c hA) fun _ =>
    pred_ite (fun _ => finish_active c hA) fun _ =>
    pred_ite (fun _ => resume_active env c hA) fun _ =>
    pred_ite (fun _ => cancel_active c hA) fun _ =>
    pred_ite (fun _ => modify_active c hA) fun _ =>
    pred_ite (fun _ => reset_active c hA) fun _ =>
    pred_ite (fun _ => clear_active c hA) fun _ =>
    pred_ite (fun _ => start_active env c hA) fun _ =>
    pred_ite (fun _ => restart_active c hA) fun _ =>
    pred_ite (fun _ => dragStart_active c hA) fun _ =>
    pred_ite (fun h => absurd h h2) fun _ =>
    pred_ite (fun h => absurd h h1) fun _ =>
    pred_ite (fun _ => eraseWall_active c gridX gridY hA) fun _ =>
    pred_ite (fun _ => rest_active c hA) fun _ =>
    hA

theorem isEndPos_of_unset (c : Controller) (x y : Int) (h : c.endX = none) :
    c.isEndPos x y = false := by
  simp [isEndPos, samePos, h]

theorem mousedown_active (env : Env) (pageX pageY : Int) (c : Controller) (hA : Active c) :
    Active (c.mousedown env pageX pageY) := by
  rcases mousedown_cases env c pageX pageY _ _ rfl with
    ⟨-, -, h⟩ | ⟨-, h2, -⟩ | ⟨h1, -, h3, h⟩ | ⟨h1, -, h⟩ | ⟨-, h⟩
  · rw [h]
    exact dragStart_active c hA
  · rw [isEndPos_of_unset c _ _ hA.2.2.2.2.2.2.2.1] at h2
    exact absurd h2 (by simp)
  · rw [h, drawWall_of_can c _ _ h1]
    exact active_setWalkableAt c hA "drawingWall" _ _ false (by decide) (by decide)
      (Or.inl (by decide)) (Or.inr h3)
  · rw [h, eraseWall_of_can c _ _ h1]
    exact active_setWalkableAt c hA "erasingWall" _ _ true (by decide) (by decide)
      (Or.inl (by decide)) (Or.inl rfl)
  · rw [h]
    exact hA

theorem isStartPos_of_not_startOrEnd (c : Controller) (x y : Int)
    (h : c.isStartOrEndPos x y = false) : c.isStartPos x y = false := by
  simp only [isStartOrEndPos, Bool.or_eq_false_iff] at h
  exact h.1.1.1.1.1.1.1.1.1.1.1

theorem mousemove_active (env : Env) (pageX pageY : Int) (c : Controller) (hA : Active c) :
    Active (c.mousemove env pageX pageY) := by
  rcases mousemove_cases env c pageX pageY _ _ rfl with
    h | ⟨-, -, hw, h⟩ | ⟨h1, -⟩ | ⟨h1, hp, h⟩ | ⟨h1, hp, h⟩
  · rw [h]
    exact hA
  · rw [h]
    obtain ⟨a1, a2, a3, a4, a5, a6, -, a8, a9⟩ := hA
    exact ⟨a1, a2, a3, a4, a5, a6, ⟨_, _, rfl, rfl, hw⟩, a8, a9⟩
  · exact absurd h1 hA.2.2.1
  · rw [h]
    exact active_setWalkableAt c hA c.current (env.toGridCoordinate pageX pageY).1
      (env.toGridCoordinate pageX pageY).2 false hA.2.1 hA.2.2.1 (Or.inr rfl)
      (Or.inr (isStartPos_of_not_startOrEnd c _ _ hp))
  · rw [h]
    exact active_setWalkableAt c hA c.current (env.toGridCoordinate pageX pageY).1
      (env.toGridCoordinate pageX pageY).2 true hA.2.1 hA.2.2.1 (Or.inr rfl) (Or.inl rfl)

theorem mouseup_active (c : Controller) (hA : Active c) : Active c.mouseup := by
  unfold mouseup
  exact pred_ite (fun _ => rest_active c hA) (fun _ => hA)

theorem click_active (env : Env) (i : Nat) (c : Controller) (hA : Active c) :
    Active (c.click env i) := by
  obtain ⟨b1, b2, b3, hb, hfit⟩ := hA.2.2.2.2.1
  unfold click
  split
  · exact hA
  · rename_i b hget
    have hmem : b ∈ c.buttons := List.get?_mem hget
    split
    · split
      · rename_i name hname
        have hev : name ∈ buttonEvents := by
          rw [hb] at hmem
          simp only [List.mem_cons, List.mem_singleton, List.not_mem_nil, or_false] at hmem
          rcases hmem with rfl | rfl | rfl
          · exact hfit.1 name hname
          · exact hfit.2.1 name hname
          · have := hfit.2.2.1
            rw [hname] at this
            simp only [Option.some.injEq] at this
            rw [this]
            decide
        refine fire_active env name 0 0 c hA ?_ ?_
        · intro e
          rw [e] at hev
          exact absurd hev (by decide)
        · intro e
          rw [e] at hev
          exact absurd hev (by decide)
      · exact hA
    · exact hA

theorem fireTimer_active (env : Env) (i : Nat) (c : Controller) (hA : Active c) :
    Active (c.fireTimer env i) := by
  unfold fireTimer
  split
  · exact hA
  · rename_i t ht
    have hmem : t ∈ c.timers := List.get?_mem ht
    have hrest : Timer.gridGenerated ∉ c.timers.eraseIdx i :=
      fun h => hA.2.2.2.1 (List.mem_of_mem_eraseIdx h)
    have hA1 : Active { c with timers := c.timers.eraseIdx i } :=
      active_frame c _ hA rfl rfl hrest rfl (sameBoard_refl c)
    cases t with
    | gridGenerated => exact absurd hmem hA.2.2.2.1
    | restart =>
      apply start_active
      exact active_frame _ _ hA1 rfl rfl hrest rfl (sameBoard_refl _)
    | reset =>
      obtain ⟨a1, a2, a3, -, a5, ⟨a6, a7⟩, ⟨x, y, s1, s2, s3⟩, a8, a9⟩ := hA
      refine ⟨a1, a2, a3, hrest, a5, ⟨rfl, rfl⟩, ⟨x, y, s1, s2, ?_⟩, a8, a9⟩
      show (Grid.new c.gridSize.1 c.gridSize.2).isWalkableAt x y = true
      simp only [Grid.isWalkableAt, Bool.and_eq_true] at s3
      have hin := s3.1
      simp only [Grid.isInside, a6, a7] at hin
      simp only [Grid.isWalkableAt, Grid.isInside, Grid.new, hin, Bool.and_self]
    | tick => exact loopTick_active env _ hA1

/-! ## Sessions from `none` -/

theorem destination_from_none (name dst : String)
    (h : StateMachine.destination name "none" = some dst) :
    dst = "ready" ∧ (name = "init" ∨ name = "reset") := by
  unfold StateMachine.destination at h
  split at h
  · exact absurd h (by simp)
  · rename_i ev hev
    have hmem := List.mem_of_find?_eq_some hev
    have hp := List.find?_some hev
    split at h
    · simp only [Option.some.injEq] at h
      simp only [events, List.mem_cons, List.mem_singleton, List.not_mem_nil, or_false] at hmem
      rcases hmem with e | e | e | e | e | e | e | e | e | e | e | e | e | e | e | e <;>
        subst e <;> simp_all [WILDCARD]
    · exact absurd h (by simp)

theorem buildEvent_initial (name : String) (enter after : Controller → Controller)
    (c : Controller) (hI : Initial c) : Initial (c.buildEvent name enter after) := by
  obtain ⟨i1, i2, i3, i4, i5, i6⟩ := id hI
  cases ht : c.transition with
  | some t =>
    have : c.buildEvent name enter after = c := by simp [buildEvent, ht]
    rw [this]
    exact hI
  | none =>
    cases hd : StateMachine.destination name c.current with
    | none =>
      rw [buildEvent_rejected name enter after c hd]
      exact hI
    | some dst =>
      have hd2 := hd
      rw [i1] at hd2
      obtain ⟨rfl, hname⟩ := destination_from_none name dst hd2
      have : c.buildEvent name enter after =
          { c.onleavenone with transition := some { name := name, dst := "ready" } } := by
        simp [buildEvent, ht, hd2, i1]
      rw [this]
      have htim : c.timers = [] := by
        rcases i6 with h | h
        · exact h.2
        · rcases h.1 with h | h <;> rw [h] at ht <;> exact absurd ht (by simp)
      refine ⟨i1, i2, i3, i4, i5, Or.inr ⟨?_, ?_, ?_⟩⟩
      · rcases hname with rfl | rfl
        · exact Or.inl rfl
        · exact Or.inr rfl
      · show (c.timers ++ [Timer.gridGenerated]) = _
        rw [htim]
        rfl
      · show Grid.new c.gridSize.1 c.gridSize.2 = _
        rw [i2]

theorem fire_initial (env : Env) (name : String) (gridX gridY : Int) (c : Controller)
    (hI : Initial c) : Initial (c.fire env name gridX gridY) := by
  unfold fire
  exact
    pred_ite (fun _ => buildEvent_initial "init" onready id c hI) fun _ =>
    pred_ite (fun _ => buildEvent_initial "search" onsearching (onsearch env) c hI) fun _ =>
    pred_ite (fun _ => buildEvent_initial "pause" onpaused onpause c hI) fun _ =>
    pred_ite (fun _ => buildEvent_initial "finish" onfinished onfinish c hI) fun _ =>
    pred_ite (fun _ => buildEvent_initial "resume" onsearching (onresume env) c hI) fun _ =>
    pred_ite (fun _ => buildEvent_initial "cancel" onready oncancel c hI) fun _ =>
    pred_ite (fun _ => buildEvent_initial "modify" onmodified onmodify c hI) fun _ =>
    pred_ite (fun _ => buildEvent_initial "reset" onready onreset c hI) fun _ =>
    pred_ite (fun _ => buildEvent_initial "clear" onready onclear c hI) fun _ =>
    pred_ite (fun _ => buildEvent_initial "start" (onstarting env) id c hI) fun _ =>
    pred_ite (fun _ => buildEvent_initial "restart" id onrestart c hI) fun _ =>
    pred_ite (fun _ => buildEvent_initial "dragStart" id id c hI) fun _ =>
    pred_ite (fun _ => buildEvent_initial "dragEnd" id id c hI) fun _ =>
    pred_ite (fun _ => buildEvent_initial "drawWall" id (ondrawWall gridX gridY) c hI) fun _ =>
    pred_ite (fun _ => buildEvent_initial "eraseWall" id (oneraseWall gridX gridY) c hI)
      fun _ =>
    pred_ite (fun _ => buildEvent_initial "rest" onready id c hI) fun _ =>
    hI

theorem mousedown_initial (env : Env) (pageX pageY : Int) (c : Controller) (hI : Initial c) :
    c.mousedown env pageX pageY = c :=
  mousedown_of_not_editable env c pageX pageY
    (fun h => by
      rcases h.2 with h | h <;> rw [hI.1] at h <;> exact absurd h (by decide))

theorem mousemove_initial (env : Env) (pageX pageY : Int) (c : Controller) (hI : Initial c) :
    c.mousemove env pageX pageY = c := by
  rcases mousemove_cases env c pageX pageY _ _ rfl with
    h | ⟨h1, -⟩ | ⟨h1, -⟩ | ⟨h1, -⟩ | ⟨h1, -⟩
  · exact h
  all_goals
    rw [hI.1] at h1
    exact absurd h1 (by decide)

theorem mouseup_initial (c : Controller) (hI : Initial c) : c.mouseup = c := by
  have hd : StateMachine.destination "rest" c.current = none := by
    rw [hI.1]
    decide
  simp [mouseup, can, hd]

theorem click_initial (env : Env) (i : Nat) (c : Controller) (hI : Initial c) :
    c.click env i = c := by
  obtain ⟨b1, b2, b3, hb, c1, c2, c3⟩ := hI.2.2.2.2.1
  unfold click
  split
  · rfl
  · rename_i b hget
    have hmem : b ∈ c.buttons := List.get?_mem hget
    rw [hb] at hmem
    simp only [List.mem_cons, List.mem_singleton, List.not_mem_nil, or_false] at hmem
    have hcb : b.callback = none := by
      rcases hmem with rfl | rfl | rfl <;> assumption
    simp [hcb]

theorem onreset_active (k : Controller) (h : Active k) : Active k.onreset :=
  active_frame k _ h rfl rfl (not_mem_timers_append _ _ h.2.2.2.1 (by decide)) rfl
    ⟨rfl, rfl, rfl, rfl, rfl, rfl⟩

theorem gridGenerated_active (env : Env) (c : Controller) (name : String)
    (h1 : c.gridSize = (64, 36)) (h2 : c.endX = none) (h3 : c.endY = none)
    (b1 b2 b3 : Button) (hb : c.buttons = [b1, b2, b3]) (hc2 : b2.callback = none)
    (ht : c.transition = some { name := name, dst := "ready" })
    (hname : name = "init" ∨ name = "reset") (htim : c.timers = [])
    (hg : c.grid = Grid.new 64 36) : Active (c.gridGenerated env) := by
  obtain ⟨d1, d2, d3, d4, d5, d6, d7, d8, d9, d10⟩ := setDefaultStartEndPos_board c
  obtain ⟨t1, t2⟩ := setDefaultStartEndPos_control c
  have hrun : c.gridGenerated env =
      afterEvent env name
        (onready { c.setDefaultStartEndPos with transition := none, current := "ready" }) := by
    simp [gridGenerated, bindEvents, runTransition, t2, ht, enterState]
  have hready : Active
      (onready { c.setDefaultStartEndPos with transition := none, current := "ready" }) := by
    refine ⟨by simp [onready], by simp [onready, restingStates], by simp [onready],
      by simp [onready, d7, htim],
      ⟨_, _, _, onready_buttons _ b1 b2 b3 (d6.trans hb), ?_⟩, ⟨?_, ?_⟩, ⟨3, 4, ?_, ?_, ?_⟩, ?_, ?_⟩
    · refine ⟨?_, ?_, rfl, ?_, ?_, ?_, ?_, ?_⟩ <;> simp [buttonEvents, onready, hc2]
    · simp [onready, d5, d8, hg, h1, Grid.new]
    · simp [onready, d5, d9, hg, h1, Grid.new]
    · simp [onready, d1]
    · simp [onready, d2]
    · have hgr : (onready
          { c.setDefaultStartEndPos with transition := none, current := "ready" }).grid =
          c.setDefaultStartEndPos.grid := by simp [onready]
      rw [hgr, d10, hg]
      decide
    · simp [onready, d3, h2]
    · simp [onready, d4, h3]
  rw [hrun]
  rcases hname with rfl | rfl
  · have : afterEvent env "init"
        (onready { c.setDefaultStartEndPos with transition := none, current := "ready" }) =
        onready { c.setDefaultStartEndPos with transition := none, current := "ready" } := by
      simp [afterEvent]
    rw [this]
    exact hready
  · have : afterEvent env "reset"
        (onready { c.setDefaultStartEndPos with transition := none, current := "ready" }) =
        onreset
          (onready { c.setDefaultStartEndPos with transition := none, current := "ready" }) := by
      simp [afterEvent]
    rw [this]
    exact onreset_active _ hready

theorem fireTimer_initial (env : Env) (i : Nat) (c : Controller) (hI : Initial c) :
    Inv (c.fireTimer env i) := by
  obtain ⟨i1, i2, i3, i4, ⟨b1, b2, b3, hb, c1, c2, c3⟩, i6⟩ := id hI
  rcases i6 with ⟨-, htim⟩ | ⟨htr, htim, hg⟩
  · have : c.fireTimer env i = c := by simp [fireTimer, htim]
    rw [this]
    exact Or.inl hI
  · cases i with
    | zero =>
      have : c.fireTimer env 0 = gridGenerated env { c with timers := [] } := by
        simp [fireTimer, htim]
      rw [this]
      right
      rcases htr with htr | htr
      · exact gridGenerated_active env _ "init" i2 i3 i4 b1 b2 b3 hb c2 htr (Or.inl rfl) rfl hg
      · exact gridGenerated_active env _ "reset" i2 i3 i4 b1 b2 b3 hb c2 htr (Or.inr rfl) rfl hg
    | succ n =>
      have : c.fireTimer env (n + 1) = c := by simp [fireTimer, htim]
      rw [this]
      exact Or.inl hI

theorem create_initial : Initial Controller.create :=
  ⟨rfl, rfl, rfl, rfl, ⟨_, _, _, rfl, rfl, rfl, rfl⟩, Or.inl ⟨rfl, rfl⟩⟩

theorem act_inv (env : Env) (c : Controller) (a : Action) (ha : a.isDirectEdit = false)
    (h : Inv c) : Inv (c.act env a) := by
  rcases h with hI | hA
  · cases a with
    | event name x y => exact Or.inl (fire_initial env name x y c hI)
    | mousedown px py =>
      rw [act, mousedown_initial env px py c hI]
      exact Or.inl hI
    | mousemove px py =>
      rw [act, mousemove_initial env px py c hI]
      exact Or.inl hI
    | mouseup =>
      rw [act, mouseup_initial c hI]
      exact Or.inl hI
    | click i =>
      rw [act, click_initial env i c hI]
      exact Or.inl hI
    | timer i => exact fireTimer_initial env i c hI
  · right
    cases a with
    | event name x y =>
      simp only [Action.isDirectEdit, Bool.or_eq_false_iff, beq_eq_false_iff_ne, ne_eq] at ha
      exact fire_active env name x y c hA ha.1 ha.2
    | mousedown px py => exact mousedown_active env px py c hA
    | mousemove px py => exact mousemove_active env px py c hA
    | mouseup => exact mouseup_active c hA
    | click i => exact click_active env i c hA
    | timer i => exact fireTimer_active env i c hA

theorem run_inv (env : Env) (as : List Action) (c : Controller)
    (has : ∀ a ∈ as, a.isDirectEdit = false) (h : Inv c) : Inv (c.run env as) := by
  unfold run
  induction as generalizing c with
  | nil => exact h
  | cons a as ih =>
    simp only [List.foldl_cons]
    exact ih _ (fun b hb => has b (List.mem_cons_of_mem _ hb))
      (act_inv env c a (has a (List.mem_cons_self _ _)) h)

/-! ## The grid during a search -/

theorem loopTick_grid (env : Env) (c : Controller) :
    (c.loopTick env).grid = c.grid := by
  by_cases hs : c.current = "searching"
  · rw [loopTick_searching env c hs]
    show (c.step env).grid = c.grid
    cases hq : supported env c.operations with
    | nil =>
      have hq2 : ∀ o ∈ c.operations, env.supportedOperations.contains o.attr = false := by
        intro o ho
        have := (List.filter_eq_nil_iff.mp hq) o ho
        simpa using this
      rw [step_unsupported env c hq2]
      obtain ht | ⟨t, ht⟩ : c.transition = none ∨ ∃ t, c.transition = some t := by
        cases c.transition <;> simp
      · exact (finish_spec { c with operations := [] } hs ht).2.2.2.2.2
      · have : finish { c with operations := [] } = { c with operations := [] } := by
          simp [finish, buildEvent, ht]
        rw [this]
    | cons op s =>
      obtain ⟨u, rest, hq3, hu, hop, -⟩ := List.filter_eq_cons_iff.mp hq
      have hu2 : ∀ o ∈ u, env.supportedOperations.contains o.attr = false := by
        intro o ho
        simpa using hu o ho
      rw [step, hq3, stepFrom_supported env u op rest c hu2 hop]
      rfl
  · have : c.loopTick env = c := by simp [loopTick, is, hs]
    rw [this]

theorem search_grid (env : Env) (c : Controller) : (c.search env).grid = c.grid := by
  obtain ht | ⟨t, ht⟩ : c.transition = none ∨ ∃ t, c.transition = some t := by
    cases c.transition <;> simp
  · cases hd : StateMachine.destination "search" c.current with
    | none => rw [search, buildEvent_rejected _ _ _ c hd]
    | some dst =>
      have hd2 := hd
      simp [StateMachine.destination, events, WILDCARD] at hd2
      obtain ⟨hc, rfl⟩ := hd2
      have hd3 : StateMachine.destination "search" "starting" = some "searching" := by decide
      have : c.search env = onsearch env (onsearching { c with current := "searching" }) := by
        simp [search, buildEvent, ht, hd3, hc]
      rw [this, onsearch, loop, loopTick_grid env _]
      simp [onsearching]
  · have : c.search env = c := by simp [search, buildEvent, ht]
    rw [this]

/-! ## Start and end position -/

theorem can_dragStart_eq_drawWall (c : Controller) : c.can "dragStart" = c.can "drawWall" := by
  obtain ⟨k1, -, k3, -⟩ := can_edit_iff c
  cases h1 : c.can "dragStart" <;> cases h3 : c.can "drawWall" <;> simp_all

theorem mousedown_grid_of_isStartPos (env : Env) (c : Controller) (pageX pageY : Int)
    (h : c.isStartPos (env.toGridCoordinate pageX pageY).1
      (env.toGridCoordinate pageX pageY).2 = true) :
    (c.mousedown env pageX pageY).grid = c.grid := by
  by_cases hc : c.can "dragStart" = true
  · have : c.mousedown env pageX pageY = c.dragStart := by simp [mousedown, hc, h]
    rw [this, dragStart_of_can c hc]
  · have he : ¬(c.transition = none ∧ (c.current = "ready" ∨ c.current = "finished")) :=
      fun he => hc ((can_edit_iff c).1.mpr he)
    rw [mousedown_of_not_editable env c pageX pageY he]

theorem mousemove_of_isStartPos (env : Env) (c : Controller) (pageX pageY : Int)
    (h : c.isStartPos (env.toGridCoordinate pageX pageY).1
      (env.toGridCoordinate pageX pageY).2 = true) :
    c.mousemove env pageX pageY = c := by
  simp [mousemove, isStartOrEndPos, h]

theorem mousedown_draggingEnd (env : Env) (c : Controller) (pageX pageY : Int)
    (h : (c.mousedown env pageX pageY).current = "draggingEnd")
    (hc : c.current ≠ "draggingEnd") :
    c.isEndPos (env.toGridCoordinate pageX pageY).1 (env.toGridCoordinate pageX pageY).2
      = true := by
  rcases mousedown_cases env c pageX pageY _ _ rfl with
    ⟨h1, -, e⟩ | ⟨-, h2, -⟩ | ⟨h1, -, -, e⟩ | ⟨h1, -, e⟩ | ⟨-, e⟩
  · rw [e, dragStart_of_can c h1] at h
    exact absurd h (by decide : ("draggingStart" : String) ≠ "draggingEnd")
  · exact h2
  · rw [e, drawWall_of_can c _ _ h1] at h
    exact absurd h (by simp)
  · rw [e, eraseWall_of_can c _ _ h1] at h
    exact absurd h (by simp)
  · rw [e] at h
    exact absurd h hc

theorem mousemove_end (env : Env) (c : Controller) (pageX pageY : Int)
    (hc : c.current ≠ "draggingEnd") :
    (c.mousemove env pageX pageY).endX = c.endX ∧
      (c.mousemove env pageX pageY).endY = c.endY := by
  rcases mousemove_cases env c pageX pageY _ _ rfl with
    h | ⟨-, -, -, h⟩ | ⟨h1, -⟩ | ⟨-, -, h⟩ | ⟨-, -, h⟩
  · rw [h]; exact ⟨rfl, rfl⟩
  · rw [h]; exact ⟨rfl, rfl⟩
  · exact absurd h1 hc
  · rw [h]; exact ⟨rfl, rfl⟩
  · rw [h]; exact ⟨rfl, rfl⟩

theorem setDefaultStartEndPos_start (c : Controller) :
    c.setDefaultStartEndPos.startX = some 3 ∧ c.setDefaultStartEndPos.startY = some 4 := by
  constructor <;> simp [setDefaultStartEndPos]

theorem setDefaultStartEndPos_end (c : Controller) :
    c.setDefaultStartEndPos.endX = c.endX ∧ c.setDefaultStartEndPos.endY = c.endY := by
  constructor <;> simp [setDefaultStartEndPos]

/-- The buttons of a controller that rests, with fitting buttons, in a state
whose entry action binds them: every enabled button carries an event that the
state accepts. -/
theorem buttons_legal_of_fit (k : Controller) (ht : k.transition = none)
    (b1 b2 b3 : Button) (hbs : k.buttons = [b1, b2, b3])
    (hfit : ButtonsFit k.current b1 b2 b3)
    (hs : k.current ∈ ["ready", "searching", "paused", "finished", "modified"]) :
    ∀ b ∈ k.buttons, b.enabled = true → ∀ e, b.callback = some e → k.can e = true := by
  obtain ⟨-, -, f3, fr, fs, fp, ff, fm⟩ := hfit
  have h3 : k.can "reset" = true := by
    simp [can, ht, StateMachine.destination, events, WILDCARD]
  intro b hb hen e he
  rw [hbs] at hb
  simp only [List.mem_cons, List.mem_singleton, List.not_mem_nil, or_false] at hb hs
  have key : ∀ s e1 e2, k.current = s → StateMachine.destination e1 s ≠ none →
      (b2.enabled = true → StateMachine.destination e2 s ≠ none) →
      b1.callback = some e1 → (b2.enabled = true → b2.callback = some e2) →
      k.can e = true := by
    intro s e1 e2 hcur d1 d2 c1 c2
    rcases hb with rfl | rfl | rfl
    · rw [c1] at he
      cases he
      simp [can, ht, hcur, Option.isSome_iff_ne_none, d1]
    · rw [c2 hen] at he
      cases he
      simp [can, ht, hcur, Option.isSome_iff_ne_none, d2 hen]
    · rw [f3] at he
      cases he
      exact h3
  rcases hs with h | h | h | h | h
  · obtain ⟨c1, c2⟩ := fr h
    refine key "ready" "start" "start" h (by decide) (fun h2 => ?_) c1 (fun h2 => ?_)
    · rw [c2] at h2; cases h2
    · rw [c2] at h2; cases h2
  · obtain ⟨c1, c2⟩ := fs h
    exact key "searching" "restart" "pause" h (by decide) (fun _ => by decide) c1 (fun _ => c2)
  · obtain ⟨c1, c2⟩ := fp h
    exact key "paused" "resume" "cancel" h (by decide) (fun _ => by decide) c1 (fun _ => c2)
  · obtain ⟨c1, c2⟩ := ff h
    exact key "finished" "restart" "clear" h (by decide) (fun _ => by decide) c1 (fun _ => c2)
  · obtain ⟨c1, c2⟩ := fm h
    exact key "modified" "start" "clear" h (by decide) (fun _ => by decide) c1 (fun _ => c2)

/-! ## The buttons under every action -/

theorem bound_of_active (c : Controller) (h : Active c) : Bound c :=
  ⟨h.1, h.2.1, h.2.2.2.1, h.2.2.2.2.1⟩

theorem bound_intro (k : Controller) (s : String) (b1 b2 b3 : Button)
    (h1 : k.transition = none) (h2 : k.current = s) (hs : s ∈ restingStates)
    (h3 : Timer.gridGenerated ∉ k.timers) (h4 : k.buttons = [b1, b2, b3])
    (h5 : ButtonsFit s b1 b2 b3) : Bound k :=
  ⟨h1, by rw [h2]; exact hs, h3, b1, b2, b3, h4, by rw [h2]; exact h5⟩

theorem bound_frame (c k : Controller) (hB : Bound c) (h1 : k.transition = c.transition)
    (h2 : k.current = c.current) (h3 : Timer.gridGenerated ∉ k.timers)
    (h4 : k.buttons = c.buttons) : Bound k := by
  obtain ⟨a1, a2, -, b1, b2, b3, hb, hfit⟩ := id hB
  exact bound_intro k c.current b1 b2 b3 (h1.trans a1) h2 a2 h3 (h4.trans hb) hfit

theorem bound_ne_none (c : Controller) (hB : Bound c) : c.current ≠ "none" := by
  intro h
  have := hB.2.1
  rw [h] at this
  exact absurd this (by decide)

theorem bound_ne_starting (c : Controller) (hB : Bound c) : c.current ≠ "starting" := by
  intro h
  have := hB.2.1
  rw [h] at this
  exact absurd this (by decide)

theorem buildEvent_bound (name : String) (enter after : Controller → Controller)
    (c : Controller) (hB : Bound c)
    (hsame : ∀ dst, StateMachine.destination name c.current = some dst → c.current = dst →
      Bound (after c))
    (hmove : ∀ dst, StateMachine.destination name c.current = some dst → c.current ≠ dst →
      Bound (after (enter { c with current := dst }))) :
    Bound (c.buildEvent name enter after) := by
  unfold buildEvent
  simp only [hB.1, Option.isSome_none, Bool.false_eq_true, ↓reduceIte]
  split
  · exact hB
  · rename_i dst hd
    split
    · rename_i h
      have := hsame dst hd h
      simpa [hB.1] using this
    · rename_i h
      rw [if_neg (bound_ne_none c hB)]
      have := hmove dst hd h
      simpa [hB.1] using this

theorem pause_bound (c : Controller) (hB : Bound c) : Bound c.pause := by
  obtain ⟨b1, b2, b3, hb, hfit⟩ := hB.2.2.2
  refine buildEvent_bound "pause" onpaused onpause c hB (fun dst hd h => ?_) (fun dst hd _ => ?_)
  · simp [StateMachine.destination, events, WILDCARD] at hd
    exact hB
  · simp [StateMachine.destination, events, WILDCARD] at hd
    obtain ⟨-, rfl⟩ := hd
    exact bound_intro _ "paused" _ _ _ (by simp [onpause, onpaused, hB.1])
      (by simp [onpause, onpaused]) (by decide)
      (by simpa [onpause, onpaused] using hB.2.2.1)
      (onpaused_buttons _ b1 b2 b3 hb) (buttonsFit_paused _ b1 b2 b3 hfit)

theorem onfinish_onfinished_bound (c k : Controller) (hB : Bound c)
    (h1 : k.transition = none) (h3 : Timer.gridGenerated ∉ k.timers)
    (h4 : k.buttons = c.buttons) :
    Bound (onfinish (onfinished { k with current := "finished" })) := by
  obtain ⟨b1, b2, b3, hb, hfit⟩ := hB.2.2.2
  exact bound_intro _ "finished" _ _ _ (by simp [onfinish, onfinished, emit, h1])
    (by simp [onfinish, onfinished, emit]) (by decide)
    (by simpa [onfinish, onfinished, emit] using h3)
    (onfinished_buttons _ b1 b2 b3 (h4.trans hb)) (buttonsFit_finished _ b1 b2 b3 hfit)

theorem finish_bound (c : Controller) (hB : Bound c) : Bound c.finish := by
  refine buildEvent_bound "finish" onfinished onfinish c hB (fun dst hd h => ?_)
    (fun dst hd _ => ?_)
  · simp [StateMachine.destination, events, WILDCARD] at hd
    exact absurd (hd.1.symm.trans (h.trans hd.2.symm)) (by decide)
  · simp [StateMachine.destination, events, WILDCARD] at hd
    obtain ⟨-, rfl⟩ := hd
    exact onfinish_onfinished_bound c c hB hB.1 hB.2.2.1 rfl

theorem loopTick_bound (env : Env) (c : Controller) (hB : Bound c) :
    Bound (c.loopTick env) := by
  by_cases hs : c.current = "searching"
  · rw [loopTick_searching env c hs]
    cases hq : supported env c.operations with
    | nil =>
      have hq2 : ∀ o ∈ c.operations, env.supportedOperations.contains o.attr = false := by
        intro o ho
        have := (List.filter_eq_nil_iff.mp hq) o ho
        simpa using this
      rw [step_unsupported env c hq2, finish_of_searching { c with operations := [] } hs hB.1]
      have := onfinish_onfinished_bound c { c with operations := [] } hB hB.1 hB.2.2.1 rfl
      exact bound_frame _ _ this rfl rfl
        (not_mem_timers_append _ _ this.2.2.1 (by decide)) rfl
    | cons op s =>
      obtain ⟨u, rest, hq3, hu, hop, -⟩ := List.filter_eq_cons_iff.mp hq
      have hu2 : ∀ o ∈ u, env.supportedOperations.contains o.attr = false := by
        intro o ho
        simpa using hu o ho
      rw [step, hq3, stepFrom_supported env u op rest c hu2 hop]
      exact bound_frame c _ hB rfl rfl (not_mem_timers_append _ _ hB.2.2.1 (by decide)) rfl
  · have : c.loopTick env = c := by simp [loopTick, is, hs]
    rw [this]
    exact hB

theorem resume_bound (env : Env) (c : Controller) (hB : Bound c) : Bound (c.resume env) := by
  obtain ⟨b1, b2, b3, hb, hfit⟩ := hB.2.2.2
  refine buildEvent_bound "resume" onsearching (onresume env) c hB (fun dst hd h => ?_)
    (fun dst hd _ => ?_)
  · simp [StateMachine.destination, events, WILDCARD] at hd
    exact absurd (hd.1.symm.trans (h.trans hd.2.symm)) (by decide)
  · simp [StateMachine.destination, events, WILDCARD] at hd
    obtain ⟨-, rfl⟩ := hd
    apply loopTick_bound
    exact bound_intro _ "searching" _ _ _ (by simp [onsearching, hB.1])
      (by simp [onsearching]) (by decide)
      (by simpa [onsearching] using hB.2.2.1)
      (onsearching_buttons _ b1 b2 b3 hb) (buttonsFit_searching _ b1 b2 b3 hfit)

theorem onready_bound (c k : Controller) (hB : Bound c) (h1 : k.transition = none)
    (h3 : Timer.gridGenerated ∉ k.timers) (h4 : k.buttons = c.buttons) :
    Bound (onready { k with current := "ready" }) := by
  obtain ⟨b1, b2, b3, hb, hfit⟩ := hB.2.2.2
  exact bound_intro _ "ready" _ _ _ (by simp [onready, h1])
    (by simp [onready]) (by decide)
    (by simpa [onready] using h3)
    (onready_buttons _ b1 b2 b3 (h4.trans hb)) (buttonsFit_ready _ b1 b2 b3 hfit)

theorem cancel_bound (c : Controller) (hB : Bound c) : Bound c.cancel := by
  refine buildEvent_bound "cancel" onready oncancel c hB (fun dst hd h => ?_)
    (fun dst hd _ => ?_)
  · simp [StateMachine.destination, events, WILDCARD] at hd
    exact absurd (hd.1.symm.trans (h.trans hd.2.symm)) (by decide)
  · simp [StateMachine.destination, events, WILDCARD] at hd
    obtain ⟨-, rfl⟩ := hd
    have := onready_bound c c hB hB.1 hB.2.2.1 rfl
    exact bound_frame _ _ this rfl rfl this.2.2.1 rfl

theorem clear_bound (c : Controller) (hB : Bound c) : Bound c.clear := by
  refine buildEvent_bound "clear" onready onclear c hB (fun dst hd h => ?_)
    (fun dst hd _ => ?_)
  · simp [StateMachine.destination, events, WILDCARD] at hd
    obtain ⟨h1, h2⟩ := hd
    rw [← h2] at h
    rcases h1 with h1 | h1 <;> exact absurd (h1.symm.trans h) (by decide)
  · simp [StateMachine.destination, events, WILDCARD] at hd
    obtain ⟨-, rfl⟩ := hd
    have := onready_bound c c hB hB.1 hB.2.2.1 rfl
    exact bound_frame _ _ this rfl rfl this.2.2.1 rfl

theorem reset_bound (c : Controller) (hB : Bound c) : Bound c.reset := by
  refine buildEvent_bound "reset" onready onreset c hB (fun dst hd h => ?_)
    (fun dst hd _ => ?_)
  · exact bound_frame c _ hB rfl rfl (not_mem_timers_append _ _ hB.2.2.1 (by decide)) rfl
  · simp [StateMachine.destination, events, WILDCARD] at hd
    subst hd
    have := onready_bound c c hB hB.1 hB.2.2.1 rfl
    exact bound_frame _ _ this rfl rfl (not_mem_timers_append _ _ this.2.2.1 (by decide)) rfl

theorem rest_bound (c : Controller) (hB : Bound c) : Bound c.rest := by
  refine buildEvent_bound "rest" onready id c hB (fun dst hd h => ?_) (fun dst hd _ => ?_)
  · exact hB
  · simp [StateMachine.destination, events, WILDCARD] at hd
    obtain ⟨-, rfl⟩ := hd
    exact onready_bound c c hB hB.1 hB.2.2.1 rfl

theorem modify_bound (c : Controller) (hB : Bound c) : Bound c.modify := by
  obtain ⟨b1, b2, b3, hb, hfit⟩ := hB.2.2.2
  refine buildEvent_bound "modify" onmodified onmodify c hB (fun dst hd h => ?_)
    (fun dst hd _ => ?_)
  · exact hB
  · simp [StateMachine.destination, events, WILDCARD] at hd
    obtain ⟨-, rfl⟩ := hd
    exact bound_intro _ "modified" _ _ _ (by simp [onmodify, onmodified, hB.1])
      (by simp [onmodify, onmodified]) (by decide)
      (by simpa [onmodify, onmodified] using hB.2.2.1)
      (onmodified_buttons _ b1 b2 b3 hb) (buttonsFit_modified _ b1 b2 b3 hfit)

theorem init_bound (c : Controller) (hB : Bound c) : Bound c.init := by
  refine buildEvent_bound "init" onready id c hB (fun dst hd h => ?_) (fun dst hd _ => ?_)
  · exact hB
  · simp [StateMachine.destination, events, WILDCARD] at hd
    exact absurd hd.1 (bound_ne_none c hB)

theorem search_bound (env : Env) (c : Controller) (hB : Bound c) : Bound (c.search env) := by
  refine buildEvent_bound "search" onsearching (onsearch env) c hB (fun dst hd h => ?_)
    (fun dst hd _ => ?_)
  · simp [StateMachine.destination, events, WILDCARD] at hd
    exact absurd hd.1 (bound_ne_starting c hB)
  · simp [StateMachine.destination, events, WILDCARD] at hd
    exact absurd hd.1 (bound_ne_starting c hB)

/-- An event whose destination has no entry action and whose callback keeps
state, buttons and timers leaves the buttons as they are. -/
theorem plain_event_bound (name dst : String) (after : Controller → Controller)
    (c : Controller) (hB : Bound c)
    (hd : ∀ d, StateMachine.destination name c.current = some d → d = dst ∧ c.current ≠ dst)
    (hdst : dst ∈ restingStates)
    (hno : dst ∉ ["ready", "searching", "paused", "finished", "modified"])
    (hafter : ∀ k : Controller, (after k).transition = k.transition ∧
      (after k).current = k.current ∧ (after k).buttons = k.buttons ∧
      (Timer.gridGenerated ∉ k.timers → Timer.gridGenerated ∉ (after k).timers)) :
    Bound (c.buildEvent name id after) := by
  obtain ⟨b1, b2, b3, hb, hfit⟩ := hB.2.2.2
  refine buildEvent_bound name id after c hB (fun d h1 h => ?_) (fun d h1 _ => ?_)
  · obtain ⟨rfl, h2⟩ := hd d h1
    exact absurd h h2
  · obtain ⟨rfl, -⟩ := hd d h1
    obtain ⟨a1, a2, a3, a4⟩ := hafter { c with current := d }
    exact bound_intro _ d b1 b2 b3 (a1.trans hB.1) a2 hdst (a4 hB.2.2.1) (a3.trans hb)
      (buttonsFit_other _ _ b1 b2 b3 hfit hno)

theorem edit_destination (name dst : String)
    (hn : name = "dragStart" ∧ dst = "draggingStart" ∨ name = "dragEnd" ∧ dst = "draggingEnd" ∨
      name = "drawWall" ∧ dst = "drawingWall" ∨ name = "eraseWall" ∧ dst = "erasingWall" ∨
      name = "restart" ∧ dst = "restarting")
    (s d : String) (h : StateMachine.destination name s = some d) : d = dst ∧ s ≠ dst := by
  rcases hn with ⟨rfl, rfl⟩ | ⟨rfl, rfl⟩ | ⟨rfl, rfl⟩ | ⟨rfl, rfl⟩ | ⟨rfl, rfl⟩ <;>
  · simp [StateMachine.destination, events, WILDCARD] at h
    obtain ⟨h1, rfl⟩ := h
    refine ⟨rfl, ?_⟩
    rcases h1 with h1 | h1 <;> rw [h1] <;> decide

theorem restart_bound (c : Controller) (hB : Bound c) : Bound c.restart :=
  plain_event_bound "restart" "restarting" onrestart c hB
    (fun d h => edit_destination _ _ (by simp) c.current d h) (by decide) (by decide)
    (fun k => ⟨rfl, rfl, rfl, fun h => not_mem_timers_append _ _ h (by decide)⟩)

theorem dragStart_bound (c : Controller) (hB : Bound c) : Bound c.dragStart :=
  plain_event_bound "dragStart" "draggingStart" id c hB
    (fun d h => edit_destination _ _ (by simp) c.current d h) (by decide) (by decide)
    (fun k => ⟨rfl, rfl, rfl, fun h => h⟩)

theorem dragEnd_bound (c : Controller) (hB : Bound c) : Bound c.dragEnd :=
  plain_event_bound "dragEnd" "draggingEnd" id c hB
    (fun d h => edit_destination _ _ (by simp) c.current d h) (by decide) (by decide)
    (fun k => ⟨rfl, rfl, rfl, fun h => h⟩)

theorem drawWall_bound (c : Controller) (gridX gridY : Int) (hB : Bound c) :
    Bound (c.drawWall gridX gridY) :=
  plain_event_bound "drawWall" "drawingWall" (ondrawWall gridX gridY) c hB
    (fun d h => edit_destination _ _ (by simp) c.current d h) (by decide) (by decide)
    (fun k => ⟨rfl, rfl, rfl, fun h => h⟩)

theorem eraseWall_bound (c : Controller) (gridX gridY : Int) (hB : Bound c) :
    Bound (c.eraseWall gridX gridY) :=
  plain_event_bound "eraseWall" "erasingWall" (oneraseWall gridX gridY) c hB
    (fun d h => edit_destination _ _ (by simp) c.current d h) (by decide) (by decide)
    (fun k => ⟨rfl, rfl, rfl, fun h => h⟩)

theorem start_bound (env : Env) (c : Controller) (hB : Bound c) : Bound (c.start env) := by
  obtain ⟨b1, b2, b3, hb, hfit⟩ := hB.2.2.2
  refine buildEvent_bound "start" (onstarting env) id c hB (fun dst hd h => ?_)
    (fun dst hd _ => ?_)
  · exact hB
  · simp [StateMachine.destination, events, WILDCARD] at hd
    obtain ⟨hs, rfl⟩ := hd
    obtain ⟨-, e2⟩ := start_eq env c hs hB.1
    obtain ⟨s1, s2, -⟩ := searchReturned_spec env c hB.1
    obtain ⟨f1, f2, -⟩ := searchReturned_frame env c b1 b2 b3 hb
    show Bound (onstarting env { c with current := "starting" })
    rw [e2]
    apply loopTick_bound
    exact bound_intro _ "searching" _ _ _ s2 s1 (by decide)
      (by rw [f2]; exact hB.2.2.1) f1 (buttonsFit_searching _ b1 b2 b3 hfit)

theorem fire_bound (env : Env) (name : String) (gridX gridY : Int) (c : Controller)
    (hB : Bound c) : Bound (c.fire env name gridX gridY) := by
  unfold fire
  exact
    pred_ite (fun _ => init_bound c hB) fun _ =>
    pred_ite (fun _ => search_bound env c hB) fun _ =>
    pred_ite (fun _ => pause_bound c hB) fun _ =>
    pred_ite (fun _ => finish_bound c hB) fun _ =>
    pred_ite (fun _ => resume_bound env c hB) fun _ =>
    pred_ite (fun _ => cancel_bound c hB) fun _ =>
    pred_ite (fun _ => modify_bound c hB) fun _ =>
    pred_ite (fun _ => reset_bound c hB) fun _ =>
    pred_ite (fun _ => clear_bound c hB) fun _ =>
    pred_ite (fun _ => start_bound env c hB) fun _ =>
    pred_ite (fun _ => restart_bound c hB) fun _ =>
    pred_ite (fun _ => dragStart_bound c hB) fun _ =>
    pred_ite (fun _ => dragEnd_bound c hB) fun _ =>
    pred_ite (fun _ => drawWall_bound c gridX gridY hB) fun _ =>
    pred_ite (fun _ => eraseWall_bound c gridX gridY hB) fun _ =>
    pred_ite (fun _ => rest_bound c hB) fun _ =>
    hB

theorem mousedown_bound (env : Env) (pageX pageY : Int) (c : Controller) (hB : Bound c) :
    Bound (c.mousedown env pageX pageY) := by
  rcases mousedown_cases env c pageX pageY _ _ rfl with
    ⟨-, -, h⟩ | ⟨-, -, h⟩ | ⟨-, -, -, h⟩ | ⟨-, -, h⟩ | ⟨-, h⟩ <;> rw [h]
  · exact dragStart_bound c hB
  · exact dragEnd_bound c hB
  · exact drawWall_bound c _ _ hB
  · exact eraseWall_bound c _ _ hB
  · exact hB

theorem mousemove_bound (env : Env) (pageX pageY : Int) (c : Controller) (hB : Bound c) :
    Bound (c.mousemove env pageX pageY) := by
  rcases mousemove_cases env c pageX pageY _ _ rfl with
    h | ⟨-, -, -, h⟩ | ⟨-, -, -, h⟩ | ⟨-, -, h⟩ | ⟨-, -, h⟩ <;> rw [h]
  · exact hB
  · exact bound_frame c _ hB rfl rfl hB.2.2.1 rfl
  · exact bound_frame c _ hB rfl rfl hB.2.2.1 rfl
  · exact bound_frame c _ hB rfl rfl hB.2.2.1 rfl
  · exact bound_frame c _ hB rfl rfl hB.2.2.1 rfl

theorem mouseup_bound (c : Controller) (hB : Bound c) : Bound c.mouseup := by
  unfold mouseup
  exact pred_ite (fun _ => rest_bound c hB) (fun _ => hB)

theorem click_bound (env : Env) (i : Nat) (c : Controller) (hB : Bound c) :
    Bound (c.click env i) := by
  unfold click
  split
  · exact hB
  · split
    · split
      · exact fire_bound env _ 0 0 c hB
      · exact hB
    · exact hB

theorem fireTimer_bound (env : Env) (i : Nat) (c : Controller) (hB : Bound c) :
    Bound (c.fireTimer env i) := by
  unfold fireTimer
  split
  · exact hB
  · rename_i t ht
    have hmem : t ∈ c.timers := List.get?_mem ht
    have hrest : Timer.gridGenerated ∉ c.timers.eraseIdx i :=
      fun h => hB.2.2.1 (List.mem_of_mem_eraseIdx h)
    have hB1 : Bound { c with timers := c.timers.eraseIdx i } :=
      bound_frame c _ hB rfl rfl hrest rfl
    cases t with
    | gridGenerated => exact absurd hmem hB.2.2.1
    | restart =>
      apply start_bound
      exact bound_frame _ _ hB1 rfl rfl hrest rfl
    | reset => exact bound_frame _ _ hB1 rfl rfl hrest rfl
    | tick => exact loopTick_bound env _ hB1

theorem act_bound (env : Env) (c : Controller) (a : Action) (h : Initial c ∨ Bound c) :
    Initial (c.act env a) ∨ Bound (c.act env a) := by
  rcases h with hI | hB
  · cases a with
    | event name x y => exact Or.inl (fire_initial env name x y c hI)
    | mousedown px py =>
      rw [act, mousedown_initial env px py c hI]
      exact Or.inl hI
    | mousemove px py =>
      rw [act, mousemove_initial env px py c hI]
      exact Or.inl hI
    | mouseup =>
      rw [act, mouseup_initial c hI]
      exact Or.inl hI
    | click i =>
      rw [act, click_initial env i c hI]
      exact Or.inl hI
    | timer i =>
      rcases fireTimer_initial env i c hI with h | h
      · exact Or.inl h
      · exact Or.inr (bound_of_active _ h)
  · right
    cases a with
    | event name x y => exact fire_bound env name x y c hB
    | mousedown px py => exact mousedown_bound env px py c hB
    | mousemove px py => exact mousemove_bound env px py c hB
    | mouseup => exact mouseup_bound c hB
    | click i => exact click_bound env i c hB
    | timer i => exact fireTimer_bound env i c hB

theorem run_bound (env : Env) (as : List Action) (c : Controller)
    (h : Initial c ∨ Bound c) : Initial (c.run env as) ∨ Bound (c.run env as) := by
  unfold run
  induction as generalizing c with
  | nil => exact h
  | cons a as ih =>
    simp only [List.foldl_cons]
    exact ih _ (act_bound env c a h)

/-! ## No step of the controller enters `modified` -/

theorem destination_modified (name s : String)
    (h : StateMachine.destination name s = some "modified") : name = "modify" := by
  unfold StateMachine.destination at h
  split at h
  · exact absurd h (by simp)
  · rename_i ev hev
    have hmem := List.mem_of_find?_eq_some hev
    have hp := List.find?_some hev
    split at h
    · simp only [Option.some.injEq] at h
      simp only [events, List.mem_cons, List.mem_singleton, List.not_mem_nil, or_false] at hmem
      rcases hmem with e | e | e | e | e | e | e | e | e | e | e | e | e | e | e | e <;>
        subst e <;> simp_all
    · exact absurd h (by simp)

theorem buildEvent_ne_modified (name : String) (enter after : Controller → Controller)
    (c : Controller) (hn : name ≠ "modify") (hc : c.current ≠ "modified")
    (hA : ∀ k : Controller, k.current ≠ "modified" → (after k).current ≠ "modified")
    (hEA : ∀ k : Controller, k.current ≠ "modified" →
      (after (enter k)).current ≠ "modified") :
    (c.buildEvent name enter after).current ≠ "modified" := by
  unfold buildEvent
  split
  · exact hc
  · split
    · exact hc
    · rename_i dst hd
      have hdst : dst ≠ "modified" := by
        intro e
        rw [e] at hd
        exact hn (destination_modified _ _ hd)
      split
      · exact hA c hc
      · split
        · show c.onleavenone.current ≠ "modified"
          simpa [onleavenone, hookPathFinding, emit, setTimeout] using hc
        · exact hEA _ hdst

theorem frame_ne_modified (name : String) (enter after : Controller → Controller)
    (c : Controller) (hn : name ≠ "modify") (hc : c.current ≠ "modified")
    (hE : ∀ k : Controller, (enter k).current = k.current)
    (hA : ∀ k : Controller, (after k).current = k.current) :
    (c.buildEvent name enter after).current ≠ "modified" := by
  apply buildEvent_ne_modified name enter after c hn hc
  · intro k hk
    rw [hA]; exact hk
  · intro k hk
    rw [hA, hE]; exact hk

theorem finish_ne_modified (c : Controller) (hc : c.current ≠ "modified") :
    c.finish.current ≠ "modified" :=
  frame_ne_modified "finish" onfinished onfinish c (by decide) hc
    (fun k => by simp [onfinished]) (fun _ => rfl)

theorem stepFrom_ne_modified (env : Env) (q : List Operation) (c : Controller)
    (hc : c.current ≠ "modified") : (stepFrom env q c).current ≠ "modified" := by
  induction q generalizing c with
  | nil => exact finish_ne_modified c hc
  | cons op rest ih =>
    simp only [stepFrom]
    split
    · exact hc
    · exact ih _ hc

theorem loopTick_ne_modified (env : Env) (c : Controller) (hc : c.current ≠ "modified") :
    (c.loopTick env).current ≠ "modified" := by
  unfold loopTick
  split
  · exact hc
  · exact stepFrom_ne_modified env _ c hc

theorem search_ne_modified (env : Env) (c : Controller) (hc : c.current ≠ "modified") :
    (c.search env).current ≠ "modified" := by
  apply buildEvent_ne_modified "search" onsearching (onsearch env) c (by decide) hc
  · intro k hk
    exact loopTick_ne_modified env _ hk
  · intro k hk
    exact loopTick_ne_modified env _ (by simpa [onsearching] using hk)

theorem start_ne_modified (env : Env) (c : Controller) (hc : c.current ≠ "modified") :
    (c.start env).current ≠ "modified" := by
  apply buildEvent_ne_modified "start" (onstarting env) id c (by decide) hc
  · intro k hk
    exact hk
  · intro k hk
    exact search_ne_modified env _ (by simpa [clearFootprints, emit] using hk)

theorem resume_ne_modified (env : Env) (c : Controller) (hc : c.current ≠ "modified") :
    (c.resume env).current ≠ "modified" := by
  apply buildEvent_ne_modified "resume" onsearching (onresume env) c (by decide) hc
  · intro k hk
    exact loopTick_ne_modified env _ hk
  · intro k hk
    exact loopTick_ne_modified env _ (by simpa [onsearching] using hk)

theorem ne_modified_ite {p : Prop} [Decidable p] {a b : Controller}
    (ha : p → a.current ≠ "modified") (hb : ¬p → b.current ≠ "modified") :
    (if p then a else b).current ≠ "modified" := by
  split
  · exact ha ‹_›
  · exact hb ‹_›

theorem fire_ne_modified (env : Env) (name : String) (gridX gridY : Int)
    (c : Controller) (hn : name ≠ "modify") (hc : c.current ≠ "modified") :
    (c.fire env name gridX gridY).current ≠ "modified" := by
  have hB : ∀ (opts : List ButtonOpt) (k : Controller),
      (k.setButtonStates opts).current = k.current := fun opts k => by simp
  unfold fire
  refine
    ne_modified_ite (fun _ => frame_ne_modified "init" onready id c (by decide) hc
      (fun k => hB _ k) (fun _ => rfl)) fun _ =>
    ne_modified_ite (fun _ => search_ne_modified env c hc) fun _ =>
    ne_modified_ite (fun _ => frame_ne_modified "pause" onpaused onpause c (by decide) hc
      (fun k => hB _ k) (fun _ => rfl)) fun _ =>
    ne_modified_ite (fun _ => finish_ne_modified c hc) fun _ =>
    ne_modified_ite (fun _ => resume_ne_modified env c hc) fun _ =>
    ne_modified_ite (fun _ => frame_ne_modified "cancel" onready oncancel c (by decide) hc
      (fun k => hB _ k) (fun _ => rfl)) fun _ =>
    ne_modified_ite (fun h => absurd h hn) fun _ =>
    ne_modified_ite (fun _ => frame_ne_modified "reset" onready onreset c (by decide) hc
      (fun k => hB _ k) (fun _ => rfl)) fun _ =>
    ne_modified_ite (fun _ => frame_ne_modified "clear" onready onclear c (by decide) hc
      (fun k => hB _ k) (fun _ => rfl)) fun _ =>
    ne_modified_ite (fun _ => start_ne_modified env c hc) fun _ =>
    ne_modified_ite (fun _ => frame_ne_modified "restart" id onrestart c (by decide) hc
      (fun _ => rfl) (fun _ => rfl)) fun _ =>
    ne_modified_ite (fun _ => frame_ne_modified "dragStart" id id c (by decide) hc
      (fun _ => rfl) (fun _ => rfl)) fun _ =>
    ne_modified_ite (fun _ => frame_ne_modified "dragEnd" id id c (by decide) hc
      (fun _ => rfl) (fun _ => rfl)) fun _ =>
    ne_modified_ite (fun _ => frame_ne_modified "drawWall" id (ondrawWall gridX gridY) c
      (by decide) hc (fun _ => rfl) (fun _ => rfl)) fun _ =>
    ne_modified_ite (fun _ => frame_ne_modified "eraseWall" id (oneraseWall gridX gridY) c
      (by decide) hc (fun _ => rfl) (fun _ => rfl)) fun _ =>
    ne_modified_ite (fun _ => frame_ne_modified "rest" onready id c (by decide) hc
      (fun k => hB _ k) (fun _ => rfl)) fun _ =>
    hc

theorem afterEvent_ne_modified (env : Env) (name : String) (k : Controller)
    (hk : k.current ≠ "modified") : (afterEvent env name k).current ≠ "modified" := by
  unfold afterEvent
  exact
    ne_modified_ite (fun _ => loopTick_ne_modified env _ hk) fun _ =>
    ne_modified_ite (fun _ => hk) fun _ =>
    ne_modified_ite (fun _ => hk) fun _ =>
    ne_modified_ite (fun _ => loopTick_ne_modified env _ hk) fun _ =>
    ne_modified_ite (fun _ => hk) fun _ =>
    ne_modified_ite (fun _ => hk) fun _ =>
    ne_modified_ite (fun _ => hk) fun _ =>
    ne_modified_ite (fun _ => hk) fun _ =>
    ne_modified_ite (fun _ => hk) fun _ =>
    hk

theorem runTransition_ne_modified (env : Env) (k : Controller)
    (hp : ∀ t, k.transition = some t → t.dst = "ready") (hk : k.current ≠ "modified") :
    (k.runTransition env).current ≠ "modified" := by
  unfold runTransition
  split
  · exact hk
  · rename_i t ht
    have hd := hp t ht
    apply afterEvent_ne_modified
    rw [hd]
    simp [enterState, onready]

theorem fireTimer_ne_modified (env : Env) (i : Nat) (k : Controller)
    (hp : ∀ t, k.transition = some t → t.dst = "ready") (hk : k.current ≠ "modified") :
    (k.fireTimer env i).current ≠ "modified" := by
  unfold fireTimer
  split
  · exact hk
  · rename_i t ht
    cases t with
    | gridGenerated =>
      apply runTransition_ne_modified
      · intro t htr
        apply hp t
        rw [← htr]
        simp only [bindEvents]
        exact ((setDefaultStartEndPos_control _).2).symm
      · simp only [bindEvents]
        rw [(setDefaultStartEndPos_control _).1]
        exact hk
    | restart => exact start_ne_modified env _ hk
    | reset => exact hk
    | tick => exact loopTick_ne_modified env _ hk

theorem mousedown_ne_modified (env : Env) (pageX pageY : Int) (k : Controller)
    (hk : k.current ≠ "modified") : (k.mousedown env pageX pageY).current ≠ "modified" := by
  unfold mousedown
  exact
    ne_modified_ite (fun _ => frame_ne_modified "dragStart" id id k (by decide) hk
      (fun _ => rfl) (fun _ => rfl)) fun _ =>
    ne_modified_ite (fun _ => frame_ne_modified "dragEnd" id id k (by decide) hk
      (fun _ => rfl) (fun _ => rfl)) fun _ =>
    ne_modified_ite (fun _ => frame_ne_modified "drawWall" id (ondrawWall _ _) k
      (by decide) hk (fun _ => rfl) (fun _ => rfl)) fun _ =>
    ne_modified_ite (fun _ => frame_ne_modified "eraseWall" id (oneraseWall _ _) k
      (by decide) hk (fun _ => rfl) (fun _ => rfl)) fun _ =>
    hk

theorem mouseup_ne_modified (k : Controller) (hk : k.current ≠ "modified") :
    k.mouseup.current ≠ "modified" := by
  unfold mouseup
  exact ne_modified_ite
    (fun _ => frame_ne_modified "rest" onready id k (by decide) hk
      (fun k => by simp [onready]) (fun _ => rfl))
    (fun _ => hk)

theorem click_ne_modified (env : Env) (i : Nat) (k : Controller)
    (hb : ∀ b ∈ k.buttons, b.callback ≠ some "modify") (hk : k.current ≠ "modified") :
    (k.click env i).current ≠ "modified" := by
  unfold click
  split
  · exact hk
  · rename_i b hget
    have hmem : b ∈ k.buttons := List.get?_mem hget
    split
    · split
      · rename_i name hname
        apply fire_ne_modified env name 0 0 k _ hk
        intro e
        exact hb b hmem (by rw [hname, e])
      · exact hk
    · exact hk

/-- What a session from `none` knows of a held-back transition and of the
buttons: the transition leads to `ready`, and no button carries `modify`. -/
theorem session_no_modify (c : Controller) (h : Initial c ∨ Bound c) :
    (∀ t, c.transition = some t → t.dst = "ready") ∧
    (∀ b ∈ c.buttons, b.callback ≠ some "modify") := by
  rcases h with hI | hB
  · obtain ⟨-, -, -, -, ⟨b1, b2, b3, hbs, c1, c2, c3⟩, ht⟩ := hI
    constructor
    · intro t h
      rcases ht with ⟨h0, -⟩ | ⟨h0 | h0, -⟩
      · rw [h0] at h; cases h
      · rw [h0] at h; cases h; rfl
      · rw [h0] at h; cases h; rfl
    · intro b hb
      rw [hbs] at hb
      simp only [List.mem_cons, List.mem_singleton, List.not_mem_nil, or_false] at hb
      rcases hb with rfl | rfl | rfl
      · rw [c1]; simp
      · rw [c2]; simp
      · rw [c3]; simp
  · obtain ⟨ht, -, -, b1, b2, b3, hbs, hfit⟩ := hB
    constructor
    · intro t h
      rw [ht] at h
      cases h
    · intro b hb e
      have hev : "modify" ∈ buttonEvents := by
        rw [hbs] at hb
        simp only [List.mem_cons, List.mem_singleton, List.not_mem_nil, or_false] at hb
        rcases hb with rfl | rfl | rfl
        · exact hfit.1 _ e
        · exact hfit.2.1 _ e
        · have := hfit.2.2.1
          rw [e] at this
          simp at this
      exact absurd hev (by decide)

theorem act_ne_modified (env : Env) (k : Controller) (a : Action)
    (h : Initial k ∨ Bound k) (ha : a.isModify = false) (hk : k.current ≠ "modified") :
    (k.act env a).current ≠ "modified" := by
  obtain ⟨hp, hb⟩ := session_no_modify k h
  cases a with
  | event name x y =>
    apply fire_ne_modified env name x y k _ hk
    simpa [Action.isModify] using ha
  | mousedown px py => exact mousedown_ne_modified env px py k hk
  | mousemove px py =>
    rw [act, mousemove_current]; exact hk
  | mouseup => exact mouseup_ne_modified k hk
  | click i => exact click_ne_modified env i k hb hk
  | timer i => exact fireTimer_ne_modified env i k hp hk

theorem run_ne_modified (env : Env) (as : List Action) (c : Controller)
    (has : ∀ a ∈ as, a.isModify = false) (h : Initial c ∨ Bound c)
    (hc : c.current ≠ "modified") : (c.run env as).current ≠ "modified" := by
  unfold run
  induction as generalizing c with
  | nil => exact hc
  | cons a as ih =>
    simp only [List.foldl_cons]
    exact ih _ (fun b hb => has b (List.mem_cons_of_mem _ hb))
      (act_bound env c a h)
      (act_ne_modified env c a h (has a (List.mem_cons_self _ _)) hc)

/-! ## Playback with two ticks armed -/

theorem loopTick_timers (env : Env) (k : Controller) (h1 : k.current = "searching")
    (h2 : k.transition = none) : (k.loopTick env).timers = k.timers ++ [Timer.tick] := by
  rw [loopTick_searching env k h1]
  show (k.step env).timers ++ [Timer.tick] = _
  congr 1
  cases hq : supported env k.operations with
  | nil =>
    have hq2 : ∀ o ∈ k.operations, env.supportedOperations.contains o.attr = false := by
      intro o ho
      have := (List.filter_eq_nil_iff.mp hq) o ho
      simpa using this
    rw [step_unsupported env k hq2]
    exact (finish_spec { k with operations := [] } h1 h2).2.2.2.2.1
  | cons op s =>
    obtain ⟨u, rest, hq3, hu, hop, -⟩ := List.filter_eq_cons_iff.mp hq
    have hu2 : ∀ o ∈ u, env.supportedOperations.contains o.attr = false := by
      intro o ho
      simpa using hu o ho
    rw [step, hq3, stepFrom_supported env u op rest k hu2 hop]
    rfl

theorem loopTick_of_ne (env : Env) (k : Controller) (h : k.current ≠ "searching") :
    k.loopTick env = k := by
  simp [loopTick, is, h]

theorem searchReturned_timers (env : Env) (c : Controller) :
    (searchReturned env c).timers = c.timers := by
  simp only [searchReturned, onsearching]
  rw [setButtonStates_eq]
  simp only
  rw [setButtonStates_eq]
  simp [clearFootprints, emit]

/-- A tick that fires during playback renders the next supported operation
and arms a tick, or finishes playback when none is left. -/
theorem loopTick_replaying (env : Env) (s : List Operation) (v f : List ViewCall)
    (k : Controller) (n : Nat)
    (hp : Playing env k (s.drop n) (v ++ (s.take n).map render) f)
    (ht : k.timers = [Timer.tick]) : Replaying env s v f (k.loopTick env) := by
  have htm := loopTick_timers env k hp.1 hp.2.1
  rw [ht] at htm
  by_cases hlt : n < s.length
  · have hd : s.drop n = s[n] :: s.drop (n + 1) := List.drop_eq_getElem_cons hlt
    rw [hd] at hp
    obtain ⟨hp2, -⟩ := loopTick_cons env k _ _ _ _ hp
    left
    refine ⟨n + 1, hlt, ?_, htm⟩
    have : (s.take (n + 1)).map render = (s.take n).map render ++ [render s[n]] := by
      rw [List.take_succ, List.getElem?_eq_getElem hlt, List.map_append]
      rfl
    rw [this, ← List.append_assoc]
    exact hp2
  · have hge : s.length ≤ n := Nat.le_of_not_lt hlt
    rw [List.drop_of_length_le hge, List.take_of_length_le hge] at hp
    right
    refine ⟨loopTick_nil env k _ _ hp, ?_⟩
    intro t h
    rw [htm] at h
    simpa using h

theorem fireTimer_replaying (env : Env) (s : List Operation) (v f : List ViewCall)
    (e : Controller) (i : Nat) (h : Replaying env s v f e) :
    Replaying env s v f (e.fireTimer env i) := by
  rcases h with ⟨n, hn, hp, ht⟩ | ⟨hd, ht⟩
  · have hk : ∀ ts : List Timer, ts = [Timer.tick] →
        Replaying env s v f (loopTick env { e with timers := ts }) := by
      intro ts hts
      exact loopTick_replaying env s v f _ n hp hts
    match i with
    | 0 =>
      have : e.fireTimer env 0 = loopTick env { e with timers := e.timers.eraseIdx 0 } := by
        simp [fireTimer, ht]
      rw [this]
      exact hk _ (by rw [ht]; rfl)
    | 1 =>
      have : e.fireTimer env 1 = loopTick env { e with timers := e.timers.eraseIdx 1 } := by
        simp [fireTimer, ht]
      rw [this]
      exact hk _ (by rw [ht]; rfl)
    | j + 2 =>
      have : e.fireTimer env (j + 2) = e := by
        simp [fireTimer, ht]
      rw [this]
      exact Or.inl ⟨n, hn, hp, ht⟩
  · right
    cases hget : e.timers.get? i with
    | none =>
      have : e.fireTimer env i = e := by
        simp only [List.get?_eq_getElem?] at hget
        simp [fireTimer, hget]
      rw [this]
      exact ⟨hd, ht⟩
    | some t =>
      have htk := ht t (List.get?_mem hget)
      subst htk
      have : e.fireTimer env i = loopTick env { e with timers := e.timers.eraseIdx i } := by
        simp only [List.get?_eq_getElem?] at hget
        simp [fireTimer, hget]
      have hne : ({ e with timers := e.timers.eraseIdx i } : Controller).current ≠
          "searching" := by
        show e.current ≠ "searching"
        rw [hd.1]
        decide
      rw [this, loopTick_of_ne env _ hne]
      exact ⟨hd, fun t h => ht t (List.mem_of_mem_eraseIdx h)⟩

theorem run_timers_replaying (env : Env) (s : List Operation) (v f : List ViewCall)
    (order : List Nat) (e : Controller) (h : Replaying env s v f e) :
    Replaying env s v f (e.run env (order.map Action.timer)) := by
  unfold run
  induction order generalizing e with
  | nil => exact h
  | cons i rest ih =>
    simp only [List.map_cons, List.foldl_cons]
    exact ih _ (fireTimer_replaying env s v f e i h)

/-! ## Reports of the pointer handlers -/

theorem mousedownR_fst (env : Env) (pageX pageY : Int) (c : Controller) :
    (c.mousedownR env pageX pageY).1 = c.mousedown env pageX pageY := by
  unfold mousedownR mousedown
  simp only
  split
  · rfl
  · split
    · rfl
    · split
      · rfl
      · split
        · rfl
        · rfl

theorem mousemoveR_fst (env : Env) (pageX pageY : Int) (c : Controller) :
    (c.mousemoveR env pageX pageY).1 = c.mousemove env pageX pageY := by
  unfold mousemoveR mousemove
  simp only
  repeat' split
  all_goals rfl

theorem mouseupR_fst (c : Controller) : c.mouseupR.1 = c.mouseup := by
  unfold mouseupR mouseup
  split <;> rfl

theorem rejection_of_can (c : Controller) (name : String) (h : c.can name = true) :
    c.rejection name = [] := by
  simp [rejection, h]

theorem rejection_of_not_can (c : Controller) (name : String) (h : c.can name = false) :
    c.rejection name = [.illegalTransition name c.current] := by
  simp [rejection, h]

theorem setWalkableAtR_not_illegal (c : Controller) (x y : Int) (w : Bool) :
    ∀ r ∈ (c.setWalkableAtR x y w).2, r.isIllegalTransition = false := by
  intro r hr
  simp only [setWalkableAtR] at hr
  split at hr
  · exact absurd hr (by simp)
  · simp only [List.mem_singleton] at hr
    rw [hr]
    rfl

/-- The reports of `mousedown`, branch by branch. -/
theorem mousedownR_snd (env : Env) (c : Controller) (pageX pageY gridX gridY : Int)
    (hxy : env.toGridCoordinate pageX pageY = (gridX, gridY)) :
    (c.mousedownR env pageX pageY).2 =
      if c.can "dragStart" = true ∧ c.isStartPos gridX gridY = true then []
      else if c.can "dragEnd" = true ∧ c.isEndPos gridX gridY = true then []
      else if c.can "drawWall" = true ∧ c.grid.isWalkableAt gridX gridY = true then []
      else if c.can "eraseWall" = true ∧ c.grid.isWalkableAt gridX gridY = false then
        (if c.grid.isInside gridX gridY then [] else [.writeOutside gridX gridY true])
      else [] := by
  unfold mousedownR
  simp only [hxy, Bool.and_eq_true, Bool.not_eq_true']
  split
  · rename_i h
    simp [dragStartR, rejection, h.1]
  · split
    · rename_i h
      simp [dragEndR, rejection, h.1]
    · split
      · rename_i h
        have hin : c.grid.isInside gridX gridY = true := by
          have := h.2
          simp only [Grid.isWalkableAt, Bool.and_eq_true] at this
          exact this.1
        simp [drawWallR, setWalkableAtR, h.1, hin]
      · split
        · rename_i h
          simp [eraseWallR, setWalkableAtR, h.1]
        · rfl

/-- The reports of `mousemove`: a write outside the grid in `drawingWall` and
`erasingWall`, nothing otherwise. -/
theorem mousemoveR_snd (env : Env) (c : Controller) (pageX pageY gridX gridY : Int)
    (hxy : env.toGridCoordinate pageX pageY = (gridX, gridY)) :
    (c.mousemoveR env pageX pageY).2 =
      if c.isStartOrEndPos gridX gridY = true then []
      else if c.current = "draggingStart" then []
      else if c.current = "draggingEnd" then []
      else if c.current = "drawingWall" then
        (if c.grid.isInside gridX gridY then [] else [.writeOutside gridX gridY false])
      else if c.current = "erasingWall" then
        (if c.grid.isInside gridX gridY then [] else [.writeOutside gridX gridY true])
      else [] := by
  unfold mousemoveR
  simp only [hxy]
  split
  · rfl
  · split
    · split <;> rfl
    · split
      · split <;> rfl
      · split
        · rfl
        · split
          · rfl
          · rfl

theorem mouseupR_snd (c : Controller) : c.mouseupR.2 = [] := by
  unfold mouseupR
  split
  · rename_i h
    simp [restR, rejection, h]
  · rfl

/-! ## Rejected events -/

theorem event_of_not_can (name : String) (enter after : Controller → Controller)
    (c : Controller) (h : c.can name = false) : c.buildEvent name enter after = c := by
  unfold buildEvent
  simp only [can, Bool.and_eq_false_iff, Bool.not_eq_false'] at h
  rcases h with h | h
  · simp [h]
  · split
    · rfl
    · have hd : StateMachine.destination name c.current = none := by
        cases hd : StateMachine.destination name c.current with
        | none => rfl
        | some d => rw [hd] at h; simp at h
      simp [hd]

/-! ## The grid objects during a search -/

theorem search_of_starting (env : Env) (c : Controller) (hc : c.current = "starting")
    (ht : c.transition = none) :
    c.search env = onsearch env (onsearching { c with current := "searching" }) := by
  have hd : StateMachine.destination "search" "starting" = some "searching" := by decide
  simp [search, buildEvent, ht, hd, hc]

theorem gridStore_clone_of_live (s : GridStore) (live : Nat) (g : Grid)
    (h : s.objects.get? live = some g) :
    s.clone live = ({ objects := s.objects ++ [g.clone] }, s.objects.length) ∧
    live < s.objects.length := by
  constructor
  · simp only [GridStore.clone, h]
  · rw [List.get?_eq_getElem?] at h
    exact (List.getElem?_eq_some_iff.mp h).1

/-! ## The state after an accepted event -/

theorem current_ite {p : Prop} [Decidable p] {a b : Controller} {d : String}
    (ha : p → a.current = d) (hb : ¬p → b.current = d) :
    (if p then a else b).current = d := by
  split
  · exact ha ‹_›
  · exact hb ‹_›

/-- An accepted event whose callbacks keep the current state leaves the
controller in its destination. -/
theorem buildEvent_current (name : String) (enter after : Controller → Controller)
    (c : Controller) (d : String) (ht : c.transition = none) (hn : c.current ≠ "none")
    (hd : StateMachine.destination name c.current = some d)
    (hE : ∀ k : Controller, (enter k).current = k.current)
    (hA : ∀ k : Controller, (after k).current = k.current) :
    (c.buildEvent name enter after).current = d := by
  unfold buildEvent
  simp only [ht, Option.isSome_none, Bool.false_eq_true, ↓reduceIte, hd, hn]
  split
  · rename_i h
    rw [hA]
    exact h
  · rw [hA, hE]

theorem destination_event (name s d : String)
    (h : StateMachine.destination name s = some d) : name ∈ Spec.eventNames := by
  unfold StateMachine.destination at h
  split at h
  · exact absurd h (by simp)
  · rename_i ev hev
    have hmem := List.mem_of_find?_eq_some hev
    have hp := List.find?_some hev
    simp only [beq_iff_eq] at hp
    rw [← hp]
    simp only [events, List.mem_cons, List.mem_singleton, List.not_mem_nil, or_false] at hmem
    rcases hmem with e | e | e | e | e | e | e | e | e | e | e | e | e | e | e | e <;>
      subst e <;> decide

/-- The state in which an accepted event other than `start`, `search` and
`resume`, fired outside `none`, leaves the controller. -/
theorem fire_current (env : Env) (name : String) (gridX gridY : Int) (c : Controller)
    (d : String) (ht : c.transition = none) (hn : c.current ≠ "none")
    (hd : StateMachine.destination name c.current = some d)
    (hcas : name ∉ ["start", "search", "resume"]) :
    (c.fire env name gridX gridY).current = d := by
  have hB : ∀ (opts : List ButtonOpt) (k : Controller),
      (k.setButtonStates opts).current = k.current := fun opts k => by simp
  simp only [List.mem_cons, List.mem_singleton, List.not_mem_nil, or_false, not_or] at hcas
  have hev := destination_event name c.current d hd
  unfold fire
  refine
    current_ite (fun h => buildEvent_current "init" onready id c d ht hn (h ▸ hd)
      (fun k => hB _ k) (fun _ => rfl)) fun n1 =>
    current_ite (fun h => absurd h hcas.2.1) fun n2 =>
    current_ite (fun h => buildEvent_current "pause" onpaused onpause c d ht hn (h ▸ hd)
      (fun k => hB _ k) (fun _ => rfl)) fun n3 =>
    current_ite (fun h => buildEvent_current "finish" onfinished onfinish c d ht hn (h ▸ hd)
      (fun k => hB _ k) (fun _ => rfl)) fun n4 =>
    current_ite (fun h => absurd h hcas.2.2) fun n5 =>
    current_ite (fun h => buildEvent_current "cancel" onready oncancel c d ht hn (h ▸ hd)
      (fun k => hB _ k) (fun _ => rfl)) fun n6 =>
    current_ite (fun h => buildEvent_current "modify" onmodified onmodify c d ht hn (h ▸ hd)
      (fun k => hB _ k) (fun _ => rfl)) fun n7 =>
    current_ite (fun h => buildEvent_current "reset" onready onreset c d ht hn (h ▸ hd)
      (fun k => hB _ k) (fun _ => rfl)) fun n8 =>
    current_ite (fun h => buildEvent_current "clear" onready onclear c d ht hn (h ▸ hd)
      (fun k => hB _ k) (fun _ => rfl)) fun n9 =>
    current_ite (fun h => absurd h hcas.1) fun n10 =>
    current_ite (fun h => buildEvent_current "restart" id onrestart c d ht hn (h ▸ hd)
      (fun _ => rfl) (fun _ => rfl)) fun n11 =>
    current_ite (fun h => buildEvent_current "dragStart" id id c d ht hn (h ▸ hd)
      (fun _ => rfl) (fun _ => rfl)) fun n12 =>
    current_ite (fun h => buildEvent_current "dragEnd" id id c d ht hn (h ▸ hd)
      (fun _ => rfl) (fun _ => rfl)) fun n13 =>
    current_ite (fun h => buildEvent_current "drawWall" id (ondrawWall gridX gridY) c d ht hn
      (h ▸ hd) (fun _ => rfl) (fun _ => rfl)) fun n14 =>
    current_ite (fun h => buildEvent_current "eraseWall" id (oneraseWall gridX gridY) c d ht hn
      (h ▸ hd) (fun _ => rfl) (fun _ => rfl)) fun n15 =>
    current_ite (fun h => buildEvent_current "rest" onready id c d ht hn (h ▸ hd)
      (fun k => hB _ k) (fun _ => rfl)) fun n16 => ?_
  exfalso
  simp only [Spec.eventNames, List.mem_cons, List.mem_singleton, List.not_mem_nil,
    or_false] at hev
  rcases hev with h | h | h | h | h | h | h | h | h | h | h | h | h | h | h | h
  · exact n1 h
  · exact hcas.1 h
  · exact hcas.2.1 h
  · exact n3 h
  · exact hcas.2.2 h
  · exact n6 h
  · exact n4 h
  · exact n11 h
  · exact n7 h
  · exact n8 h
  · exact n9 h
  · exact n12 h
  · exact n13 h
  · exact n14 h
  · exact n15 h
  · exact n16 h

/-- The state after the tick that `loop` runs at once. -/
theorem loopTick_current (env : Env) (k : Controller) (h1 : k.current = "searching")
    (h2 : k.transition = none) :
    (k.loopTick env).current =
      if (supported env k.operations).isEmpty then "finished" else "searching" := by
  have hp : Playing env k (supported env k.operations) k.view (finishCalls k) :=
    ⟨h1, h2, rfl, rfl, rfl⟩
  cases hs : supported env k.operations with
  | nil =>
    rw [hs] at hp
    exact (loopTick_nil env k _ _ hp).1
  | cons op s =>
    rw [hs] at hp
    exact (loopTick_cons env k op s _ _ hp).1.1

/-- What `resume` does where it is accepted. -/
theorem resume_current (env : Env) (c : Controller) (h1 : c.current = "paused")
    (h2 : c.transition = none) :
    c.resume env = loop env (onsearching { c with current := "searching" }) ∧
    (c.resume env).current =
      if (supported env c.operations).isEmpty then "finished" else "searching" := by
  have e : c.resume env = loop env (onsearching { c with current := "searching" }) := by
    rw [resume_of_paused env c h1 h2]
    rfl
  refine ⟨e, ?_⟩
  rw [e, loop, loopTick_current env _ (by simp [onsearching]) (by simp [onsearching, h2])]
  simp [onsearching]

/-- What `search` does where it is accepted. -/
theorem search_current (env : Env) (c : Controller) (h1 : c.current = "starting")
    (h2 : c.transition = none) :
    c.search env = onsearch env (onsearching { c with current := "searching" }) ∧
    (c.search env).current =
      if (supported env (c.operations ++
          (env.findPath c.startX c.startY c.endX c.endY c.grid.clone).2)).isEmpty
      then "finished" else "searching" := by
  have e := search_of_starting env c h1 h2
  refine ⟨e, ?_⟩
  rw [e, onsearch, loop, loopTick_current env _ (by simp [onsearching])
    (by simp [onsearching, h2])]
  simp [onsearching]

/-- What `start` does where it is accepted. -/
theorem start_current (env : Env) (c : Controller)
    (h1 : c.current = "ready" ∨ c.current = "modified" ∨ c.current = "restarting")
    (h2 : c.transition = none) :
    c.start env = onstarting env { c with current := "starting" } ∧
    (c.start env).current =
      if (supported env (c.operations ++
          (env.findPath c.startX c.startY c.endX c.endY c.grid.clone).2)).isEmpty
      then "finished" else "searching" := by
  obtain ⟨e1, e2⟩ := start_eq env c h1 h2
  obtain ⟨s1, s2, s3, -⟩ := searchReturned_spec env c h2
  refine ⟨e1, ?_⟩
  rw [e1, e2, loop, loopTick_current env _ s1 s2, s3]

/-- An event accepted in `none` is held back until the grid is generated. -/
theorem fire_from_none (env : Env) (name : String) (gridX gridY : Int) (c : Controller)
    (d : String) (ht : c.transition = none) (hc : c.current = "none")
    (hd : StateMachine.destination name "none" = some d) :
    (c.fire env name gridX gridY).current = "none" ∧
    (c.fire env name gridX gridY).transition = some { name := name, dst := d } ∧
    (c.fire env name gridX gridY).timers = c.timers ++ [Timer.gridGenerated] ∧
    ((c.fire env name gridX gridY).fireTimer env c.timers.length).current = d := by
  obtain ⟨rfl, hname⟩ := destination_from_none name d hd
  have hne : ("none" : String) ≠ "ready" := by decide
  have key : ∀ (enter after : Controller → Controller),
      c.buildEvent name enter after =
        { c.onleavenone with transition := some { name := name, dst := "ready" } } := by
    intro enter after
    simp [buildEvent, ht, hc, hd]
  have hfire : c.fire env name gridX gridY =
      { c.onleavenone with transition := some { name := name, dst := "ready" } } := by
    rcases hname with rfl | rfl
    · show c.init = _
      exact key _ _
    · show c.reset = _
      exact key _ _
  have htimers : ({ c.onleavenone with
      transition := some { name := name, dst := "ready" } } : Controller).timers =
      c.timers ++ [Timer.gridGenerated] := by
    simp [onleavenone, hookPathFinding, emit, setTimeout]
  rw [hfire]
  refine ⟨by simp [onleavenone, hookPathFinding, emit, setTimeout, hc], rfl, htimers, ?_⟩
  have hget : ({ c.onleavenone with
      transition := some { name := name, dst := "ready" } } : Controller).timers[c.timers.length]?
      = some Timer.gridGenerated := by
    rw [htimers]
    simp
  have hB : ∀ (opts : List ButtonOpt) (k : Controller),
      (k.setButtonStates opts).current = k.current := fun opts k => by simp
  simp only [fireTimer, List.get?_eq_getElem?, hget, gridGenerated, bindEvents, runTransition]
  rw [(setDefaultStartEndPos_control _).2]
  simp only
  rcases hname with rfl | rfl
  · simp [afterEvent, enterState, onready]
  · simp [afterEvent, enterState, onready, onreset, setTimeout]

/-! ## Properties of the specification -/

/-- C1 (amended): every one of the sixteen events is accepted in one of the
twelve states exactly when the state is in the event's from-set of the
specification's table (`reset`: every state).  An event accepted in a state
other than `none` enters the table's to-state.  For every event other than
`start`, `search` and `resume` the controller is in the to-state when the
call returns.  `start`, `search` and `resume` run their callbacks in the
to-state (`onstarting`, which fires `search`; `onsearch` and `onresume`, which
run the first playback tick), so that the controller is in `searching` when
the call returns, or in `finished` when no supported operation is queued.  An
event accepted in `none` (`init`, `reset`) is held back: the controller stays
in `none` until the grid callback runs, and is then in the to-state. -/
theorem C1_transition_table (env : Env) (gridX gridY : Int) :
    ∀ e ∈ Spec.eventNames, ∀ s ∈ Spec.stateNames,
      (∀ c : Controller, c.current = s → c.transition = none →
        (c.can e = true ↔ Spec.legal e s = true)) ∧
      (Spec.legal e s = true →
        ∃ d, Spec.dest e = some d ∧ StateMachine.destination e s = some d ∧
          ∀ c : Controller, c.current = s → c.transition = none →
            (s ≠ "none" → e ∉ ["start", "search", "resume"] →
              (c.fire env e gridX gridY).current = d) ∧
            (s ≠ "none" → e = "start" →
              c.fire env e gridX gridY = onstarting env { c with current := d } ∧
              (c.fire env e gridX gridY).current =
                if (supported env (c.operations ++
                    (env.findPath c.startX c.startY c.endX c.endY c.grid.clone).2)).isEmpty
                then "finished" else "searching") ∧
            (s ≠ "none" → e = "search" →
              c.fire env e gridX gridY = onsearch env (onsearching { c with current := d }) ∧
              (c.fire env e gridX gridY).current =
                if (supported env (c.operations ++
                    (env.findPath c.startX c.startY c.endX c.endY c.grid.clone).2)).isEmpty
                then "finished" else "searching") ∧
            (s ≠ "none" → e = "resume" →
              c.fire env e gridX gridY =
                onresume env (onsearching { c with current := d }) ∧
              (c.fire env e gridX gridY).current =
                if (supported env c.operations).isEmpty then "finished" else "searching") ∧
            (s = "none" →
              (c.fire env e gridX gridY).current = "none" ∧
              (c.fire env e gridX gridY).transition = some { name := e, dst := d } ∧
              (c.fire env e gridX gridY).timers = c.timers ++ [Timer.gridGenerated] ∧
              ((c.fire env e gridX gridY).fireTimer env c.timers.length).current = d)) := by
  intro e he s hs
  obtain ⟨h1, h2⟩ := table_agrees e he s hs
  refine ⟨?_, ?_⟩
  · intro c hc ht
    rw [can_eq, ht, hc, h1]
    simp
  · intro hl
    have h3 := h2 hl
    rw [← h1] at hl
    obtain ⟨d, hd⟩ := Option.isSome_iff_exists.mp hl
    refine ⟨d, ?_, hd, ?_⟩
    · rw [← h3, hd]
    · intro c hc ht
      have hdc : StateMachine.destination e c.current = some d := by rw [hc]; exact hd
      refine ⟨?_, ?_, ?_, ?_, ?_⟩
      · intro hn hcas
        exact fire_current env e gridX gridY c d ht (by rw [hc]; exact hn) hdc hcas
      · intro _ hes
        subst hes
        have hd2 := hdc
        simp [StateMachine.destination, events, WILDCARD] at hd2
        obtain ⟨hst, rfl⟩ := hd2
        exact start_current env c hst ht
      · intro _ hes
        subst hes
        have hd2 := hdc
        simp [StateMachine.destination, events, WILDCARD] at hd2
        obtain ⟨hst, rfl⟩ := hd2
        exact search_current env c hst ht
      · intro _ hes
        subst hes
        have hd2 := hdc
        simp [StateMachine.destination, events, WILDCARD] at hd2
        obtain ⟨hst, rfl⟩ := hd2
        obtain ⟨r1, r2⟩ := resume_current env c hst ht
        exact ⟨r1, r2⟩
      · intro hsn
        subst hsn
        exact fire_from_none env e gridX gridY c d ht hc hd

/-- C1 at the event `pause` and the state `searching`, on the session
`Sample.searching`. -/
theorem C1_transition_table_witness :
    "pause" ∈ Spec.eventNames ∧ "searching" ∈ Spec.stateNames ∧
      Spec.legal "pause" "searching" = true ∧
      Sample.searching.current = "searching" ∧ Sample.searching.transition = none ∧
      (Sample.searching.fire Sample.env "pause" 0 0).current = "paused" := by
  obtain ⟨d, hd, -, h⟩ := (C1_transition_table Sample.env 0 0 "pause" (by decide)
    "searching" (by decide)).2 (by decide)
  have hd2 : d = "paused" := by
    have : Spec.dest "pause" = some "paused" := by decide
    rw [this] at hd
    exact (Option.some.inj hd).symm
  subst hd2
  exact ⟨by decide, by decide, by decide, by decide, by decide,
    (h Sample.searching (by decide) (by decide)).1 (by decide) (by decide)⟩

/-- C1 as stated fails: `init` is legal in `none` with to-state `ready`, but
fired on the freshly created controller it leaves the controller in `none`,
the transition being held back; and `start` is legal in `ready` with to-state
`starting`, but when the call returns the controller of `Sample.ready` is in
`searching`. -/
theorem C1_transition_table_counterexample :
    Spec.legal "init" "none" = true ∧ Spec.dest "init" = some "ready" ∧
      Controller.create.current = "none" ∧ Controller.create.transition = none ∧
      (Controller.create.fire Sample.env "init" 0 0).current = "none" ∧
      (Controller.create.fire Sample.env "init" 0 0).transition =
        some { name := "init", dst := "ready" } ∧
      Spec.legal "start" "ready" = true ∧ Spec.dest "start" = some "starting" ∧
      Sample.ready.current = "ready" ∧ Sample.ready.transition = none ∧
      (Sample.ready.fire Sample.env "start" 0 0).current = "searching" := by
  refine ⟨by decide, by decide, by decide, by decide, by decide, by decide, by decide,
    by decide, by decide, by decide, by decide⟩

/-- C2: an event fired in a state that is not in its from-set (and whose
from-set is not the wildcard) is rejected and leaves the whole controller as
it was: current state, operation queue, grid and start/end positions
included. -/
theorem C2_illegal_event_is_noop (env : Env) (gridX gridY : Int) (c : Controller) :
    ∀ ev ∈ events, c.current ∉ ev.src → WILDCARD ∉ ev.src →
      c.fire env ev.name gridX gridY = c := by
  intro ev hev hs hw
  have hd := destination_none_of_not_listed ev hev c.current hs hw
  simp only [events, List.mem_cons, List.mem_singleton, List.not_mem_nil, or_false] at hev
  rcases hev with h | h | h | h | h | h | h | h | h | h | h | h | h | h | h | h <;>
    subst h <;>
    simp [fire, init, search, pause, finish, resume, cancel, modify, reset, clear, start,
      restart, dragStart, dragEnd, drawWall, eraseWall, rest] <;>
    exact buildEvent_rejected _ _ _ c hd

/-- C2 at the event `pause` fired in the state `ready`. -/
theorem C2_illegal_event_is_noop_witness :
    Sample.ready.current = "ready" ∧
      Sample.ready.fire Sample.env "pause" 0 0 = Sample.ready :=
  ⟨by decide,
   C2_illegal_event_is_noop Sample.env 0 0 Sample.ready
     { name := "pause", src := ["searching"], dst := "paused" }
     (by decide) (by decide) (by decide)⟩

/-- C3: whatever events are fired from `ready`, accepted or rejected, the
current state after every prefix of the sequence is one of the twelve
enumerated states; and from each of the twelve states (nothing held back) some
sequence of actions leads to `ready`. -/
theorem C3_states_enumerated (env : Env) (c : Controller) (hr : c.current = "ready")
    (ht : c.transition = none) (es : List (String × Int × Int)) :
    (∀ n, (c.fireAll env (es.take n)).current ∈ Spec.stateNames) ∧
    (∀ k : Controller, k.current ∈ Spec.stateNames → k.transition = none →
      ∃ as : List Action, (k.run env as).current = "ready") := by
  refine ⟨fun n => ?_, fun k hk hkt => ready_reachable env k hk hkt⟩
  have hs : Settled c := ⟨ht, by rw [hr]; decide⟩
  have := (fireAll_settled env (es.take n) c hs).2
  exact List.mem_cons_of_mem _ this

/-- C3 at the session `Sample.ready` and the events `start`, `pause`,
`finish`, `resume`. -/
theorem C3_states_enumerated_witness :
    Sample.ready.current = "ready" ∧ Sample.ready.transition = none ∧
      (Sample.ready.fireAll Sample.env
        [("start", 0, 0), ("pause", 0, 0), ("finish", 0, 0), ("resume", 0, 0)]).current
        ∈ Spec.stateNames :=
  ⟨by decide, by decide,
   (C3_states_enumerated Sample.env Sample.ready (by decide) (by decide)
     [("start", 0, 0), ("pause", 0, 0), ("finish", 0, 0), ("resume", 0, 0)]).1 4⟩

/-- C4: from a searching controller with a playback tick scheduled, the
ticks render exactly the supported operations of the queue, each once and in
queue order: after `n` ticks, `n` at most their number, the controller is
still searching and has rendered the first `n` of them; every later tick
finds the controller finished with an empty queue, the trace being the
renders of all supported operations followed by the two calls of `onfinish`.
When every queued operation is supported these are all the operations. -/
theorem C4_replay (env : Env) (c : Controller) (h1 : c.current = "searching")
    (h2 : c.transition = none) (h3 : Timer.tick ∈ c.timers) :
    (∀ n, n ≤ (supported env c.operations).length →
      (c.playTicks env n).current = "searching" ∧
      (c.playTicks env n).view = c.view ++ ((supported env c.operations).take n).map render) ∧
    (∀ m, (supported env c.operations).length < m →
      (c.playTicks env m).current = "finished" ∧ (c.playTicks env m).operations = [] ∧
      (c.playTicks env m).view =
        c.view ++ (supported env c.operations).map render ++
          [.showStats c.path c.timeSpent c.operationCount, .drawPath c.path]) ∧
    ((∀ op ∈ c.operations, env.supportedOperations.contains op.attr = true) →
      supported env c.operations = c.operations) := by
  have hp : Playing env c (supported env c.operations) c.view (finishCalls c) :=
    ⟨h1, h2, rfl, rfl, rfl⟩
  refine ⟨fun n hn => ?_, fun m hm => ?_, fun hall => ?_⟩
  · obtain ⟨⟨e1, -, -, e4, -⟩, -⟩ := (playTicks_playing env n c _ _ _ hp h3).1 hn
    exact ⟨e1, e4⟩
  · obtain ⟨e1, e2, e3⟩ := (playTicks_playing env m c _ _ _ hp h3).2 hm
    exact ⟨e1, e2, e3⟩
  · exact List.filter_eq_self.mpr hall

/-- C4 at the session `Sample.searching`, whose queue holds one unsupported
and two supported operations. -/
theorem C4_replay_witness :
    Sample.searching.current = "searching" ∧ Sample.searching.transition = none ∧
      Timer.tick ∈ Sample.searching.timers ∧
      (Sample.searching.playTicks Sample.env 3).current = "finished" ∧
      (Sample.searching.playTicks Sample.env 3).operations = [] :=
  ⟨by decide, by decide, by decide,
   ((C4_replay Sample.env Sample.searching (by decide) (by decide) (by decide)).2.1 3
      (by decide)).1,
   ((C4_replay Sample.env Sample.searching (by decide) (by decide) (by decide)).2.1 3
      (by decide)).2.1⟩

/-- C5 (amended): after `K` playback ticks, `K` at most the number of
operations of the queue that the view renders, `pause` leaves the queue and
the trace as they are; `resume` and the ticks that follow render exactly the
supported operations not yet rendered, none of the first `K` again, and
finish; the full trace equals the trace of the run that was never paused. -/
theorem C5_pause_resume (env : Env) (c : Controller) (h1 : c.current = "searching")
    (h2 : c.transition = none) (h3 : Timer.tick ∈ c.timers) (K : Nat)
    (hK : K ≤ (supported env c.operations).length) :
    (c.playTicks env K).view = c.view ++ ((supported env c.operations).take K).map render ∧
    ((c.playTicks env K).pause).current = "paused" ∧
    ((c.playTicks env K).pause).operations = (c.playTicks env K).operations ∧
    ((c.playTicks env K).pause).view = (c.playTicks env K).view ∧
    ∀ m, (supported env c.operations).length - K ≤ m →
      ((((c.playTicks env K).pause).resume env).playTicks env m).current = "finished" ∧
      ((((c.playTicks env K).pause).resume env).playTicks env m).operations = [] ∧
      ((((c.playTicks env K).pause).resume env).playTicks env m).view =
        (c.playTicks env K).view ++ ((supported env c.operations).drop K).map render ++
          [.showStats c.path c.timeSpent c.operationCount, .drawPath c.path] ∧
      ((((c.playTicks env K).pause).resume env).playTicks env m).view =
        (c.playTicks env ((supported env c.operations).length + 1)).view := by
  have hp : Playing env c (supported env c.operations) c.view (finishCalls c) :=
    ⟨h1, h2, rfl, rfl, rfl⟩
  obtain ⟨⟨e1, e2, e3, e4, e5⟩, -⟩ := (playTicks_playing env K c _ _ _ hp h3).1 hK
  obtain ⟨p1, p2, p3, p4, -, p6⟩ := pause_spec (c.playTicks env K) e1 e2
  refine ⟨e4, p1, p3, p4, fun m hm => ?_⟩
  obtain ⟨d, hd, hres⟩ := resume_playing env ((c.playTicks env K).pause)
    ((supported env c.operations).drop K) (c.playTicks env K).view (finishCalls c)
    p1 p2 (by rw [p3]; exact e3) p4 (by rw [p6]; exact e5)
  obtain ⟨-, -, u3⟩ := (playTicks_playing env ((supported env c.operations).length + 1) c _ _ _
    hp h3).2 (Nat.lt_succ_self _)
  have key : Done ((((c.playTicks env K).pause).resume env).playTicks env m)
      ((c.playTicks env K).view ++ ((supported env c.operations).drop K).map render)
      (finishCalls c) := by
    rw [hres]
    cases hs : (supported env c.operations).drop K with
    | nil =>
      rw [hs] at hd
      have := loopTick_nil env d _ _ hd
      simpa using playTicks_done env m _ _ _ this
    | cons op s =>
      rw [hs] at hd
      obtain ⟨hp2, hm2⟩ := loopTick_cons env d op s _ _ hd
      have hlen : s.length < m := by
        have : ((supported env c.operations).drop K).length = s.length + 1 := by rw [hs]; rfl
        rw [List.length_drop] at this
        omega
      have := (playTicks_playing env m _ s _ _ hp2 hm2).2 hlen
      simpa using this
  obtain ⟨k1, k2, k3⟩ := key
  refine ⟨k1, k2, k3, ?_⟩
  rw [k3, u3, e4]
  simp only [List.append_assoc, List.append_cancel_left_eq]
  rw [← List.append_assoc, ← List.map_append, List.take_append_drop]

/-- C5 at the session `Sample.searching`, paused after one tick. -/
theorem C5_pause_resume_witness :
    Sample.searching.current = "searching" ∧ Sample.searching.transition = none ∧
      Timer.tick ∈ Sample.searching.timers ∧
      1 ≤ (supported Sample.env Sample.searching.operations).length ∧
      ((Sample.searching.playTicks Sample.env 1).pause).operations =
        (Sample.searching.playTicks Sample.env 1).operations :=
  ⟨by decide, by decide, by decide, by decide,
   (C5_pause_resume Sample.env Sample.searching (by decide) (by decide) (by decide) 1
      (by decide)).2.2.1⟩

/-- C5 as stated fails on a queue that holds an operation the view does not
render: `Sample.mixed` is searching with `N = 3` operations queued.  One tick
drains `K = 1` of them.  After `pause` and `resume`, playback to completion
renders one operation, the `closed` one, and not the `N - K = 2` that were
left in the queue: the `tested` one is dropped without being rendered. -/
theorem C5_pause_resume_counterexample :
    Sample.mixed.current = "searching" ∧ Sample.mixed.operations.length = 3 ∧
    (Sample.mixed.playTicks Sample.partialEnv 1).operations.length = 2 ∧
    (Sample.mixed.playTicks Sample.partialEnv 1).view =
      Sample.mixed.view ++ [.setAttributeAt 3 5 "opened" true] ∧
    ((Sample.mixed.playTicks Sample.partialEnv 1).pause).operations.length = 2 ∧
    (((((Sample.mixed.playTicks Sample.partialEnv 1).pause).resume
        Sample.partialEnv).playTicks Sample.partialEnv 3).current = "finished") ∧
    ((((Sample.mixed.playTicks Sample.partialEnv 1).pause).resume
        Sample.partialEnv).playTicks Sample.partialEnv 3).view =
      (Sample.mixed.playTicks Sample.partialEnv 1).view ++
        [.setAttributeAt 3 5 "closed" true] ++
        [.showStats (some [(3, 4), (3, 5)]) (some "0.1000") (some 4),
         .drawPath (some [(3, 4), (3, 5)])] := by
  refine ⟨by decide, by decide, by decide, by decide, by decide, by decide, by decide⟩

/-- C6: one call of `step` in `searching`.  If the queue is `u ++ op :: rest`
with `u` unsupported and `op` supported, the queue becomes `rest`, exactly the
render call of `op` is added to the trace and the state stays `searching`.  If
no queued operation is supported (the queue may be empty), the queue becomes
empty, `finish` fires (state `finished`) and only the two calls of `onfinish`
are added to the trace.  Hence `finish` is the only event leading to
`finished`, and whatever else happens to a controller that is not finished
(any other event, a pointer handler, a button bound to another event, a
scheduled callback), if it ends finished then its queue is empty. -/
theorem C6_step (env : Env) (c : Controller) (h1 : c.current = "searching")
    (h2 : c.transition = none) :
    (∀ u op rest, c.operations = u ++ op :: rest →
      (∀ o ∈ u, env.supportedOperations.contains o.attr = false) →
      env.supportedOperations.contains op.attr = true →
      (c.step env).operations = rest ∧
      (c.step env).view = c.view ++ [.setAttributeAt op.x op.y op.attr op.value] ∧
      (c.step env).current = "searching") ∧
    ((∀ o ∈ c.operations, env.supportedOperations.contains o.attr = false) →
      (c.step env).operations = [] ∧ (c.step env).current = "finished" ∧
      (c.step env).view =
        c.view ++ [.showStats c.path c.timeSpent c.operationCount, .drawPath c.path]) ∧
    (∀ ev ∈ events, ev.dst = "finished" → ev.name = "finish") ∧
    (∀ (k : Controller) (a : Action),
      (∀ t, k.transition = some t → t.dst = "ready") →
      (∀ b ∈ k.buttons, b.callback ≠ some "finish") →
      (∀ x y, a ≠ .event "finish" x y) →
      k.current ≠ "finished" → (k.act env a).current = "finished" →
      (k.act env a).operations = []) := by
  refine ⟨fun u op rest hq hu hop => ?_, fun hq => ?_, by decide,
    fun k a hp hb ha hk hf => act_emptyIfFinished env k a hp hb ha hk hf⟩
  · rw [step, hq, stepFrom_supported env u op rest c hu hop]
    exact ⟨rfl, rfl, h1⟩
  · rw [step_unsupported env c hq]
    obtain ⟨e1, -, e3, e4, -, -⟩ := finish_spec { c with operations := [] } h1 h2
    exact ⟨e3, e1, e4⟩

/-- C6 at the session `Sample.searching`, whose queue starts with an
unsupported operation followed by a supported one. -/
theorem C6_step_witness :
    Sample.searching.current = "searching" ∧ Sample.searching.transition = none ∧
      (Sample.searching.step Sample.env).operations =
        [{ x := 3, y := 4, attr := "closed", value := true }] :=
  ⟨by decide, by decide,
   ((C6_step Sample.env Sample.searching (by decide) (by decide)).1
      [{ x := 3, y := 5, attr := "parent", value := true }]
      { x := 3, y := 5, attr := "opened", value := true }
      [{ x := 3, y := 4, attr := "closed", value := true }]
      (by decide) (by decide) (by decide)).1⟩

/-- C7: outside `searching` a playback tick does nothing: the tick body and
`loop()` return the controller as it is, no further tick is scheduled, and a
scheduled tick that runs only leaves the list of scheduled callbacks. -/
theorem C7_tick_outside_searching (env : Env) (c : Controller)
    (h : c.current ≠ "searching") :
    c.loopTick env = c ∧ c.loop env = c ∧
    (c.playTick env).operations = c.operations ∧
    (c.playTick env).current = c.current ∧
    (c.playTick env).view = c.view ∧
    (c.playTick env).timers = c.timers.erase Timer.tick := by
  have hl : ∀ k : Controller, k.current = c.current → k.loopTick env = k := by
    intro k hk
    simp [loopTick, is, hk, h]
  refine ⟨hl c rfl, hl c rfl, ?_⟩
  by_cases hm : Timer.tick ∈ c.timers
  · rw [playTick_of_mem env c hm, hl { c with timers := c.timers.erase Timer.tick } rfl]
    exact ⟨rfl, rfl, rfl, rfl⟩
  · rw [playTick_of_not_mem env c hm, List.erase_of_not_mem hm]
    exact ⟨rfl, rfl, rfl, rfl⟩

/-- C7 at the session `Sample.searching` after `pause`. -/
theorem C7_tick_outside_searching_witness :
    Sample.searching.pause.current ≠ "searching" ∧
      Sample.searching.pause.loopTick Sample.env = Sample.searching.pause :=
  ⟨by decide, (C7_tick_outside_searching Sample.env Sample.searching.pause (by decide)).1⟩

/-- C8 (amended): `mousedown` at the cell `(gridX, gridY)` takes the first of
four branches whose condition holds.  (1) The cell is the start position and
`dragStart` can fire: state `draggingStart`, grid unchanged.  (2) Otherwise,
the cell is the end position and `dragEnd` can fire: state `draggingEnd`, grid
unchanged.  (3) Otherwise, the cell is walkable and `drawWall` can fire: state
`drawingWall` and the cell is blocked.  (4) Otherwise, the cell is not
walkable and `eraseWall` can fire: state `erasingWall`, and the cell is
walkable afterwards when it lies inside the grid.  In a state other than
`ready` and `finished` the controller is left as it was. -/
theorem C8_mousedown_dispatch (env : Env) (c : Controller) (pageX pageY gridX gridY : Int)
    (hxy : env.toGridCoordinate pageX pageY = (gridX, gridY)) :
    (c.can "dragStart" = true ∧ c.isStartPos gridX gridY = true →
      (c.mousedown env pageX pageY).current = "draggingStart" ∧
      (c.mousedown env pageX pageY).grid = c.grid) ∧
    (¬(c.can "dragStart" = true ∧ c.isStartPos gridX gridY = true) →
      c.can "dragEnd" = true ∧ c.isEndPos gridX gridY = true →
      (c.mousedown env pageX pageY).current = "draggingEnd" ∧
      (c.mousedown env pageX pageY).grid = c.grid) ∧
    (¬(c.can "dragStart" = true ∧ c.isStartPos gridX gridY = true) →
      ¬(c.can "dragEnd" = true ∧ c.isEndPos gridX gridY = true) →
      c.can "drawWall" = true ∧ c.grid.isWalkableAt gridX gridY = true →
      (c.mousedown env pageX pageY).current = "drawingWall" ∧
      (c.mousedown env pageX pageY).grid.isWalkableAt gridX gridY = false) ∧
    (¬(c.can "dragStart" = true ∧ c.isStartPos gridX gridY = true) →
      ¬(c.can "dragEnd" = true ∧ c.isEndPos gridX gridY = true) →
      ¬(c.can "drawWall" = true ∧ c.grid.isWalkableAt gridX gridY = true) →
      c.can "eraseWall" = true ∧ c.grid.isWalkableAt gridX gridY = false →
      (c.mousedown env pageX pageY).current = "erasingWall" ∧
      (c.grid.isInside gridX gridY = true →
        (c.mousedown env pageX pageY).grid.isWalkableAt gridX gridY = true)) ∧
    (c.current ≠ "ready" → c.current ≠ "finished" → c.mousedown env pageX pageY = c) := by
  obtain ⟨k1, k2, k3, k4⟩ := can_edit_iff c
  refine ⟨fun h1 => ?_, fun n1 h2 => ?_, fun n1 n2 h3 => ?_, fun n1 n2 n3 h4 => ?_,
    fun hr hf => ?_⟩
  · obtain ⟨ht, hs⟩ := k1.mp h1.1
    have he := edit_event_of_can "dragStart" "draggingStart" id c ht hs (by decide) (by decide)
      (by decide) (by decide)
    have : c.mousedown env pageX pageY = c.dragStart := by
      simp only [mousedown, hxy, h1.1, h1.2, Bool.and_self, ↓reduceIte]
    rw [this, dragStart, he]
    exact ⟨rfl, rfl⟩
  · obtain ⟨ht, hs⟩ := k2.mp h2.1
    have he := edit_event_of_can "dragEnd" "draggingEnd" id c ht hs (by decide) (by decide)
      (by decide) (by decide)
    have : c.mousedown env pageX pageY = c.dragEnd := by
      have n1b : (c.can "dragStart" && c.isStartPos gridX gridY) = false := by
        simpa using n1
      simp only [mousedown, hxy, n1b, h2.1, h2.2, Bool.and_self, ↓reduceIte,
        Bool.false_eq_true]
    rw [this, dragEnd, he]
    exact ⟨rfl, rfl⟩
  · obtain ⟨ht, hs⟩ := k3.mp h3.1
    have he := edit_event_of_can "drawWall" "drawingWall" (ondrawWall gridX gridY) c ht hs
      (by decide) (by decide) (by decide) (by decide)
    have : c.mousedown env pageX pageY = c.drawWall gridX gridY := by
      have n1b : (c.can "dragStart" && c.isStartPos gridX gridY) = false := by
        simpa using n1
      have n2b : (c.can "dragEnd" && c.isEndPos gridX gridY) = false := by
        simpa using n2
      simp only [mousedown, hxy, n1b, n2b, h3.1, h3.2, Bool.and_self, ↓reduceIte,
        Bool.false_eq_true]
    rw [this, drawWall, he]
    refine ⟨rfl, ?_⟩
    show (c.grid.setWalkableAt gridX gridY false).isWalkableAt gridX gridY = false
    rw [grid_isWalkableAt_setWalkableAt]
    simp
  · obtain ⟨ht, hs⟩ := k4.mp h4.1
    have he := edit_event_of_can "eraseWall" "erasingWall" (oneraseWall gridX gridY) c ht hs
      (by decide) (by decide) (by decide) (by decide)
    have : c.mousedown env pageX pageY = c.eraseWall gridX gridY := by
      have n1b : (c.can "dragStart" && c.isStartPos gridX gridY) = false := by
        simpa using n1
      have n2b : (c.can "dragEnd" && c.isEndPos gridX gridY) = false := by
        simpa using n2
      have n3b : (c.can "drawWall" && c.grid.isWalkableAt gridX gridY) = false := by
        simpa using n3
      simp only [mousedown, hxy, n1b, n2b, n3b, h4.1, h4.2, Bool.and_self, ↓reduceIte,
        Bool.false_eq_true, Bool.not_false, Bool.and_false]
    rw [this, eraseWall, he]
    refine ⟨rfl, fun hin => ?_⟩
    show (c.grid.setWalkableAt gridX gridY true).isWalkableAt gridX gridY = true
    rw [grid_isWalkableAt_setWalkableAt, hin]
    rfl
  · have c1 : c.can "dragStart" = false := by
      cases h : c.can "dragStart"
      · rfl
      · exact absurd (k1.mp h).2 (by simp [hr, hf])
    have c2 : c.can "dragEnd" = false := by
      cases h : c.can "dragEnd"
      · rfl
      · exact absurd (k2.mp h).2 (by simp [hr, hf])
    have c3 : c.can "drawWall" = false := by
      cases h : c.can "drawWall"
      · rfl
      · exact absurd (k3.mp h).2 (by simp [hr, hf])
    have c4 : c.can "eraseWall" = false := by
      cases h : c.can "eraseWall"
      · rfl
      · exact absurd (k4.mp h).2 (by simp [hr, hf])
    simp [mousedown, c1, c2, c3, c4]

/-- C8 at the session `Sample.ready` and the free cell `(4, 4)`. -/
theorem C8_mousedown_dispatch_witness :
    Sample.env.toGridCoordinate 4 4 = (4, 4) ∧
      Sample.ready.can "drawWall" = true ∧ Sample.ready.grid.isWalkableAt 4 4 = true ∧
      (Sample.ready.mousedown Sample.env 4 4).current = "drawingWall" ∧
      (Sample.ready.mousedown Sample.env 4 4).grid.isWalkableAt 4 4 = false :=
  ⟨rfl, by decide, by decide,
   ((C8_mousedown_dispatch Sample.env Sample.ready 4 4 4 4 rfl).2.2.1 (by decide) (by decide)
      ⟨by decide, by decide⟩).1,
   ((C8_mousedown_dispatch Sample.env Sample.ready 4 4 4 4 rfl).2.2.1 (by decide) (by decide)
      ⟨by decide, by decide⟩).2⟩

/-- C8 as stated fails: in `Sample.ready` a pointer-down at the cell
`(64, 0)`, just right of the 64 x 36 grid, is neither on the start position
nor on the end position; the cell is not walkable and `eraseWall` can fire,
so the fourth branch is taken and the state becomes `erasingWall`, but the
cell is still not walkable afterwards. -/
theorem C8_mousedown_dispatch_counterexample :
    Sample.env.toGridCoordinate 64 0 = (64, 0) ∧
      Sample.ready.isStartPos 64 0 = false ∧ Sample.ready.isEndPos 64 0 = false ∧
      Sample.ready.grid.isWalkableAt 64 0 = false ∧
      Sample.ready.can "eraseWall" = true ∧
      (Sample.ready.mousedown Sample.env 64 0).current = "erasingWall" ∧
      (Sample.ready.mousedown Sample.env 64 0).grid.isWalkableAt 64 0 = false := by
  decide

/-- C9: in `draggingStart` (in `draggingEnd`) a pointer-move to the cell
`(gridX, gridY)` leaves the grid and the current state as they are; it leaves
the start (the end) position as it is when the cell is not walkable; and when
it changes the start (the end) position, the cell is walkable and the new
position is that cell.  The other endpoint is never touched. -/
theorem C9_endpoint_move (env : Env) (c : Controller) (pageX pageY gridX gridY : Int)
    (hxy : env.toGridCoordinate pageX pageY = (gridX, gridY)) :
    (c.current = "draggingStart" →
      (c.mousemove env pageX pageY).grid = c.grid ∧
      (c.mousemove env pageX pageY).current = c.current ∧
      (c.mousemove env pageX pageY).endX = c.endX ∧
      (c.mousemove env pageX pageY).endY = c.endY ∧
      (c.grid.isWalkableAt gridX gridY = false →
        (c.mousemove env pageX pageY).startX = c.startX ∧
        (c.mousemove env pageX pageY).startY = c.startY) ∧
      ((c.mousemove env pageX pageY).startX ≠ c.startX ∨
          (c.mousemove env pageX pageY).startY ≠ c.startY →
        c.grid.isWalkableAt gridX gridY = true ∧
        (c.mousemove env pageX pageY).startX = some gridX ∧
        (c.mousemove env pageX pageY).startY = some gridY)) ∧
    (c.current = "draggingEnd" →
      (c.mousemove env pageX pageY).grid = c.grid ∧
      (c.mousemove env pageX pageY).current = c.current ∧
      (c.mousemove env pageX pageY).startX = c.startX ∧
      (c.mousemove env pageX pageY).startY = c.startY ∧
      (c.grid.isWalkableAt gridX gridY = false →
        (c.mousemove env pageX pageY).endX = c.endX ∧
        (c.mousemove env pageX pageY).endY = c.endY) ∧
      ((c.mousemove env pageX pageY).endX ≠ c.endX ∨
          (c.mousemove env pageX pageY).endY ≠ c.endY →
        c.grid.isWalkableAt gridX gridY = true ∧
        (c.mousemove env pageX pageY).endX = some gridX ∧
        (c.mousemove env pageX pageY).endY = some gridY)) := by
  constructor
  · intro hs
    by_cases hp : c.isStartOrEndPos gridX gridY = true
    · have : c.mousemove env pageX pageY = c := by simp [mousemove, hxy, hp]
      rw [this]
      simp
    · by_cases hw : c.grid.isWalkableAt gridX gridY = true
      · have : c.mousemove env pageX pageY = c.setStartPos gridX gridY := by
          simp [mousemove, hxy, hp, hs, hw]
        rw [this]
        simp [setStartPos, emit, hw]
      · have : c.mousemove env pageX pageY = c := by simp [mousemove, hxy, hp, hs, hw]
        rw [this]
        simp
  · intro hs
    by_cases hp : c.isStartOrEndPos gridX gridY = true
    · have : c.mousemove env pageX pageY = c := by simp [mousemove, hxy, hp]
      rw [this]
      simp
    · by_cases hw : c.grid.isWalkableAt gridX gridY = true
      · have : c.mousemove env pageX pageY = c.setEndPos gridX gridY := by
          simp [mousemove, hxy, hp, hs, hw]
        rw [this]
        simp [setEndPos, emit, hw]
      · have : c.mousemove env pageX pageY = c := by simp [mousemove, hxy, hp, hs, hw]
        rw [this]
        simp

/-- C9 at the session `Sample.dragging`, moved to the wall cell `(3, 3)`. -/
theorem C9_endpoint_move_witness :
    Sample.env.toGridCoordinate 3 3 = (3, 3) ∧ Sample.dragging.current = "draggingStart" ∧
      Sample.dragging.grid.isWalkableAt 3 3 = false ∧
      (Sample.dragging.mousemove Sample.env 3 3).startX = Sample.dragging.startX :=
  ⟨rfl, by decide, by decide,
   (((C9_endpoint_move Sample.env Sample.dragging 3 3 3 3 rfl).1 (by decide)).2.2.2.2.1
      (by decide)).1⟩

/-- C10 (amended): during a wall drag, a pointer-move to an in-bounds cell
that is not the start, the end or a landmark position leaves the cell blocked
in `drawingWall` and walkable in `erasingWall`, whatever it held before; a
pointer-move to the start, the end or a landmark position changes nothing. -/
theorem C10_wall_drag (env : Env) (c : Controller) (pageX pageY gridX gridY : Int)
    (hxy : env.toGridCoordinate pageX pageY = (gridX, gridY))
    (hin : c.grid.isInside gridX gridY = true) :
    (c.isStartOrEndPos gridX gridY = true → c.mousemove env pageX pageY = c) ∧
    (c.isStartOrEndPos gridX gridY = false →
      (c.current = "drawingWall" →
        (c.mousemove env pageX pageY).grid.isWalkableAt gridX gridY = false) ∧
      (c.current = "erasingWall" →
        (c.mousemove env pageX pageY).grid.isWalkableAt gridX gridY = true)) := by
  refine ⟨fun hp => by simp [mousemove, hxy, hp], fun hp => ⟨fun hs => ?_, fun hs => ?_⟩⟩
  · have : c.mousemove env pageX pageY = c.setWalkableAt gridX gridY false := by
      simp [mousemove, hxy, hp, hs]
    rw [this]
    show (c.grid.setWalkableAt gridX gridY false).isWalkableAt gridX gridY = false
    rw [grid_isWalkableAt_setWalkableAt]
    simp
  · have : c.mousemove env pageX pageY = c.setWalkableAt gridX gridY true := by
      simp [mousemove, hxy, hp, hs]
    rw [this]
    show (c.grid.setWalkableAt gridX gridY true).isWalkableAt gridX gridY = true
    rw [grid_isWalkableAt_setWalkableAt, hin]
    rfl

/-- C10 at the session `Sample.drawing`, moved to the free cell `(5, 4)`. -/
theorem C10_wall_drag_witness :
    Sample.env.toGridCoordinate 5 4 = (5, 4) ∧ Sample.drawing.grid.isInside 5 4 = true ∧
      Sample.drawing.isStartOrEndPos 5 4 = false ∧ Sample.drawing.current = "drawingWall" ∧
      Sample.drawing.grid.isWalkableAt 5 4 = true ∧
      (Sample.drawing.mousemove Sample.env 5 4).grid.isWalkableAt 5 4 = false :=
  ⟨rfl, by decide, by decide, by decide, by decide,
   ((C10_wall_drag Sample.env Sample.drawing 5 4 5 4 rfl (by decide)).2 (by decide)).1
     (by decide)⟩

/-- C10 as stated fails: in `Sample.drawing` (state `drawingWall`) the
in-bounds cell `(3, 4)` holds the start position; a pointer-move to it leaves
it walkable, not blocked. -/
theorem C10_wall_drag_counterexample :
    Sample.env.toGridCoordinate 3 4 = (3, 4) ∧ Sample.drawing.current = "drawingWall" ∧
      Sample.drawing.grid.isInside 3 4 = true ∧ Sample.drawing.isStartPos 3 4 = true ∧
      (Sample.drawing.mousemove Sample.env 3 4).grid.isWalkableAt 3 4 = true := by
  decide

/-- C11 (amended): for a coordinate outside the grid, which `isWalkableAt`
reports as not walkable, `mousedown` and `mousemove` leave the grid as it is
and `mousemove` leaves the current state as it is.  Outside `ready` and
`finished`, `mousedown` is ignored: nothing is reported (no write is
attempted, no transition is illegal) and the controller stays as it was; so
is `mousemove` outside `drawingWall` and `erasingWall`.  But where
`eraseWall` can fire, `mousedown` at such a coordinate (not the start or end
position) enters `erasingWall` and hands the write `setWalkableAt(x, y, true)`
for the out-of-bounds cell to the grid, and in `drawingWall` and
`erasingWall` `mousemove` hands such a write to the grid (unless the
coordinate is the start, the end or a landmark position). -/
theorem C11_out_of_bounds (env : Env) (c : Controller) (pageX pageY gridX gridY : Int)
    (hxy : env.toGridCoordinate pageX pageY = (gridX, gridY))
    (hout : c.grid.isInside gridX gridY = false) :
    c.grid.isWalkableAt gridX gridY = false ∧
    (c.mousedown env pageX pageY).grid = c.grid ∧
    (c.mousemove env pageX pageY).grid = c.grid ∧
    (c.mousemove env pageX pageY).current = c.current ∧
    ((c.mousedownR env pageX pageY).1 = c.mousedown env pageX pageY ∧
      (c.mousemoveR env pageX pageY).1 = c.mousemove env pageX pageY) ∧
    (c.current ≠ "ready" → c.current ≠ "finished" →
      c.mousedownR env pageX pageY = (c, [])) ∧
    (c.current ≠ "drawingWall" → c.current ≠ "erasingWall" →
      c.mousemoveR env pageX pageY = (c, [])) ∧
    (c.can "eraseWall" = true → c.isStartPos gridX gridY = false →
      c.isEndPos gridX gridY = false →
      (c.mousedown env pageX pageY).current = "erasingWall" ∧
      (c.mousedownR env pageX pageY).2 = [.writeOutside gridX gridY true]) ∧
    (c.isStartOrEndPos gridX gridY = false →
      (c.current = "drawingWall" →
        (c.mousemoveR env pageX pageY).2 = [.writeOutside gridX gridY false]) ∧
      (c.current = "erasingWall" →
        (c.mousemoveR env pageX pageY).2 = [.writeOutside gridX gridY true])) := by
  have hw : c.grid.isWalkableAt gridX gridY = false := by
    simp [Grid.isWalkableAt, hout]
  have hset : ∀ w, c.grid.setWalkableAt gridX gridY w = c.grid :=
    fun w => grid_setWalkableAt_outside c.grid gridX gridY w hout
  have hmd : ∀ h : c.current ≠ "ready" ∧ c.current ≠ "finished",
      c.mousedown env pageX pageY = c := fun h =>
    mousedown_of_not_editable env c pageX pageY (fun h2 => h2.2.elim h.1 h.2)
  have hmm : c.current ≠ "drawingWall" → c.current ≠ "erasingWall" →
      c.mousemove env pageX pageY = c := by
    intro hd he
    rcases mousemove_cases env c pageX pageY gridX gridY hxy with
      h | ⟨-, -, h2, -⟩ | ⟨-, -, h2, -⟩ | ⟨h1, -⟩ | ⟨h1, -⟩
    · exact h
    · rw [hw] at h2
      exact absurd h2 (by simp)
    · rw [hw] at h2
      exact absurd h2 (by simp)
    · exact absurd h1 hd
    · exact absurd h1 he
  refine ⟨hw, ?_, ?_, mousemove_current env pageX pageY c,
    ⟨mousedownR_fst env pageX pageY c, mousemoveR_fst env pageX pageY c⟩, ?_, ?_, ?_, ?_⟩
  · rcases mousedown_cases env c pageX pageY gridX gridY hxy with
      ⟨h1, -, h⟩ | ⟨h1, -, h⟩ | ⟨-, h2, -⟩ | ⟨h1, -, h⟩ | ⟨-, h⟩
    · rw [h, dragStart_of_can c h1]
    · rw [h, dragEnd_of_can c h1]
    · rw [hw] at h2
      exact absurd h2 (by simp)
    · rw [h, eraseWall_of_can c _ _ h1]
      exact hset true
    · rw [h]
  · rcases mousemove_cases env c pageX pageY gridX gridY hxy with
      h | ⟨-, -, -, h⟩ | ⟨-, -, -, h⟩ | ⟨-, -, h⟩ | ⟨-, -, h⟩
    · rw [h]
    · rw [h]; rfl
    · rw [h]; rfl
    · rw [h]; exact hset false
    · rw [h]; exact hset true
  · intro hr hf
    have hc : ∀ e ∈ ["dragStart", "dragEnd", "drawWall", "eraseWall"], c.can e = false := by
      obtain ⟨k1, k2, k3, k4⟩ := can_edit_iff c
      intro e he
      simp only [List.mem_cons, List.mem_singleton, List.not_mem_nil, or_false] at he
      cases hce : c.can e
      · rfl
      · exfalso
        rcases he with rfl | rfl | rfl | rfl
        · exact (k1.mp hce).2.elim hr hf
        · exact (k2.mp hce).2.elim hr hf
        · exact (k3.mp hce).2.elim hr hf
        · exact (k4.mp hce).2.elim hr hf
    apply Prod.ext
    · rw [mousedownR_fst]
      exact hmd ⟨hr, hf⟩
    · rw [mousedownR_snd env c pageX pageY gridX gridY hxy]
      simp [hc]
  · intro hd he
    apply Prod.ext
    · rw [mousemoveR_fst]
      exact hmm hd he
    · rw [mousemoveR_snd env c pageX pageY gridX gridY hxy]
      simp [hd, he]
  · intro hc hs he
    constructor
    · rcases mousedown_cases env c pageX pageY gridX gridY hxy with
        ⟨-, h2, -⟩ | ⟨-, h2, -⟩ | ⟨-, h2, -⟩ | ⟨h1, -, h⟩ | ⟨h1, -⟩
      · rw [hs] at h2
        exact absurd h2 (by simp)
      · rw [he] at h2
        exact absurd h2 (by simp)
      · rw [hw] at h2
        exact absurd h2 (by simp)
      · rw [h, eraseWall_of_can c _ _ h1]
        rfl
      · obtain ⟨ht, hst⟩ := (can_edit_iff c).2.2.2.mp hc
        rcases h1 with h1 | ⟨h1, h2⟩
        · exact absurd ht h1
        · exact absurd hst (by simp [h1, h2])
    · rw [mousedownR_snd env c pageX pageY gridX gridY hxy]
      simp [hs, he, hw, hc, hout]
  · intro hp
    rw [mousemoveR_snd env c pageX pageY gridX gridY hxy]
    constructor
    · intro hs
      simp [hp, hs, hout]
    · intro hs
      simp [hp, hs, hout]

/-- C11 at the session `Sample.drawing` and the cell `(64, 0)`, just right of
the grid. -/
theorem C11_out_of_bounds_witness :
    Sample.env.toGridCoordinate 64 0 = (64, 0) ∧
      Sample.drawing.grid.isInside 64 0 = false ∧
      (Sample.drawing.mousemove Sample.env 64 0).grid = Sample.drawing.grid :=
  ⟨rfl, by decide, (C11_out_of_bounds Sample.env Sample.drawing 64 0 64 0 rfl (by decide)).2.2.1⟩

/-- C11 as stated fails: in `Sample.ready` a pointer-down at the cell
`(64, 0)`, outside the 64 x 36 grid, is not ignored: the state changes from
`ready` to `erasingWall`, and the write `setWalkableAt(64, 0, true)` for that
cell is handed to the grid, which has no such cell. -/
theorem C11_out_of_bounds_counterexample :
    Sample.env.toGridCoordinate 64 0 = (64, 0) ∧
      Sample.ready.grid.isInside 64 0 = false ∧
      Sample.ready.current = "ready" ∧
      (Sample.ready.mousedown Sample.env 64 0).current = "erasingWall" ∧
      (Sample.ready.mousedownR Sample.env 64 0).2 = [.writeOutside 64 0 true] := by
  refine ⟨rfl, by decide, by decide, by decide, by decide⟩

/-- C12 (amended): it is `clearOperations` that empties the operation queue;
`clearFootprints` leaves the queue as it is and asks the view to clear the
footprints and the path.  The callbacks of `cancel` and `clear` and the
deferred reset routine leave the queue empty.  When `start` is called with an
empty queue, the queue at the time the finder has returned holds exactly the
operations recorded by that search and `operationCount` is their number;
playback then starts from that queue. -/
theorem C12_recorder_reset (env : Env) (c : Controller)
    (hs : c.current = "ready" ∨ c.current = "modified" ∨ c.current = "restarting")
    (ht : c.transition = none) (hq : c.operations = []) :
    (∀ k : Controller, k.clearOperations.operations = []) ∧
    (∀ k : Controller, k.clearFootprints.operations = k.operations ∧
      k.clearFootprints.view = k.view ++ [.clearFootprints, .clearPath]) ∧
    (∀ k : Controller, k.oncancel.operations = [] ∧ k.onclear.operations = [] ∧
      k.resetDeferred.operations = []) ∧
    c.start env = (searchReturned env c).loop env ∧
    (searchReturned env c).operations =
      (env.findPath c.startX c.startY c.endX c.endY c.grid.clone).2 ∧
    (searchReturned env c).operationCount =
      some (env.findPath c.startX c.startY c.endX c.endY c.grid.clone).2.length ∧
    (c.start env).operationCount =
      some (env.findPath c.startX c.startY c.endX c.endY c.grid.clone).2.length := by
  obtain ⟨e1, e2⟩ := start_eq env c hs ht
  obtain ⟨s1, s2, s3, s4, -⟩ := searchReturned_spec env c ht
  rw [hq, List.nil_append] at s3 s4
  refine ⟨fun k => rfl, fun k => ⟨rfl, ?_⟩, fun k => ⟨rfl, rfl, rfl⟩, e1.trans e2, s3, s4, ?_⟩
  · simp [clearFootprints, emit]
  · have := loopTick_searchResult env (searchReturned env c)
    simp only [searchResult, Prod.mk.injEq] at this
    rw [e1, e2, loop, this.2.1, s4]

/-- C12 at the session `Sample.ready`, whose queue is empty: the search of
`Sample.env` records four operations. -/
theorem C12_recorder_reset_witness :
    Sample.ready.current = "ready" ∧ Sample.ready.transition = none ∧
      Sample.ready.operations = [] ∧
      (Sample.ready.start Sample.env).operationCount = some 4 :=
  ⟨by decide, by decide, by decide,
   (C12_recorder_reset Sample.env Sample.ready (Or.inl (by decide)) (by decide)
      (by decide)).2.2.2.2.2.2⟩

/-- C12 as stated fails: `clearFootprints` leaves the three queued
operations of `Sample.searching` in the queue; and `reset` fired in
`Sample.searching` leads to `ready` with these three still queued (the queue
is cleared only by the deferred routine), so that a `start` called then runs
a search recording four operations and sets `operationCount` to seven. -/
theorem C12_recorder_reset_counterexample :
    Sample.searching.operations.length = 3 ∧
      Sample.searching.clearFootprints.operations.length = 3 ∧
      Sample.searching.reset.current = "ready" ∧
      Sample.searching.reset.operations.length = 3 ∧
      (Sample.env.findPath Sample.searching.reset.startX Sample.searching.reset.startY
        Sample.searching.reset.endX Sample.searching.reset.endY
        Sample.searching.reset.grid.clone).2.length = 4 ∧
      (Sample.searching.reset.start Sample.env).operationCount = some 7 := by
  decide

/-- C13: `start` called in `ready` with an empty queue enters `starting`
(its entry action runs there), from where `search` enters `searching`, runs
the finder and starts playback at once; the controller stays in `searching`
until every supported operation is rendered and is `finished` from then on.
The calls made to the view over the whole run are: the two clearing calls of
`onstarting`, one render call per supported operation, one `showStats` with
the finder's path, the search time and `operationCount` the number of recorded
operations, and one `drawPath` of the finder's path. -/
theorem C13_search_scenario (env : Env) (c : Controller) (h1 : c.current = "ready")
    (h2 : c.transition = none) (h3 : c.operations = []) :
    c.start env = onstarting env { c with current := "starting" } ∧
    onstarting env { c with current := "starting" } = (searchReturned env c).loop env ∧
    (searchReturned env c).current = "searching" ∧
    (∀ m, m < (supported env
        (env.findPath c.startX c.startY c.endX c.endY c.grid.clone).2).length →
      ((c.start env).playTicks env m).current = "searching") ∧
    (∀ m, (supported env
        (env.findPath c.startX c.startY c.endX c.endY c.grid.clone).2).length ≤ m →
      ((c.start env).playTicks env m).current = "finished" ∧
      ((c.start env).playTicks env m).operations = [] ∧
      ((c.start env).playTicks env m).view =
        c.view ++ [.clearFootprints, .clearPath] ++
          (supported env
            (env.findPath c.startX c.startY c.endX c.endY c.grid.clone).2).map render ++
          [.showStats (some (env.findPath c.startX c.startY c.endX c.endY c.grid.clone).1)
              (some env.timeSpent)
              (some (env.findPath c.startX c.startY c.endX c.endY c.grid.clone).2.length),
           .drawPath (some (env.findPath c.startX c.startY c.endX c.endY c.grid.clone).1)]) := by
  obtain ⟨e1, e2⟩ := start_eq env c (Or.inl h1) h2
  obtain ⟨s1, s2, s3, s4, s5, s6, s7, -⟩ := searchReturned_spec env c h2
  rw [h3, List.nil_append] at s3 s4
  have hp : Playing env (searchReturned env c)
      (supported env (env.findPath c.startX c.startY c.endX c.endY c.grid.clone).2)
      (c.view ++ [.clearFootprints, .clearPath])
      [.showStats (some (env.findPath c.startX c.startY c.endX c.endY c.grid.clone).1)
          (some env.timeSpent)
          (some (env.findPath c.startX c.startY c.endX c.endY c.grid.clone).2.length),
       .drawPath (some (env.findPath c.startX c.startY c.endX c.endY c.grid.clone).1)] := by
    refine ⟨s1, s2, by rw [s3], s7, ?_⟩
    simp only [finishCalls, s4, s5, s6]
  refine ⟨e1, e2, s1, fun m hm => ?_, fun m hm => ?_⟩
  · rw [e1, e2]
    exact (loopTick_playTicks env _ _ _ _ hp m).1 hm
  · rw [e1, e2]
    exact (loopTick_playTicks env _ _ _ _ hp m).2 hm

/-- C13 at the session `Sample.ready`: the search records four operations,
three of them supported. -/
theorem C13_search_scenario_witness :
    Sample.ready.current = "ready" ∧ Sample.ready.transition = none ∧
      Sample.ready.operations = [] ∧
      ((Sample.ready.start Sample.env).playTicks Sample.env 3).current = "finished" :=
  ⟨by decide, by decide, by decide,
   ((C13_search_scenario Sample.env Sample.ready (by decide) (by decide)
      (by decide)).2.2.2.2 3 (by decide)).1⟩

/-- C14: assigning `opened`, `closed` or `tested` of a node appends exactly
one record, with the node's coordinate, the attribute's name and the assigned
value, at the tail of the operation queue and keeps the earlier records in
place; assigning the value the attribute already holds appends a second,
identical record; the getter then returns the assigned value (it reads the
backing field of the node and has no access to the queue). -/
theorem C14_operation_recorder (c : Controller) (n : Node) (v : Bool) :
    ((c.setOpened n v).2.operations =
        c.operations ++ [{ x := n.x, y := n.y, attr := "opened", value := v }] ∧
      getOpened (c.setOpened n v).1 = some v ∧
      ((c.setOpened n v).2.setOpened (c.setOpened n v).1 v).2.operations =
        c.operations ++ [{ x := n.x, y := n.y, attr := "opened", value := v },
                         { x := n.x, y := n.y, attr := "opened", value := v }]) ∧
    ((c.setClosed n v).2.operations =
        c.operations ++ [{ x := n.x, y := n.y, attr := "closed", value := v }] ∧
      getClosed (c.setClosed n v).1 = some v ∧
      ((c.setClosed n v).2.setClosed (c.setClosed n v).1 v).2.operations =
        c.operations ++ [{ x := n.x, y := n.y, attr := "closed", value := v },
                         { x := n.x, y := n.y, attr := "closed", value := v }]) ∧
    ((c.setTested n v).2.operations =
        c.operations ++ [{ x := n.x, y := n.y, attr := "tested", value := v }] ∧
      getTested (c.setTested n v).1 = some v ∧
      ((c.setTested n v).2.setTested (c.setTested n v).1 v).2.operations =
        c.operations ++ [{ x := n.x, y := n.y, attr := "tested", value := v },
                         { x := n.x, y := n.y, attr := "tested", value := v }]) :=
  ⟨⟨rfl, rfl, by simp [setOpened]⟩, ⟨rfl, rfl, by simp [setClosed]⟩,
   ⟨rfl, rfl, by simp [setTested]⟩⟩

/-- C15: `onsearch` hands the finder `this.grid.clone()`, not `this.grid`.
Over the grid objects of a session: the reference handed to the finder is
not the live one, and the object behind it holds, when the finder is called,
a copy of the live grid, with the walkability of the live grid in every cell.
Whatever the finder writes to the object it was handed, after the search that
object holds what the finder wrote to the copy, the live grid is the object
it was, with the walkability it had in every cell, and the controller is the
one the callback `onsearch` returns; so the grid of the controller after the
`search` transition is its grid before.  A later `setWalkableAt` on the live
grid is seen in the live grid and changes no walkability value of the
snapshot.  A write through the live reference, in contrast, is seen in the
live grid. -/
theorem C15_grid_isolation (env : Env) (writes : Grid → Grid) (h : Stored)
    (hlive : h.store.objects.get? h.live = some h.controller.grid) :
    (onsearchStored env writes h).2 ≠ h.live ∧
    (h.store.clone h.live).1.objects.get? (onsearchStored env writes h).2 =
      some h.controller.grid.clone ∧
    (∀ x y, (h.store.clone h.live).1.isWalkableAt (onsearchStored env writes h).2 x y =
      h.store.isWalkableAt h.live x y) ∧
    (onsearchStored env writes h).1.store.objects.get? (onsearchStored env writes h).2 =
      some (writes h.controller.grid.clone) ∧
    (onsearchStored env writes h).1.store.objects.get? h.live = some h.controller.grid ∧
    (∀ x y, (onsearchStored env writes h).1.store.isWalkableAt h.live x y =
      h.store.isWalkableAt h.live x y) ∧
    ((onsearchStored env writes h).1.controller = onsearch env h.controller ∧
      (onsearchStored env writes h).1.live = h.live) ∧
    (h.controller.current = "starting" → h.controller.transition = none →
      (h.controller.search env).grid = h.controller.grid ∧
      h.controller.search env =
        (onsearchStored env writes
          { h with controller :=
              onsearching { h.controller with current := "searching" } }).1.controller) ∧
    (∀ x y w a b,
      ((onsearchStored env writes h).1.store.setWalkableAt h.live x y w).isWalkableAt
          (onsearchStored env writes h).2 a b =
        (onsearchStored env writes h).1.store.isWalkableAt
          (onsearchStored env writes h).2 a b) ∧
    (∀ x y w, h.controller.grid.isInside x y = true →
      ((onsearchStored env writes h).1.store.setWalkableAt h.live x y w).isWalkableAt
        h.live x y = w) ∧
    (({ objects := List.modify writes h.live h.store.objects } : GridStore).objects.get?
      h.live = some (writes h.controller.grid)) := by
  obtain ⟨hclone, hlt⟩ := gridStore_clone_of_live h.store h.live h.controller.grid hlive
  have hg : h.store.objects[h.live]? = some h.controller.grid := by
    rw [← List.get?_eq_getElem?]; exact hlive
  have hne : h.store.objects.length ≠ h.live := fun e => absurd hlt (by omega)
  have href : (onsearchStored env writes h).2 = h.store.objects.length := by
    simp [onsearchStored, hclone]
  have hstore : (onsearchStored env writes h).1.store =
      { objects := h.store.objects ++ [writes h.controller.grid.clone] } := by
    simp [onsearchStored, hclone, List.modify_eq_set_get?]
  have hlive2 : (h.store.objects ++ [writes h.controller.grid.clone])[h.live]? =
      some h.controller.grid := by
    rw [List.getElem?_append_left hlt]
    exact hg
  have hctl : ∀ k : Stored, k.store.objects.get? k.live = some k.controller.grid →
      (onsearchStored env writes k).1.controller = onsearch env k.controller := by
    intro k hk
    obtain ⟨kc, klt⟩ := gridStore_clone_of_live k.store k.live k.controller.grid hk
    have kg : k.store.objects[k.live]? = some k.controller.grid := by
      rw [← List.get?_eq_getElem?]; exact hk
    have kne : k.store.objects.length ≠ k.live := fun e => absurd klt (by omega)
    simp [onsearchStored, kc, onsearch, List.getElem?_modify, kne,
      List.getElem?_append_left klt, kg, Grid.clone]
  refine ⟨?_, ?_, ?_, ?_, ?_, ?_, ⟨hctl h hlive, rfl⟩, ?_, ?_, ?_, ?_⟩
  · rw [href]
    exact hne
  · rw [href, hclone]
    simp
  · intro x y
    rw [href, hclone]
    simp [GridStore.isWalkableAt, hg, Grid.clone]
  · rw [href, hstore]
    simp
  · rw [hstore, List.get?_eq_getElem?]
    exact hlive2
  · intro x y
    rw [hstore]
    simp [GridStore.isWalkableAt, hlive2, hg]
  · intro hc ht
    refine ⟨search_grid env h.controller, ?_⟩
    rw [search_of_starting env h.controller hc ht]
    have hk : h.store.objects.get? h.live =
        some (onsearching { h.controller with current := "searching" }).grid := by
      rw [hlive]
      simp [onsearching]
    exact (hctl ⟨onsearching { h.controller with current := "searching" }, h.store, h.live⟩
      hk).symm
  · intro x y w a b
    rw [href, hstore]
    simp [GridStore.isWalkableAt, GridStore.setWalkableAt, List.getElem?_modify, Ne.symm hne]
  · intro x y w hin
    rw [hstore]
    simp only [GridStore.isWalkableAt, GridStore.setWalkableAt, List.get?_eq_getElem?,
      List.getElem?_modify, hlive2, ↓reduceIte, Option.map_some']
    show (h.controller.grid.setWalkableAt x y w).isWalkableAt x y = w
    rw [grid_isWalkableAt_setWalkableAt, hin]
    rfl
  · simp [List.getElem?_modify, hg]

/-- C15 at the session `Sample.ready`, whose grid is the only object of the
store, with a finder that blocks the cell `(0, 0)` of the grid it is handed:
after the search the cell is blocked in the snapshot and walkable in the live
grid. -/
theorem C15_grid_isolation_witness :
    (Stored.mk Sample.ready (GridStore.mk [Sample.ready.grid]) 0).store.objects.get? 0 =
        some Sample.ready.grid ∧
      (onsearchStored Sample.env (fun g => g.setWalkableAt 0 0 false)
        (Stored.mk Sample.ready (GridStore.mk [Sample.ready.grid]) 0)).2 ≠ 0 ∧
      (onsearchStored Sample.env (fun g => g.setWalkableAt 0 0 false)
        (Stored.mk Sample.ready (GridStore.mk [Sample.ready.grid]) 0)).1.store.isWalkableAt
          0 0 0 =
        (GridStore.mk [Sample.ready.grid]).isWalkableAt 0 0 0 ∧
      (GridStore.mk [Sample.ready.grid]).isWalkableAt 0 0 0 = true ∧
      (onsearchStored Sample.env (fun g => g.setWalkableAt 0 0 false)
        (Stored.mk Sample.ready (GridStore.mk [Sample.ready.grid]) 0)).1.store.isWalkableAt
          (onsearchStored Sample.env (fun g => g.setWalkableAt 0 0 false)
            (Stored.mk Sample.ready (GridStore.mk [Sample.ready.grid]) 0)).2 0 0 = false :=
  ⟨rfl,
   (C15_grid_isolation Sample.env (fun g => g.setWalkableAt 0 0 false)
     (Stored.mk Sample.ready (GridStore.mk [Sample.ready.grid]) 0) rfl).1,
   (C15_grid_isolation Sample.env (fun g => g.setWalkableAt 0 0 false)
     (Stored.mk Sample.ready (GridStore.mk [Sample.ready.grid]) 0) rfl).2.2.2.2.2.1 0 0,
   by decide, by decide⟩

/-- C16 (amended): `reset` fired in any state other than `none` (nothing is
held back there) moves the controller to `ready` at once, leaves the
operation queue and the grid as they are and schedules the deferred routine.
When that routine runs, in whatever state, the queue becomes empty and the
grid is replaced by a fresh grid of `gridSize` in which every cell is
walkable, while the current state and the start position stay as they
are. -/
theorem C16_reset (env : Env) (c : Controller) (hn : c.current ≠ "none")
    (ht : c.transition = none) :
    (c.reset.current = "ready" ∧ c.reset.operations = c.operations ∧
      c.reset.grid = c.grid ∧ c.reset.timers = c.timers ++ [Timer.reset]) ∧
    (∀ (k : Controller) (i : Nat), k.timers.get? i = some Timer.reset →
      k.fireTimer env i = resetDeferred { k with timers := k.timers.eraseIdx i }) ∧
    (∀ k : Controller,
      k.resetDeferred.operations = [] ∧
      k.resetDeferred.grid = Grid.new k.gridSize.1 k.gridSize.2 ∧
      (∀ x y : Int, k.resetDeferred.grid.isInside x y = true →
        k.resetDeferred.grid.isWalkableAt x y = true) ∧
      k.resetDeferred.current = k.current ∧
      k.resetDeferred.startX = k.startX ∧ k.resetDeferred.startY = k.startY) := by
  refine ⟨?_, ?_, ?_⟩
  · have hd : StateMachine.destination "reset" c.current = some "ready" := by
      simp [StateMachine.destination, events, WILDCARD]
    unfold reset buildEvent
    simp only [ht, Option.isSome_none, Bool.false_eq_true, ↓reduceIte, hd, hn]
    split
    · rename_i h
      simp [onreset, setTimeout, h]
    · rw [onready, setButtonStates_eq]
      simp [onreset, setTimeout]
  · intro k i hi
    simp only [List.get?_eq_getElem?] at hi
    simp [fireTimer, hi]
  · intro k
    refine ⟨rfl, rfl, ?_, rfl, rfl, rfl⟩
    intro x y hin
    simp only [Grid.isWalkableAt, hin, Bool.true_and]
    rfl

/-- C16 at the session `Sample.searching`. -/
theorem C16_reset_witness :
    Sample.searching.current ≠ "none" ∧ Sample.searching.transition = none ∧
      Sample.searching.reset.current = "ready" ∧
      Sample.searching.reset.operations = Sample.searching.operations :=
  ⟨by decide, by decide,
   (C16_reset Sample.env Sample.searching (by decide) (by decide)).1.1,
   (C16_reset Sample.env Sample.searching (by decide) (by decide)).1.2.1⟩

/-- C16 as stated fails in the state `none`: `reset` fired on the freshly
created controller runs `onleavenone`, which builds the grid and holds the
transition back; the controller is still in `none`, not in `ready`, and its
grid is no longer the one it had. -/
theorem C16_reset_counterexample :
    Controller.create.current = "none" ∧ Controller.create.can "reset" = true ∧
      Controller.create.reset.current = "none" ∧
      Controller.create.reset.transition = some { name := "reset", dst := "ready" } ∧
      Controller.create.grid.width = 0 ∧ Controller.create.reset.grid.width = 64 := by
  decide

/-- C17: every event a pointer handler fires can fire where it is fired, so
the library never reports an illegal transition.  The result of `mousedown`
is `dragStart`, `dragEnd`, `drawWall` or `eraseWall` called where `can` holds
for it, or the controller as it was.  `mousemove` fires no event: its result
is the controller as it was or a position or walkability setter applied to
it, and the current state stays.  `mouseup` calls `rest` where it can fire:
in the four drag states the controller moves to `ready`, and in every other
state it stays as it was.  With the reports of the collaborators kept
(`mousedownR`, `mousemoveR`, `mouseupR`, whose controllers are those of the
handlers): no report of a handler is an illegal transition, whereas each of
the five event methods, called where `can` fails for it, leaves the
controller as it was and is reported as an illegal transition. -/
theorem C17_pointer_guarded (env : Env) (c : Controller) (pageX pageY gridX gridY : Int)
    (hxy : env.toGridCoordinate pageX pageY = (gridX, gridY))
    (hwf : c.transition ≠ none → c.current = "none") :
    ((c.can "dragStart" = true ∧ c.mousedown env pageX pageY = c.dragStart) ∨
      (c.can "dragEnd" = true ∧ c.mousedown env pageX pageY = c.dragEnd) ∨
      (c.can "drawWall" = true ∧ c.mousedown env pageX pageY = c.drawWall gridX gridY) ∨
      (c.can "eraseWall" = true ∧ c.mousedown env pageX pageY = c.eraseWall gridX gridY) ∨
      c.mousedown env pageX pageY = c) ∧
    ((c.mousemove env pageX pageY = c ∨
      c.mousemove env pageX pageY = c.setStartPos gridX gridY ∨
      c.mousemove env pageX pageY = c.setEndPos gridX gridY ∨
      c.mousemove env pageX pageY = c.setWalkableAt gridX gridY false ∨
      c.mousemove env pageX pageY = c.setWalkableAt gridX gridY true) ∧
      (c.mousemove env pageX pageY).current = c.current) ∧
    (c.current ∈ ["draggingStart", "draggingEnd", "drawingWall", "erasingWall"] →
      c.can "rest" = true ∧ c.mouseup = c.rest ∧ c.mouseup.current = "ready") ∧
    (c.current ∉ ["draggingStart", "draggingEnd", "drawingWall", "erasingWall"] →
      c.can "rest" = false ∧ c.mouseup = c) ∧
    ((c.mousedownR env pageX pageY).1 = c.mousedown env pageX pageY ∧
      (c.mousemoveR env pageX pageY).1 = c.mousemove env pageX pageY ∧
      c.mouseupR.1 = c.mouseup) ∧
    ((∀ r ∈ (c.mousedownR env pageX pageY).2, r.isIllegalTransition = false) ∧
      (∀ r ∈ (c.mousemoveR env pageX pageY).2, r.isIllegalTransition = false) ∧
      c.mouseupR.2 = []) ∧
    ((c.can "dragStart" = false →
        c.dragStartR = (c, [.illegalTransition "dragStart" c.current])) ∧
      (c.can "dragEnd" = false →
        c.dragEndR = (c, [.illegalTransition "dragEnd" c.current])) ∧
      (c.can "drawWall" = false →
        c.drawWallR gridX gridY = (c, [.illegalTransition "drawWall" c.current])) ∧
      (c.can "eraseWall" = false →
        c.eraseWallR gridX gridY = (c, [.illegalTransition "eraseWall" c.current])) ∧
      (c.can "rest" = false → c.restR = (c, [.illegalTransition "rest" c.current]))) := by
  refine ⟨?_, ⟨?_, mousemove_current env pageX pageY c⟩, ?_, ?_,
    ⟨mousedownR_fst env pageX pageY c, mousemoveR_fst env pageX pageY c, mouseupR_fst c⟩,
    ⟨?_, ?_, mouseupR_snd c⟩, ⟨?_, ?_, ?_, ?_, ?_⟩⟩
  · rcases mousedown_cases env c pageX pageY gridX gridY hxy with
      ⟨h1, -, h⟩ | ⟨h1, -, h⟩ | ⟨h1, -, -, h⟩ | ⟨h1, -, h⟩ | ⟨-, h⟩
    · exact Or.inl ⟨h1, h⟩
    · exact Or.inr (Or.inl ⟨h1, h⟩)
    · exact Or.inr (Or.inr (Or.inl ⟨h1, h⟩))
    · exact Or.inr (Or.inr (Or.inr (Or.inl ⟨h1, h⟩)))
    · exact Or.inr (Or.inr (Or.inr (Or.inr h)))
  · rcases mousemove_cases env c pageX pageY gridX gridY hxy with
      h | ⟨-, -, -, h⟩ | ⟨-, -, -, h⟩ | ⟨-, -, h⟩ | ⟨-, -, h⟩
    · exact Or.inl h
    · exact Or.inr (Or.inl h)
    · exact Or.inr (Or.inr (Or.inl h))
    · exact Or.inr (Or.inr (Or.inr (Or.inl h)))
    · exact Or.inr (Or.inr (Or.inr (Or.inr h)))
  · intro hs
    have ht : c.transition = none := by
      by_contra hne
      have := hwf hne
      rw [this] at hs
      exact absurd hs (by decide)
    have hd : StateMachine.destination "rest" c.current = some "ready" := by
      simp only [List.mem_cons, List.mem_singleton, List.not_mem_nil, or_false] at hs
      rcases hs with h | h | h | h <;> rw [h] <;> decide
    have hne : c.current ≠ "ready" := by
      intro h
      rw [h] at hs
      exact absurd hs (by decide)
    have hnn : c.current ≠ "none" := by
      intro h
      rw [h] at hs
      exact absurd hs (by decide)
    have hcan : c.can "rest" = true := by simp [can, ht, hd]
    refine ⟨hcan, by simp [mouseup, hcan], ?_⟩
    simp [mouseup, hcan, rest, buildEvent, ht, hd, hne, hnn, onready]
  · intro hs
    have hd : StateMachine.destination "rest" c.current = none := by
      simp only [List.mem_cons, List.mem_singleton, List.not_mem_nil, or_false, not_or] at hs
      simp [StateMachine.destination, events, WILDCARD, hs]
    have hcan : c.can "rest" = false := by simp [can, hd]
    exact ⟨hcan, by simp [mouseup, hcan]⟩
  · intro r hr
    rw [mousedownR_snd env c pageX pageY gridX gridY hxy] at hr
    repeat' split at hr
    all_goals first
      | exact absurd hr (List.not_mem_nil _)
      | (rw [List.mem_singleton.mp hr]; rfl)
  · intro r hr
    rw [mousemoveR_snd env c pageX pageY gridX gridY hxy] at hr
    repeat' split at hr
    all_goals first
      | exact absurd hr (List.not_mem_nil _)
      | (rw [List.mem_singleton.mp hr]; rfl)
  · intro h
    simp [dragStartR, dragStart, event_of_not_can _ _ _ c h, rejection, h]
  · intro h
    simp [dragEndR, dragEnd, event_of_not_can _ _ _ c h, rejection, h]
  · intro h
    simp [drawWallR, drawWall, event_of_not_can _ _ _ c h, rejection, h]
  · intro h
    simp [eraseWallR, eraseWall, event_of_not_can _ _ _ c h, rejection, h]
  · intro h
    simp [restR, rest, event_of_not_can _ _ _ c h, rejection, h]

/-- C17 at the session `Sample.drawing`: the pointer-up there fires `rest`,
which can fire, and nothing is reported; called in `Sample.ready`, the event
method `rest` is reported as an illegal transition, and the handler does not
call it there. -/
theorem C17_pointer_guarded_witness :
    Sample.env.toGridCoordinate 5 4 = (5, 4) ∧ Sample.drawing.transition = none ∧
      Sample.drawing.current = "drawingWall" ∧ Sample.drawing.mouseup.current = "ready" ∧
      Sample.drawing.mouseupR.2 = [] ∧
      Sample.ready.restR.2 = [.illegalTransition "rest" "ready"] ∧
      Sample.ready.mouseupR.2 = [] :=
  ⟨rfl, by decide, by decide,
   ((C17_pointer_guarded Sample.env Sample.drawing 5 4 5 4 rfl
      (fun h => absurd (by decide) h)).2.2.1 (by decide)).2.2,
   (C17_pointer_guarded Sample.env Sample.drawing 5 4 5 4 rfl
      (fun h => absurd (by decide) h)).2.2.2.2.2.1.2.2,
   by decide, by decide⟩

/-- C18 (amended): in every state reached from `none` by a run of event
calls, pointer events, button clicks and timer callbacks, other than the
states without an entry action (`restarting`, `draggingStart`, `draggingEnd`,
`drawingWall`, `erasingWall`), the event bound to each enabled control button
is one of start, pause, resume, cancel, restart, clear, reset and is legal in
the current state. -/
theorem C18_buttons_legal (env : Env) (as : List Action)
    (hs : (Controller.create.run env as).current ∉
      ["restarting", "draggingStart", "draggingEnd", "drawingWall", "erasingWall"]) :
    ∀ b ∈ (Controller.create.run env as).buttons, b.enabled = true →
      ∀ e, b.callback = some e →
        e ∈ buttonEvents ∧ (Controller.create.run env as).can e = true := by
  have hinv := run_bound env as Controller.create (Or.inl create_initial)
  generalize Controller.create.run env as = k at hs hinv
  intro b hb hen e he
  rcases hinv with hI | hB
  · obtain ⟨-, -, -, -, ⟨b1, b2, b3, hbs, c1, c2, c3⟩, -⟩ := hI
    rw [hbs] at hb
    simp only [List.mem_cons, List.mem_singleton, List.not_mem_nil, or_false] at hb
    rcases hb with rfl | rfl | rfl
    · rw [c1] at he; cases he
    · rw [c2] at he; cases he
    · rw [c3] at he; cases he
  · obtain ⟨ht, hrest, -, b1, b2, b3, hbs, hfit⟩ := hB
    have hs2 : k.current ∈ ["ready", "searching", "paused", "finished", "modified"] := by
      simp only [restingStates, List.mem_cons, List.mem_singleton, List.not_mem_nil,
        or_false, not_or] at hrest hs ⊢
      tauto
    refine ⟨?_, buttons_legal_of_fit k ht b1 b2 b3 hbs hfit hs2 b hb hen e he⟩
    have hb2 := hb
    rw [hbs] at hb2
    simp only [List.mem_cons, List.mem_singleton, List.not_mem_nil, or_false] at hb2
    rcases hb2 with rfl | rfl | rfl
    · exact hfit.1 e he
    · exact hfit.2.1 e he
    · rw [hfit.2.2.1] at he
      cases he
      decide

/-- C18 after `init`, the grid callback and a click on the first button
(`start`): the controller is searching and the second button carries
`pause`. -/
theorem C18_buttons_legal_witness :
    (Controller.create.run Sample.env
      [Action.event "init" 0 0, Action.timer 0, Action.click 0]).current ∉
      ["restarting", "draggingStart", "draggingEnd", "drawingWall", "erasingWall"] ∧
    (Controller.create.run Sample.env
      [Action.event "init" 0 0, Action.timer 0, Action.click 0]).can "pause" = true :=
  ⟨by decide,
   (C18_buttons_legal Sample.env [Action.event "init" 0 0, Action.timer 0, Action.click 0]
     (by decide)
     { text := "Pause Search", enabled := true, callback := some "pause" } (by decide) rfl
     "pause" rfl).2⟩

/-- C18 as stated fails in `restarting`, which has no entry action: after
`init`, the grid callback, a click on the first button (`start`) and a second
click on it (`restart`) the controller is in `restarting`, the first button is
still enabled and still carries `restart`, and `restart` cannot fire. -/
theorem C18_buttons_legal_counterexample :
    (Controller.create.run Sample.env
      [Action.event "init" 0 0, Action.timer 0, Action.click 0, Action.click 0]).current
      = "restarting" ∧
    (Controller.create.run Sample.env
      [Action.event "init" 0 0, Action.timer 0, Action.click 0, Action.click 0]).buttons.get? 0
      = some { text := "Restart Search", enabled := true, callback := some "restart" } ∧
    (Controller.create.run Sample.env
      [Action.event "init" 0 0, Action.timer 0, Action.click 0, Action.click 0]).can "restart"
      = false := by
  refine ⟨by decide, by decide, by decide⟩

/-- C19: the default initialisation puts the start position on `(3, 4)`;
after every run from `none` of pointer events, button clicks, timer callbacks
and event calls (`drawWall` being fired by `mousedown` only) that has left
`none`, the start position is assigned and `isWalkableAt(startX, startY)` is
true.  In particular `dragStart` and `drawWall` are legal in exactly the same
states, a `mousedown` on the start cell leaves the grid as it is, and a
`mousemove` over the start cell changes nothing. -/
theorem C19_start_walkable (env : Env) (as : List Action)
    (has : ∀ a ∈ as, a.isDirectEdit = false)
    (hn : (Controller.create.run env as).current ≠ "none") :
    (∀ c : Controller, c.setDefaultStartEndPos.startX = some 3 ∧
      c.setDefaultStartEndPos.startY = some 4) ∧
    (∃ x y, (Controller.create.run env as).startX = some x ∧
      (Controller.create.run env as).startY = some y ∧
      (Controller.create.run env as).grid.isWalkableAt x y = true) ∧
    (∀ c : Controller, c.can "dragStart" = c.can "drawWall") ∧
    (∀ (c : Controller) (pageX pageY : Int),
      c.isStartPos (env.toGridCoordinate pageX pageY).1
        (env.toGridCoordinate pageX pageY).2 = true →
      (c.mousedown env pageX pageY).grid = c.grid ∧ c.mousemove env pageX pageY = c) := by
  refine ⟨setDefaultStartEndPos_start, ?_, can_dragStart_eq_drawWall, fun c pageX pageY h =>
    ⟨mousedown_grid_of_isStartPos env c pageX pageY h,
     mousemove_of_isStartPos env c pageX pageY h⟩⟩
  rcases run_inv env as Controller.create has (Or.inl create_initial) with hI | hA
  · exact absurd hI.1 hn
  · exact hA.2.2.2.2.2.2.1

/-- C19 on a run that drags the start position from `(3, 4)` to `(4, 4)`
and presses the pointer on the cell it left. -/
theorem C19_start_walkable_witness :
    (∀ a ∈ [Action.event "init" 0 0, Action.timer 0, Action.mousedown 3 4,
        Action.mousemove 4 4, Action.mouseup, Action.mousedown 3 4, Action.mouseup],
      a.isDirectEdit = false) ∧
    (Controller.create.run Sample.env
      [Action.event "init" 0 0, Action.timer 0, Action.mousedown 3 4,
        Action.mousemove 4 4, Action.mouseup, Action.mousedown 3 4, Action.mouseup]).current
      ≠ "none" ∧
    ∃ x y, (Controller.create.run Sample.env
      [Action.event "init" 0 0, Action.timer 0, Action.mousedown 3 4,
        Action.mousemove 4 4, Action.mouseup, Action.mousedown 3 4, Action.mouseup]).startX
        = some x ∧
      (Controller.create.run Sample.env
      [Action.event "init" 0 0, Action.timer 0, Action.mousedown 3 4,
        Action.mousemove 4 4, Action.mouseup, Action.mousedown 3 4, Action.mouseup]).startY
        = some y ∧
      (Controller.create.run Sample.env
      [Action.event "init" 0 0, Action.timer 0, Action.mousedown 3 4,
        Action.mousemove 4 4, Action.mouseup, Action.mousedown 3 4, Action.mouseup]).grid.isWalkableAt
        x y = true :=
  ⟨by decide, by decide,
   (C19_start_walkable Sample.env
     [Action.event "init" 0 0, Action.timer 0, Action.mousedown 3 4,
       Action.mousemove 4 4, Action.mouseup, Action.mousedown 3 4, Action.mouseup]
     (by decide) (by decide)).2.1⟩

/-- C20: the default initialisation leaves the end position as it is, so
unassigned; `mousemove` changes the end position in state `draggingEnd` only;
a `mousedown` enters `draggingEnd` only on the end position, and no
coordinate equals an unassigned end position.  Hence after every run from
`none` of pointer events, button clicks, timer callbacks and event calls
(`dragEnd` being fired by `mousedown` only) `endX` and `endY` are unassigned
and the current state is not `draggingEnd`. -/
theorem C20_end_unset (env : Env) (as : List Action)
    (has : ∀ a ∈ as, a.isDirectEdit = false) :
    (Controller.create.endX = none ∧ Controller.create.endY = none) ∧
    (∀ c : Controller, c.setDefaultStartEndPos.endX = c.endX ∧
      c.setDefaultStartEndPos.endY = c.endY) ∧
    (∀ (c : Controller) (pageX pageY : Int), c.current ≠ "draggingEnd" →
      (c.mousemove env pageX pageY).endX = c.endX ∧
      (c.mousemove env pageX pageY).endY = c.endY) ∧
    (∀ (c : Controller) (pageX pageY : Int), c.current ≠ "draggingEnd" →
      (c.mousedown env pageX pageY).current = "draggingEnd" →
      c.isEndPos (env.toGridCoordinate pageX pageY).1
        (env.toGridCoordinate pageX pageY).2 = true) ∧
    (∀ (c : Controller) (x y : Int), c.endX = none → c.isEndPos x y = false) ∧
    ((Controller.create.run env as).endX = none ∧
      (Controller.create.run env as).endY = none ∧
      (Controller.create.run env as).current ≠ "draggingEnd") := by
  refine ⟨⟨rfl, rfl⟩, setDefaultStartEndPos_end, fun c px py hc => mousemove_end env c px py hc,
    fun c px py hc h => mousedown_draggingEnd env c px py h hc,
    fun c x y h => isEndPos_of_unset c x y h, ?_⟩
  rcases run_inv env as Controller.create has (Or.inl create_initial) with hI | hA
  · refine ⟨hI.2.2.1, hI.2.2.2.1, ?_⟩
    rw [hI.1]
    decide
  · exact ⟨hA.2.2.2.2.2.2.2.1, hA.2.2.2.2.2.2.2.2, hA.2.2.1⟩

/-- C20 on a run that draws a wall and then starts a search. -/
theorem C20_end_unset_witness :
    (∀ a ∈ [Action.event "init" 0 0, Action.timer 0, Action.mousedown 20 20,
        Action.mousemove 21 20, Action.mouseup, Action.click 0],
      a.isDirectEdit = false) ∧
    (Controller.create.run Sample.env
      [Action.event "init" 0 0, Action.timer 0, Action.mousedown 20 20,
        Action.mousemove 21 20, Action.mouseup, Action.click 0]).endX = none ∧
    (Controller.create.run Sample.env
      [Action.event "init" 0 0, Action.timer 0, Action.mousedown 20 20,
        Action.mousemove 21 20, Action.mouseup, Action.click 0]).current ≠ "draggingEnd" :=
  ⟨by decide,
   (C20_end_unset Sample.env
     [Action.event "init" 0 0, Action.timer 0, Action.mousedown 20 20,
       Action.mousemove 21 20, Action.mouseup, Action.click 0] (by decide)).2.2.2.2.2.1,
   (C20_end_unset Sample.env
     [Action.event "init" 0 0, Action.timer 0, Action.mousedown 20 20,
       Action.mousemove 21 20, Action.mouseup, Action.click 0] (by decide)).2.2.2.2.2.2.2⟩

/-- C21: `modify` is the only event of the table with destination
`modified` (it is accepted in `finished`), and it is not among the events
bound to the buttons.  From a controller that is not in `modified`, the
pointer handlers, a playback tick and the deferred restart and reset routines
lead to a controller that is not in `modified`.  Hence after every prefix of
every run from `none` of pointer events, button clicks, timer callbacks and
event calls other than a direct call of `modify`, the current state is not
`modified`. -/
theorem C21_modified_unreachable (env : Env) (as : List Action)
    (has : ∀ a ∈ as, a.isModify = false) :
    (∀ name s, StateMachine.destination name s = some "modified" → name = "modify") ∧
    StateMachine.destination "modify" "finished" = some "modified" ∧
    "modify" ∉ buttonEvents ∧
    (∀ (k : Controller) (pageX pageY : Int), k.current ≠ "modified" →
      (k.mousedown env pageX pageY).current ≠ "modified" ∧
      (k.mousemove env pageX pageY).current ≠ "modified" ∧
      k.mouseup.current ≠ "modified" ∧
      (k.loopTick env).current ≠ "modified" ∧
      (k.restartDeferred env).current ≠ "modified" ∧
      k.resetDeferred.current ≠ "modified") ∧
    (∀ n, (Controller.create.run env (as.take n)).current ≠ "modified") := by
  refine ⟨destination_modified, by decide, by decide, fun k px py hk => ?_, fun n => ?_⟩
  · refine ⟨mousedown_ne_modified env px py k hk, ?_, mouseup_ne_modified k hk,
      loopTick_ne_modified env k hk, start_ne_modified env _ hk, hk⟩
    rw [mousemove_current]
    exact hk
  · exact run_ne_modified env _ Controller.create
      (fun a ha => has a (List.mem_of_mem_take ha)) (Or.inl create_initial) (by decide)

/-- C21 on a run that plays a search to its end, draws a wall and starts a
second search. -/
theorem C21_modified_unreachable_witness :
    (∀ a ∈ [Action.event "init" 0 0, Action.timer 0, Action.click 0, Action.timer 0,
        Action.timer 0, Action.timer 0, Action.mousedown 20 20, Action.mouseup,
        Action.click 0],
      a.isModify = false) ∧
    (Controller.create.run Sample.env
      ([Action.event "init" 0 0, Action.timer 0, Action.click 0, Action.timer 0,
        Action.timer 0, Action.timer 0, Action.mousedown 20 20, Action.mouseup,
        Action.click 0].take 6)).current = "finished" ∧
    (Controller.create.run Sample.env
      ([Action.event "init" 0 0, Action.timer 0, Action.click 0, Action.timer 0,
        Action.timer 0, Action.timer 0, Action.mousedown 20 20, Action.mouseup,
        Action.click 0].take 9)).current ≠ "modified" :=
  ⟨by decide, by decide,
   (C21_modified_unreachable Sample.env
     [Action.event "init" 0 0, Action.timer 0, Action.click 0, Action.timer 0,
       Action.timer 0, Action.timer 0, Action.mousedown 20 20, Action.mouseup,
       Action.click 0] (by decide)).2.2.2.2 9⟩

/-- C22: the scheduled callbacks are part of the state (`timers`).  Let a
search started in `ready`, with an empty queue and nothing scheduled, record
at least three supported operations.  `start` renders the first and arms one
tick; `pause` leaves that tick armed; `resume`, called before it fires,
renders the second operation and arms a second tick: the controller is
searching with two ticks armed.  From there, in whatever order the scheduled
callbacks fire, the operations rendered are at every moment the first `n`
supported operations, in queue order, and two ticks stay armed while the
controller is searching; once it is finished every supported operation has
been rendered exactly once, in queue order, followed by `showStats` and
`drawPath`; and firing ticks does finish playback.  Such a state is reached
from `none`: at most one armed tick is not an invariant. -/
theorem C22_ticks_multiply (env : Env) (c : Controller) (h1 : c.current = "ready")
    (h2 : c.transition = none) (h3 : c.operations = []) (h4 : c.timers = [])
    (h5 : 3 ≤ (supported env
      (env.findPath c.startX c.startY c.endX c.endY c.grid.clone).2).length) :
    ((c.start env).current = "searching" ∧ (c.start env).timers = [Timer.tick]) ∧
    ((c.start env).pause.current = "paused" ∧
      (c.start env).pause.timers = [Timer.tick]) ∧
    (((c.start env).pause.resume env).current = "searching" ∧
      ((c.start env).pause.resume env).timers = [Timer.tick, Timer.tick] ∧
      armedTicks ((c.start env).pause.resume env) = 2 ∧
      ((c.start env).pause.resume env).view =
        c.view ++ [.clearFootprints, .clearPath] ++
          ((supported env
            (env.findPath c.startX c.startY c.endX c.endY c.grid.clone).2).take 2).map
            render) ∧
    (∀ order : List Nat,
      (∃ n, n ≤ (supported env
            (env.findPath c.startX c.startY c.endX c.endY c.grid.clone).2).length ∧
        (((c.start env).pause.resume env).run env (order.map Action.timer)).current
          = "searching" ∧
        (((c.start env).pause.resume env).run env (order.map Action.timer)).view =
          c.view ++ [.clearFootprints, .clearPath] ++
            ((supported env
              (env.findPath c.startX c.startY c.endX c.endY c.grid.clone).2).take n).map
              render ∧
        supported env
          (((c.start env).pause.resume env).run env (order.map Action.timer)).operations =
          (supported env
            (env.findPath c.startX c.startY c.endX c.endY c.grid.clone).2).drop n ∧
        armedTicks (((c.start env).pause.resume env).run env (order.map Action.timer)) = 2) ∨
      ((((c.start env).pause.resume env).run env (order.map Action.timer)).current
          = "finished" ∧
        (((c.start env).pause.resume env).run env (order.map Action.timer)).operations = [] ∧
        (((c.start env).pause.resume env).run env (order.map Action.timer)).view =
          c.view ++ [.clearFootprints, .clearPath] ++
            (supported env
              (env.findPath c.startX c.startY c.endX c.endY c.grid.clone).2).map render ++
            [.showStats (some (env.findPath c.startX c.startY c.endX c.endY c.grid.clone).1)
                (some env.timeSpent)
                (some (env.findPath c.startX c.startY c.endX c.endY c.grid.clone).2.length),
             .drawPath
               (some (env.findPath c.startX c.startY c.endX c.endY c.grid.clone).1)])) ∧
    (∀ m, (supported env
        (env.findPath c.startX c.startY c.endX c.endY c.grid.clone).2).length - 2 < m →
      (((c.start env).pause.resume env).playTicks env m).current = "finished" ∧
      (((c.start env).pause.resume env).playTicks env m).view =
        c.view ++ [.clearFootprints, .clearPath] ++
          (supported env
            (env.findPath c.startX c.startY c.endX c.endY c.grid.clone).2).map render ++
          [.showStats (some (env.findPath c.startX c.startY c.endX c.endY c.grid.clone).1)
              (some env.timeSpent)
              (some (env.findPath c.startX c.startY c.endX c.endY c.grid.clone).2.length),
           .drawPath (some (env.findPath c.startX c.startY c.endX c.endY c.grid.clone).1)]) ∧
    (∃ (e : Env) (as : List Action),
      (Controller.create.run e as).current = "searching" ∧
      armedTicks (Controller.create.run e as) = 2) := by
  -- the names of the statement
  generalize hS : supported env
    (env.findPath c.startX c.startY c.endX c.endY c.grid.clone).2 = S at h5 ⊢
  generalize hF : ([.showStats (some (env.findPath c.startX c.startY c.endX c.endY c.grid.clone).1)
      (some env.timeSpent)
      (some (env.findPath c.startX c.startY c.endX c.endY c.grid.clone).2.length),
    .drawPath (some (env.findPath c.startX c.startY c.endX c.endY c.grid.clone).1)] :
      List ViewCall) = F
  -- the search
  obtain ⟨e1, e2⟩ := start_eq env c (Or.inl h1) h2
  obtain ⟨s1, s2, s3, s4, s5, s6, s7, -⟩ := searchReturned_spec env c h2
  rw [h3, List.nil_append] at s3 s4
  have st := searchReturned_timers env c
  rw [h4] at st
  have hp0 : Playing env (searchReturned env c) (S.drop 0)
      (c.view ++ [.clearFootprints, .clearPath] ++ (S.take 0).map render) F := by
    refine ⟨s1, s2, by rw [s3, hS]; rfl, by rw [s7]; simp, ?_⟩
    simp only [finishCalls, s4, s5, s6]
    exact hF
  have hstart : c.start env = (searchReturned env c).loopTick env := e1.trans e2
  -- the first tick, run by `start`
  obtain ⟨op1, op2, op3, rest, rfl⟩ : ∃ a b d r, S = a :: b :: d :: r := by
    match S, h5 with
    | a :: b :: d :: r, _ => exact ⟨a, b, d, r, rfl⟩
  have hp0b : Playing env (searchReturned env c) (op1 :: op2 :: op3 :: rest)
      (c.view ++ [.clearFootprints, .clearPath]) F := by
    simpa using hp0
  obtain ⟨hp1, -⟩ := loopTick_cons env _ _ _ _ _ hp0b
  have ht1 : (c.start env).timers = [Timer.tick] := by
    rw [hstart, loopTick_timers env _ s1 s2, st]
    rfl
  rw [← hstart] at hp1
  -- pause
  obtain ⟨p1, p2, p3, p4, p5, p6⟩ := pause_spec (c.start env) hp1.1 hp1.2.1
  -- resume
  have hres := resume_of_paused env (c.start env).pause p1 p2
  have hpd : Playing env (onsearching { (c.start env).pause with current := "searching" })
      (op2 :: op3 :: rest) (c.view ++ [.clearFootprints, .clearPath] ++ [render op1]) F := by
    rw [onsearching, setButtonStates_eq]
    exact ⟨rfl, p2, by rw [p3]; exact hp1.2.2.1, by rw [p4]; exact hp1.2.2.2.1,
      (show finishCalls (c.start env).pause = F from p6.trans hp1.2.2.2.2)⟩
  have htd : (onsearching { (c.start env).pause with current := "searching" }).timers =
      [Timer.tick] := by
    rw [onsearching, setButtonStates_eq]
    show (c.start env).pause.timers = _
    rw [p5, ht1]
  have hres2 : (c.start env).pause.resume env =
      loopTick env (onsearching { (c.start env).pause with current := "searching" }) := by
    rw [hres]; rfl
  obtain ⟨hp2, -⟩ := loopTick_cons env _ _ _ _ _ hpd
  have ht2 : ((c.start env).pause.resume env).timers = [Timer.tick, Timer.tick] := by
    rw [hres2, loopTick_timers env _ hpd.1 hpd.2.1, htd]
    rfl
  rw [← hres2] at hp2
  have hrep : Replaying env (op1 :: op2 :: op3 :: rest)
      (c.view ++ [.clearFootprints, .clearPath]) F ((c.start env).pause.resume env) := by
    left
    refine ⟨2, by simp, ?_, ht2⟩
    simpa using hp2
  refine ⟨⟨hp1.1, ht1⟩, ⟨p1, by rw [p5, ht1]⟩, ⟨hp2.1, ht2, by rw [armedTicks, ht2]; rfl, ?_⟩,
    fun order => ?_, fun m hm => ?_, ?_⟩
  · rw [hp2.2.2.2.1]
    simp
  · rcases run_timers_replaying env _ _ F order _ hrep with ⟨n, hn, hp, ht⟩ | ⟨hd, -⟩
    · left
      exact ⟨n, hn, hp.1, hp.2.2.2.1, hp.2.2.1, by rw [armedTicks, ht]; rfl⟩
    · right
      exact ⟨hd.1, hd.2.1, hd.2.2⟩
  · have hmem : Timer.tick ∈ ((c.start env).pause.resume env).timers := by
      rw [ht2]; simp
    have hdone := (playTicks_playing env m _ _ _ F hp2 hmem).2 (by simpa using hm)
    refine ⟨hdone.1, ?_⟩
    rw [hdone.2.2]
    simp
  · exact ⟨Sample.env,
      [Action.event "init" 0 0, Action.timer 0, Action.click 0, Action.click 1, Action.click 0],
      by decide, by decide⟩

/-- C22 at the session `Sample.ready`, whose search records three supported
operations: after `start`, `pause` and `resume` two ticks are armed, and three
ticks later playback is over. -/
theorem C22_ticks_multiply_witness :
    Sample.ready.current = "ready" ∧ Sample.ready.transition = none ∧
      Sample.ready.operations = [] ∧ Sample.ready.timers = [] ∧
      3 ≤ (supported Sample.env
        (Sample.env.findPath Sample.ready.startX Sample.ready.startY Sample.ready.endX
          Sample.ready.endY Sample.ready.grid.clone).2).length ∧
      armedTicks ((Sample.ready.start Sample.env).pause.resume Sample.env) = 2 ∧
      (((Sample.ready.start Sample.env).pause.resume Sample.env).playTicks Sample.env
        2).current = "finished" :=
  ⟨by decide, by decide, by decide, by decide, by decide,
   (C22_ticks_multiply Sample.env Sample.ready (by decide) (by decide) (by decide)
      (by decide) (by decide)).2.2.1.2.2.1,
   ((C22_ticks_multiply Sample.env Sample.ready (by decide) (by decide) (by decide)
      (by decide) (by decide)).2.2.2.2.1 2 (by decide)).1⟩

end Controller

end Hen
